import Mathlib

/-!
# Pipeline service gateway (`pipeline.pb.gw.go`)

A shallow embedding of the generated reverse proxy for `PipelineService`:
the seven route patterns, the query filters, the fourteen request functions
(`request_*` for the remote client, `local_request_*` for the in-process
server), the handler closures and the two registration functions.

Side effects are made explicit: a request function returns, next to its three
Go results, the list of operation invocations it performed, and a handler
returns the log of the calls it made.
-/

set_option autoImplicit false

namespace Gateway

/-! ## Errors -/

/-- The gRPC status codes (`google.golang.org/grpc/codes`). -/
inductive Code
  | OK | Canceled | Unknown | InvalidArgument | DeadlineExceeded | NotFound
  | AlreadyExists | PermissionDenied | ResourceExhausted | FailedPrecondition
  | Aborted | OutOfRange | Unimplemented | Internal | Unavailable | DataLoss
  | Unauthenticated
deriving DecidableEq, Repr

/-- The name a code prints as. -/
def Code.name : Code → String
  | .OK => "OK" | .Canceled => "Canceled" | .Unknown => "Unknown"
  | .InvalidArgument => "InvalidArgument" | .DeadlineExceeded => "DeadlineExceeded"
  | .NotFound => "NotFound" | .AlreadyExists => "AlreadyExists"
  | .PermissionDenied => "PermissionDenied" | .ResourceExhausted => "ResourceExhausted"
  | .FailedPrecondition => "FailedPrecondition" | .Aborted => "Aborted"
  | .OutOfRange => "OutOfRange" | .Unimplemented => "Unimplemented"
  | .Internal => "Internal" | .Unavailable => "Unavailable" | .DataLoss => "DataLoss"
  | .Unauthenticated => "Unauthenticated"

/-- A Go `error` value: the sentinel `io.EOF`, a gRPC status error (code and
message, as built by `status.Errorf`), or any other error, known by its text. -/
inductive GoError
  | EOF
  | status (code : Code) (message : String)
  | other (text : String)
deriving DecidableEq, Repr

/-- The text of an error, `err.Error()`, which is what the verb `%v` prints. -/
def GoError.Error : GoError → String
  | .EOF => "EOF"
  | .status c m => "rpc error: code = " ++ c.name ++ " desc = " ++ m
  | .other t => t

/-- The call `status.Errorf(c, "%v", err)`. -/
def status_Errorf_v (c : Code) (err : GoError) : GoError :=
  .status c err.Error

/-- The call `status.Errorf(c, "missing parameter %s", name)`. -/
def status_Errorf_missing (c : Code) (name : String) : GoError :=
  .status c ("missing parameter " ++ name)

/-- The call `status.Errorf(c, "type mismatch, parameter: %s, error: %v", name, err)`. -/
def status_Errorf_mismatch (c : Code) (name : String) (err : GoError) : GoError :=
  .status c ("type mismatch, parameter: " ++ name ++ ", error: " ++ err.Error)

/-! ## Path patterns -/

/-- The arguments of `runtime.NewPattern`: version, opcode list (opcode and
operand alternate), string pool and verb. -/
structure Pattern where
  version : Nat
  ops : List Nat
  pool : List String
  verb : String
deriving DecidableEq, Repr

/-- The Go call `strings.Join(elems, sep)`. -/
def strings_Join (elems : List String) (sep : String) : String :=
  sep.intercalate elems

/-- Modelled from the spec: the pattern machine of the grpc-gateway runtime
(`Pattern.Match`), which is not part of the source file. It runs over the
remaining opcodes, the remaining path components, the stack (top last) and the
bindings made so far. Opcode 0 does nothing, 1 (Push) consumes any component,
2 (LitPush) consumes a component equal to `pool[operand]`, 4 (ConcatN) joins
the top `operand` stack items with "/", 5 (Capture) binds `pool[operand]` to
the popped stack top. The match fails when components run out or remain. An
opcode list that a compiled pattern cannot have (odd length, unknown opcode,
operand outside the pool, stack underflow) yields no match. -/
def Pattern.run (pool : List String) :
    List Nat → List String → List String → List (String × String) →
      Option (List (String × String))
  | [], components, _, bindings =>
    if components.isEmpty then some bindings else none
  | [_], _, _, _ => none
  | code :: operand :: rest, components, stack, bindings =>
    match code with
    | 0 => Pattern.run pool rest components stack bindings
    | 1 =>
      match components with
      | [] => none
      | c :: cs => Pattern.run pool rest cs (stack ++ [c]) bindings
    | 2 =>
      match components with
      | [] => none
      | c :: cs =>
        match pool.get? operand with
        | none => none
        | some lit =>
          if c = lit then Pattern.run pool rest cs (stack ++ [c]) bindings else none
    | 4 =>
      if stack.length < operand then none
      else
        let l := stack.length - operand
        Pattern.run pool rest components
          (stack.take l ++ [strings_Join (stack.drop l) "/"]) bindings
    | 5 =>
      match pool.get? operand, stack.getLast? with
      | some name, some top =>
        Pattern.run pool rest components stack.dropLast (bindings ++ [(name, top)])
      | _, _ => none
    | _ => none

/-- Match a list of path components against a pattern (empty verb). -/
def Pattern.Match (p : Pattern) (components : List String) :
    Option (List (String × String)) :=
  Pattern.run p.pool p.ops components [] []

def pattern_PipelineService_CreatePipeline_0 : Pattern :=
  ⟨1, [2, 0, 2, 1, 2, 2], ["v1alpha2", "redpanda-connect", "pipelines"], ""⟩

def pattern_PipelineService_GetPipeline_0 : Pattern :=
  ⟨1, [2, 0, 2, 1, 2, 2, 1, 0, 4, 1, 5, 3],
    ["v1alpha2", "redpanda-connect", "pipelines", "id"], ""⟩

def pattern_PipelineService_ListPipelines_0 : Pattern :=
  ⟨1, [2, 0, 2, 1, 2, 2], ["v1alpha2", "redpanda-connect", "pipelines"], ""⟩

def pattern_PipelineService_UpdatePipeline_0 : Pattern :=
  ⟨1, [2, 0, 2, 1, 2, 2, 1, 0, 4, 1, 5, 3],
    ["v1alpha2", "redpanda-connect", "pipelines", "id"], ""⟩

def pattern_PipelineService_DeletePipeline_0 : Pattern :=
  ⟨1, [2, 0, 2, 1, 2, 2, 1, 0, 4, 1, 5, 3],
    ["v1alpha2", "redpanda-connect", "pipelines", "id"], ""⟩

def pattern_PipelineService_StopPipeline_0 : Pattern :=
  ⟨1, [2, 0, 2, 1, 2, 2, 1, 0, 4, 1, 5, 3, 2, 4],
    ["v1alpha2", "redpanda-connect", "pipelines", "id", "stop"], ""⟩

def pattern_PipelineService_StartPipeline_0 : Pattern :=
  ⟨1, [2, 0, 2, 1, 2, 2, 1, 0, 4, 1, 5, 3, 2, 4],
    ["v1alpha2", "redpanda-connect", "pipelines", "id", "start"], ""⟩

/-! ## Query filters -/

/-- The double-array trie `utilities.DoubleArray`. -/
structure DoubleArray where
  Encoding : List (String × Nat)
  Base : List Nat
  Check : List Nat
deriving DecidableEq, Repr

/-- Modelled from the spec: the scanning loop of `HasCommonPrefix` in the
grpc-gateway utilities, which is not part of the source file. From state `i`
it follows the tokens of the field path while each has a code in `Encoding`
and the transition `j = Base[i] + code` is within `Check` with
`Check[j] = i + 1`; it returns the state where scanning stopped. -/
def DoubleArray.scan (da : DoubleArray) : Nat → List String → Nat
  | i, [] => i
  | i, t :: ts =>
    match da.Encoding.lookup t with
    | none => i
    | some code =>
      let j := da.Base.getD i 0 + code
      if da.Check.length ≤ j ∨ da.Check.getD j 0 ≠ i + 1 then i
      else DoubleArray.scan da j ts

/-- Modelled from the spec: `HasCommonPrefix` of the grpc-gateway utilities,
the test whether a field path is excluded by the filter: false on an empty
`Base`; otherwise scan from state 0 and test the terminal transition
`j = Base[i] + len(Encoding)`. -/
def DoubleArray.HasCommonPrefix (da : DoubleArray) (seq : List String) : Bool :=
  if da.Base.length = 0 then false
  else
    let i := da.scan 0 seq
    let j := da.Base.getD i 0 + da.Encoding.length
    if da.Check.length ≤ j ∨ da.Check.getD j 0 ≠ i + 1 then false else true

def filter_PipelineService_ListPipelines_0 : DoubleArray :=
  ⟨[], [], []⟩

def filter_PipelineService_UpdatePipeline_0 : DoubleArray :=
  ⟨[("pipeline", 0), ("id", 1)], [1, 2, 4, 0, 0, 0, 0], [0, 1, 1, 2, 2, 3, 3]⟩

/-! ## Messages -/

/-- Modelled from the spec: the resource of pipeline.pb.go, which is not part
of the source file, with the fields the specification names. -/
structure Pipeline where
  Id : String := ""
  DisplayName : String := ""
  Description : String := ""
deriving DecidableEq, Repr

/-- Modelled from the spec: the body of a create request (pipeline.pb.go),
"resource minus server-assigned fields". -/
structure PipelineCreate where
  DisplayName : String := ""
  Description : String := ""
deriving DecidableEq, Repr

/-- Modelled from the spec: the body of an update request (pipeline.pb.go). -/
structure PipelineUpdate where
  DisplayName : String := ""
  Description : String := ""
deriving DecidableEq, Repr

/-- Modelled from the spec: the request envelopes of pipeline.pb.go. The
default of every field is its Go zero value, so that `{}` is what
`var protoReq T` declares. -/
structure CreatePipelineRequest where
  Pipeline : Option PipelineCreate := none
deriving DecidableEq, Repr

structure GetPipelineRequest where
  Id : String := ""
deriving DecidableEq, Repr

structure ListPipelinesRequest where
  PageSize : Int := 0
  PageToken : String := ""
deriving DecidableEq, Repr

structure UpdatePipelineRequest where
  Id : String := ""
  Pipeline : Option PipelineUpdate := none
  UpdateMask : Option (List String) := none
deriving DecidableEq, Repr

structure DeletePipelineRequest where
  Id : String := ""
deriving DecidableEq, Repr

structure StopPipelineRequest where
  Id : String := ""
deriving DecidableEq, Repr

structure StartPipelineRequest where
  Id : String := ""
deriving DecidableEq, Repr

/-- Modelled from the spec: the response envelopes of pipeline.pb.go. -/
structure CreatePipelineResponse where
  Pipeline : Option Pipeline := none
deriving DecidableEq, Repr

structure GetPipelineResponse where
  Pipeline : Option Pipeline := none
deriving DecidableEq, Repr

structure ListPipelinesResponse where
  Pipelines : List Pipeline := []
  NextPageToken : String := ""
deriving DecidableEq, Repr

structure UpdatePipelineResponse where
  Pipeline : Option Pipeline := none
deriving DecidableEq, Repr

structure DeletePipelineResponse where
deriving DecidableEq, Repr

structure StopPipelineResponse where
  Pipeline : Option Pipeline := none
deriving DecidableEq, Repr

structure StartPipelineResponse where
  Pipeline : Option Pipeline := none
deriving DecidableEq, Repr

/-- A non-nil `proto.Message` interface value returned by a request function:
its dynamic type is the pointer type of one of the seven responses, and the
pointer itself may be nil (`none`). A nil interface is `none : Option Message`. -/
inductive Message
  | create (m : Option CreatePipelineResponse)
  | get (m : Option GetPipelineResponse)
  | list (m : Option ListPipelinesResponse)
  | update (m : Option UpdatePipelineResponse)
  | delete (m : Option DeletePipelineResponse)
  | stop (m : Option StopPipelineResponse)
  | start (m : Option StartPipelineResponse)
deriving DecidableEq, Repr

/-! ## Metadata and contexts -/

/-- The gRPC metadata type `metadata.MD`, a map from keys to value lists. -/
abbrev MD := List (String × List String)

/-- Append values under a key, `out[k] = append(out[k], v...)`. -/
def MD.add : MD → String → List String → MD
  | [], k, v => [(k, v)]
  | (k1, v1) :: rest, k, v =>
    if k1 = k then (k1, v1 ++ v) :: rest else (k1, v1) :: MD.add rest k v

/-- The call `metadata.Join(a, b)`. -/
def metadata_Join (a b : MD) : MD :=
  (a ++ b).foldl (fun out kv => MD.add out kv.1 kv.2) []

/-- The header and trailer sets of `runtime.ServerMetadata`. -/
structure ServerMetadata where
  HeaderMD : MD := []
  TrailerMD : MD := []
deriving DecidableEq, Repr

/-- A request-scoped context: the values the gateway attaches to it. The
cancellation function made by `context.WithCancel` is not modelled. -/
structure Context where
  incoming : MD := []
  transportStream : Bool := false
  rpcMethod : Option String := none
  httpPathPattern : Option String := none
  serverMetadata : Option ServerMetadata := none
deriving DecidableEq, Repr

/-- The call `grpc.NewContextWithServerTransportStream(ctx, &stream)`. -/
def grpc_NewContextWithServerTransportStream (ctx : Context) : Context :=
  { ctx with transportStream := true }

/-- The call `runtime.NewServerMetadataContext(ctx, md)`. -/
def runtime_NewServerMetadataContext (ctx : Context) (md : ServerMetadata) : Context :=
  { ctx with serverMetadata := some md }

/-! ## Requests and collaborators -/

/-- An HTTP request, as far as the gateway looks at it: its context, the
outcome of reading its body to the end, the outcome of `ParseForm` and the
form values that call leaves in `req.Form`, in the order a loop over that map
visits them. -/
structure Request where
  Context : Context
  Body : Except GoError String
  ParseForm : Option GoError
  Form : List (String × List String)

/-- The call `utilities.IOReaderFactory(req.Body)`: the bytes read, or the
read error. -/
def utilities_IOReaderFactory (body : Except GoError String) : Except GoError String :=
  body

/-- A `runtime.Marshaler`, as far as the request functions use it: decoding a
body into the `Pipeline` field of a create or an update envelope gives the
value left in that field and the error returned. -/
structure Marshaler where
  DecodePipelineCreate : String → Option PipelineCreate × Option GoError
  DecodePipelineUpdate : String → Option PipelineUpdate × Option GoError

/-- The test `err != nil && err != io.EOF` on a decode error: the error to
report, if any. -/
def decodeFailure : Option GoError → Option GoError
  | none => none
  | some err => if err = GoError.EOF then none else some err

/-- Modelled from the spec: `runtime.String` of the grpc-gateway runtime, the
conversion of a path capture to a string field, which never fails. -/
def runtime_String (val : String) : Except GoError String :=
  .ok val

/-- Split off the fields of a string at a separator character: `acc` holds
the characters of the current field, last first. -/
def splitFields (sep : Char) : List Char → List Char → List String
  | [], acc => [String.mk acc.reverse]
  | c :: cs, acc =>
    if c = sep then String.mk acc.reverse :: splitFields sep cs []
    else splitFields sep cs (c :: acc)

/-- The Go call `strings.Split(s, ".")`. -/
def strings_Split_dot (s : String) : List String :=
  splitFields '.' s.data []

/-- Modelled from the spec: the query parser of the grpc-gateway runtime as
far as it depends on the message type: setting the field at a dotted path of
an envelope from the values of a query key (an unknown path is dropped
without error, a value that does not convert is an error). -/
structure QueryParser where
  populateListPipelinesRequest :
    ListPipelinesRequest → List String → List String → Except GoError ListPipelinesRequest
  populateUpdatePipelineRequest :
    UpdatePipelineRequest → List String → List String → Except GoError UpdatePipelineRequest

/-- Modelled from the spec: `runtime.PopulateQueryParameters`, which is not
part of the source file: for every key of the form values, the key is split
into a dotted field path; a path the filter excludes is skipped, any other is
bound into the message, and the first error ends the loop. -/
def runtime_PopulateQueryParameters {α : Type}
    (populate : α → List String → List String → Except GoError α)
    (msg : α) (values : List (String × List String)) (filter : DoubleArray) :
    Except GoError α :=
  match values with
  | [] => .ok msg
  | (key, vals) :: rest =>
    let fieldPath := strings_Split_dot key
    if filter.HasCommonPrefix fieldPath then
      runtime_PopulateQueryParameters populate msg rest filter
    else
      match populate msg fieldPath vals with
      | .error err => .error err
      | .ok msg1 => runtime_PopulateQueryParameters populate msg1 rest filter

/-- What an operation gives back: the response pointer, the error, and the
header and trailer metadata it sent (a remote call hands them over through
the `grpc.Header` and `grpc.Trailer` call options, a local call sets them on
the transport stream of its context). -/
structure Reply (ρ : Type) where
  resp : Option ρ
  err : Option GoError
  header : MD := []
  trailer : MD := []

/-- The remote-call capability `PipelineServiceClient`. -/
structure PipelineServiceClient where
  CreatePipeline : Context → CreatePipelineRequest → Reply CreatePipelineResponse
  GetPipeline : Context → GetPipelineRequest → Reply GetPipelineResponse
  ListPipelines : Context → ListPipelinesRequest → Reply ListPipelinesResponse
  UpdatePipeline : Context → UpdatePipelineRequest → Reply UpdatePipelineResponse
  DeletePipeline : Context → DeletePipelineRequest → Reply DeletePipelineResponse
  StopPipeline : Context → StopPipelineRequest → Reply StopPipelineResponse
  StartPipeline : Context → StartPipelineRequest → Reply StartPipelineResponse

/-- The local-call capability `PipelineServiceServer`. -/
structure PipelineServiceServer where
  CreatePipeline : Context → CreatePipelineRequest → Reply CreatePipelineResponse
  GetPipeline : Context → GetPipelineRequest → Reply GetPipelineResponse
  ListPipelines : Context → ListPipelinesRequest → Reply ListPipelinesResponse
  UpdatePipeline : Context → UpdatePipelineRequest → Reply UpdatePipelineResponse
  DeletePipeline : Context → DeletePipelineRequest → Reply DeletePipelineResponse
  StopPipeline : Context → StopPipelineRequest → Reply StopPipelineResponse
  StartPipeline : Context → StartPipelineRequest → Reply StartPipelineResponse

/-- One invocation of an operation: the context and the envelope passed. -/
inductive Call
  | CreatePipeline (ctx : Context) (req : CreatePipelineRequest)
  | GetPipeline (ctx : Context) (req : GetPipelineRequest)
  | ListPipelines (ctx : Context) (req : ListPipelinesRequest)
  | UpdatePipeline (ctx : Context) (req : UpdatePipelineRequest)
  | DeletePipeline (ctx : Context) (req : DeletePipelineRequest)
  | StopPipeline (ctx : Context) (req : StopPipelineRequest)
  | StartPipeline (ctx : Context) (req : StartPipelineRequest)
deriving DecidableEq, Repr

/-- The message and the error the client returns for an invocation. -/
def Call.viaClient (client : PipelineServiceClient) : Call → Message × Option GoError
  | .CreatePipeline ctx r => (.create (client.CreatePipeline ctx r).resp, (client.CreatePipeline ctx r).err)
  | .GetPipeline ctx r => (.get (client.GetPipeline ctx r).resp, (client.GetPipeline ctx r).err)
  | .ListPipelines ctx r => (.list (client.ListPipelines ctx r).resp, (client.ListPipelines ctx r).err)
  | .UpdatePipeline ctx r => (.update (client.UpdatePipeline ctx r).resp, (client.UpdatePipeline ctx r).err)
  | .DeletePipeline ctx r => (.delete (client.DeletePipeline ctx r).resp, (client.DeletePipeline ctx r).err)
  | .StopPipeline ctx r => (.stop (client.StopPipeline ctx r).resp, (client.StopPipeline ctx r).err)
  | .StartPipeline ctx r => (.start (client.StartPipeline ctx r).resp, (client.StartPipeline ctx r).err)

/-- The message and the error the server returns for an invocation. -/
def Call.viaServer (server : PipelineServiceServer) : Call → Message × Option GoError
  | .CreatePipeline ctx r => (.create (server.CreatePipeline ctx r).resp, (server.CreatePipeline ctx r).err)
  | .GetPipeline ctx r => (.get (server.GetPipeline ctx r).resp, (server.GetPipeline ctx r).err)
  | .ListPipelines ctx r => (.list (server.ListPipelines ctx r).resp, (server.ListPipelines ctx r).err)
  | .UpdatePipeline ctx r => (.update (server.UpdatePipeline ctx r).resp, (server.UpdatePipeline ctx r).err)
  | .DeletePipeline ctx r => (.delete (server.DeletePipeline ctx r).resp, (server.DeletePipeline ctx r).err)
  | .StopPipeline ctx r => (.stop (server.StopPipeline ctx r).resp, (server.StopPipeline ctx r).err)
  | .StartPipeline ctx r => (.start (server.StartPipeline ctx r).resp, (server.StartPipeline ctx r).err)

/-- The results of a request function (message, metadata, error) together
with its effects: the operation invocations it made, in order, and the header
and trailer sets written to the transport stream of the context. -/
structure Outcome where
  msg : Option Message
  metadata : ServerMetadata
  err : Option GoError
  calls : List Call
  streamHeader : MD := []
  streamTrailer : MD := []

/-- The statement `return nil, metadata, err` before any invocation. -/
def Outcome.returnNil (metadata : ServerMetadata) (err : GoError) : Outcome :=
  { msg := none, metadata := metadata, err := some err, calls := [] }

/-- The last two statements of a `request_*` function: `msg` and `err` are
the results of the client call, which has filled the metadata through its
call options. -/
def Outcome.ofClient {ρ : Type} (wrap : Option ρ → Message) (call : Call) (reply : Reply ρ) :
    Outcome :=
  { msg := some (wrap reply.resp), metadata := { HeaderMD := reply.header, TrailerMD := reply.trailer },
    err := reply.err, calls := [call] }

/-- The last two statements of a `local_request_*` function: `msg` and `err`
are the results of the server call, the metadata is still the zero value and
what the server sent is on the transport stream. -/
def Outcome.ofServer {ρ : Type} (wrap : Option ρ → Message) (call : Call) (reply : Reply ρ) :
    Outcome :=
  { msg := some (wrap reply.resp), metadata := {}, err := reply.err, calls := [call],
    streamHeader := reply.header, streamTrailer := reply.trailer }

/-! ## Request functions -/

def request_PipelineService_CreatePipeline_0 (ctx : Context)
    (marshaler : Marshaler) (client : PipelineServiceClient) (req : Request)
    (_pathParams : List (String × String)) : Outcome :=
  let protoReq : CreatePipelineRequest := {}
  let metadata : ServerMetadata := {}
  match utilities_IOReaderFactory req.Body with
  | .error berr => Outcome.returnNil metadata (status_Errorf_v .InvalidArgument berr)
  | .ok newReader =>
    let decoded := marshaler.DecodePipelineCreate newReader
    let protoReq := { protoReq with Pipeline := decoded.1 }
    match decodeFailure decoded.2 with
    | some err => Outcome.returnNil metadata (status_Errorf_v .InvalidArgument err)
    | none =>
      Outcome.ofClient Message.create (.CreatePipeline ctx protoReq)
        (client.CreatePipeline ctx protoReq)

def local_request_PipelineService_CreatePipeline_0 (ctx : Context)
    (marshaler : Marshaler) (server : PipelineServiceServer) (req : Request)
    (_pathParams : List (String × String)) : Outcome :=
  let protoReq : CreatePipelineRequest := {}
  let metadata : ServerMetadata := {}
  match utilities_IOReaderFactory req.Body with
  | .error berr => Outcome.returnNil metadata (status_Errorf_v .InvalidArgument berr)
  | .ok newReader =>
    let decoded := marshaler.DecodePipelineCreate newReader
    let protoReq := { protoReq with Pipeline := decoded.1 }
    match decodeFailure decoded.2 with
    | some err => Outcome.returnNil metadata (status_Errorf_v .InvalidArgument err)
    | none =>
      Outcome.ofServer Message.create (.CreatePipeline ctx protoReq)
        (server.CreatePipeline ctx protoReq)

def request_PipelineService_GetPipeline_0 (ctx : Context)
    (_marshaler : Marshaler) (client : PipelineServiceClient) (_req : Request)
    (pathParams : List (String × String)) : Outcome :=
  let protoReq : GetPipelineRequest := {}
  let metadata : ServerMetadata := {}
  match pathParams.lookup "id" with
  | none => Outcome.returnNil metadata (status_Errorf_missing .InvalidArgument "id")
  | some val =>
    match runtime_String val with
    | .error err =>
      Outcome.returnNil metadata (status_Errorf_mismatch .InvalidArgument "id" err)
    | .ok id =>
      let protoReq := { protoReq with Id := id }
      Outcome.ofClient Message.get (.GetPipeline ctx protoReq)
        (client.GetPipeline ctx protoReq)

def local_request_PipelineService_GetPipeline_0 (ctx : Context)
    (_marshaler : Marshaler) (server : PipelineServiceServer) (_req : Request)
    (pathParams : List (String × String)) : Outcome :=
  let protoReq : GetPipelineRequest := {}
  let metadata : ServerMetadata := {}
  match pathParams.lookup "id" with
  | none => Outcome.returnNil metadata (status_Errorf_missing .InvalidArgument "id")
  | some val =>
    match runtime_String val with
    | .error err =>
      Outcome.returnNil metadata (status_Errorf_mismatch .InvalidArgument "id" err)
    | .ok id =>
      let protoReq := { protoReq with Id := id }
      Outcome.ofServer Message.get (.GetPipeline ctx protoReq)
        (server.GetPipeline ctx protoReq)

def request_PipelineService_ListPipelines_0 (qp : QueryParser) (ctx : Context)
    (_marshaler : Marshaler) (client : PipelineServiceClient) (req : Request)
    (_pathParams : List (String × String)) : Outcome :=
  let protoReq : ListPipelinesRequest := {}
  let metadata : ServerMetadata := {}
  match req.ParseForm with
  | some err => Outcome.returnNil metadata (status_Errorf_v .InvalidArgument err)
  | none =>
    match runtime_PopulateQueryParameters qp.populateListPipelinesRequest protoReq req.Form
        filter_PipelineService_ListPipelines_0 with
    | .error err => Outcome.returnNil metadata (status_Errorf_v .InvalidArgument err)
    | .ok protoReq =>
    Outcome.ofClient Message.list (.ListPipelines ctx protoReq)
      (client.ListPipelines ctx protoReq)

def local_request_PipelineService_ListPipelines_0 (qp : QueryParser) (ctx : Context)
    (_marshaler : Marshaler) (server : PipelineServiceServer) (req : Request)
    (_pathParams : List (String × String)) : Outcome :=
  let protoReq : ListPipelinesRequest := {}
  let metadata : ServerMetadata := {}
  match req.ParseForm with
  | some err => Outcome.returnNil metadata (status_Errorf_v .InvalidArgument err)
  | none =>
    match runtime_PopulateQueryParameters qp.populateListPipelinesRequest protoReq req.Form
        filter_PipelineService_ListPipelines_0 with
    | .error err => Outcome.returnNil metadata (status_Errorf_v .InvalidArgument err)
    | .ok protoReq =>
    Outcome.ofServer Message.list (.ListPipelines ctx protoReq)
      (server.ListPipelines ctx protoReq)

def request_PipelineService_UpdatePipeline_0 (qp : QueryParser) (ctx : Context)
    (marshaler : Marshaler) (client : PipelineServiceClient) (req : Request)
    (pathParams : List (String × String)) : Outcome :=
  let protoReq : UpdatePipelineRequest := {}
  let metadata : ServerMetadata := {}
  match utilities_IOReaderFactory req.Body with
  | .error berr => Outcome.returnNil metadata (status_Errorf_v .InvalidArgument berr)
  | .ok newReader =>
    let decoded := marshaler.DecodePipelineUpdate newReader
    let protoReq := { protoReq with Pipeline := decoded.1 }
    match decodeFailure decoded.2 with
    | some err => Outcome.returnNil metadata (status_Errorf_v .InvalidArgument err)
    | none =>
      match pathParams.lookup "id" with
      | none => Outcome.returnNil metadata (status_Errorf_missing .InvalidArgument "id")
      | some val =>
        match runtime_String val with
        | .error err =>
          Outcome.returnNil metadata (status_Errorf_mismatch .InvalidArgument "id" err)
        | .ok id =>
          let protoReq := { protoReq with Id := id }
          match req.ParseForm with
          | some err => Outcome.returnNil metadata (status_Errorf_v .InvalidArgument err)
          | none =>
            match runtime_PopulateQueryParameters qp.populateUpdatePipelineRequest protoReq req.Form
                filter_PipelineService_UpdatePipeline_0 with
            | .error err => Outcome.returnNil metadata (status_Errorf_v .InvalidArgument err)
            | .ok protoReq =>
              Outcome.ofClient Message.update (.UpdatePipeline ctx protoReq)
                (client.UpdatePipeline ctx protoReq)

def local_request_PipelineService_UpdatePipeline_0 (qp : QueryParser) (ctx : Context)
    (marshaler : Marshaler) (server : PipelineServiceServer) (req : Request)
    (pathParams : List (String × String)) : Outcome :=
  let protoReq : UpdatePipelineRequest := {}
  let metadata : ServerMetadata := {}
  match utilities_IOReaderFactory req.Body with
  | .error berr => Outcome.returnNil metadata (status_Errorf_v .InvalidArgument berr)
  | .ok newReader =>
    let decoded := marshaler.DecodePipelineUpdate newReader
    let protoReq := { protoReq with Pipeline := decoded.1 }
    match decodeFailure decoded.2 with
    | some err => Outcome.returnNil metadata (status_Errorf_v .InvalidArgument err)
    | none =>
      match pathParams.lookup "id" with
      | none => Outcome.returnNil metadata (status_Errorf_missing .InvalidArgument "id")
      | some val =>
        match runtime_String val with
        | .error err =>
          Outcome.returnNil metadata (status_Errorf_mismatch .InvalidArgument "id" err)
        | .ok id =>
          let protoReq := { protoReq with Id := id }
          match req.ParseForm with
          | some err => Outcome.returnNil metadata (status_Errorf_v .InvalidArgument err)
          | none =>
            match runtime_PopulateQueryParameters qp.populateUpdatePipelineRequest protoReq req.Form
                filter_PipelineService_UpdatePipeline_0 with
            | .error err => Outcome.returnNil metadata (status_Errorf_v .InvalidArgument err)
            | .ok protoReq =>
              Outcome.ofServer Message.update (.UpdatePipeline ctx protoReq)
                (server.UpdatePipeline ctx protoReq)

def request_PipelineService_DeletePipeline_0 (ctx : Context)
    (_marshaler : Marshaler) (client : PipelineServiceClient) (_req : Request)
    (pathParams : List (String × String)) : Outcome :=
  let protoReq : DeletePipelineRequest := {}
  let metadata : ServerMetadata := {}
  match pathParams.lookup "id" with
  | none => Outcome.returnNil metadata (status_Errorf_missing .InvalidArgument "id")
  | some val =>
    match runtime_String val with
    | .error err =>
      Outcome.returnNil metadata (status_Errorf_mismatch .InvalidArgument "id" err)
    | .ok id =>
      let protoReq := { protoReq with Id := id }
      Outcome.ofClient Message.delete (.DeletePipeline ctx protoReq)
        (client.DeletePipeline ctx protoReq)

def local_request_PipelineService_DeletePipeline_0 (ctx : Context)
    (_marshaler : Marshaler) (server : PipelineServiceServer) (_req : Request)
    (pathParams : List (String × String)) : Outcome :=
  let protoReq : DeletePipelineRequest := {}
  let metadata : ServerMetadata := {}
  match pathParams.lookup "id" with
  | none => Outcome.returnNil metadata (status_Errorf_missing .InvalidArgument "id")
  | some val =>
    match runtime_String val with
    | .error err =>
      Outcome.returnNil metadata (status_Errorf_mismatch .InvalidArgument "id" err)
    | .ok id =>
      let protoReq := { protoReq with Id := id }
      Outcome.ofServer Message.delete (.DeletePipeline ctx protoReq)
        (server.DeletePipeline ctx protoReq)

def request_PipelineService_StopPipeline_0 (ctx : Context)
    (_marshaler : Marshaler) (client : PipelineServiceClient) (_req : Request)
    (pathParams : List (String × String)) : Outcome :=
  let protoReq : StopPipelineRequest := {}
  let metadata : ServerMetadata := {}
  match pathParams.lookup "id" with
  | none => Outcome.returnNil metadata (status_Errorf_missing .InvalidArgument "id")
  | some val =>
    match runtime_String val with
    | .error err =>
      Outcome.returnNil metadata (status_Errorf_mismatch .InvalidArgument "id" err)
    | .ok id =>
      let protoReq := { protoReq with Id := id }
      Outcome.ofClient Message.stop (.StopPipeline ctx protoReq)
        (client.StopPipeline ctx protoReq)

def local_request_PipelineService_StopPipeline_0 (ctx : Context)
    (_marshaler : Marshaler) (server : PipelineServiceServer) (_req : Request)
    (pathParams : List (String × String)) : Outcome :=
  let protoReq : StopPipelineRequest := {}
  let metadata : ServerMetadata := {}
  match pathParams.lookup "id" with
  | none => Outcome.returnNil metadata (status_Errorf_missing .InvalidArgument "id")
  | some val =>
    match runtime_String val with
    | .error err =>
      Outcome.returnNil metadata (status_Errorf_mismatch .InvalidArgument "id" err)
    | .ok id =>
      let protoReq := { protoReq with Id := id }
      Outcome.ofServer Message.stop (.StopPipeline ctx protoReq)
        (server.StopPipeline ctx protoReq)

def request_PipelineService_StartPipeline_0 (ctx : Context)
    (_marshaler : Marshaler) (client : PipelineServiceClient) (_req : Request)
    (pathParams : List (String × String)) : Outcome :=
  let protoReq : StartPipelineRequest := {}
  let metadata : ServerMetadata := {}
  match pathParams.lookup "id" with
  | none => Outcome.returnNil metadata (status_Errorf_missing .InvalidArgument "id")
  | some val =>
    match runtime_String val with
    | .error err =>
      Outcome.returnNil metadata (status_Errorf_mismatch .InvalidArgument "id" err)
    | .ok id =>
      let protoReq := { protoReq with Id := id }
      Outcome.ofClient Message.start (.StartPipeline ctx protoReq)
        (client.StartPipeline ctx protoReq)

def local_request_PipelineService_StartPipeline_0 (ctx : Context)
    (_marshaler : Marshaler) (server : PipelineServiceServer) (_req : Request)
    (pathParams : List (String × String)) : Outcome :=
  let protoReq : StartPipelineRequest := {}
  let metadata : ServerMetadata := {}
  match pathParams.lookup "id" with
  | none => Outcome.returnNil metadata (status_Errorf_missing .InvalidArgument "id")
  | some val =>
    match runtime_String val with
    | .error err =>
      Outcome.returnNil metadata (status_Errorf_mismatch .InvalidArgument "id" err)
    | .ok id =>
      let protoReq := { protoReq with Id := id }
      Outcome.ofServer Message.start (.StartPipeline ctx protoReq)
        (server.StartPipeline ctx protoReq)

/-! ## Handlers and registration -/

/-- The seven operations of the service. -/
inductive Op
  | CreatePipeline | GetPipeline | ListPipelines | UpdatePipeline | DeletePipeline
  | StopPipeline | StartPipeline
deriving DecidableEq, Repr

/-- The response argument a handler hands to its forwarder: the message
returned by the request function, either as it is (`resp`) or inside one of
the five wrapper structs that carry an `XXX_ResponseBody` method. -/
inductive ResponseArg
  | response_PipelineService_CreatePipeline_0 (m : Option Message)
  | response_PipelineService_GetPipeline_0 (m : Option Message)
  | response_PipelineService_UpdatePipeline_0 (m : Option Message)
  | response_PipelineService_StopPipeline_0 (m : Option Message)
  | response_PipelineService_StartPipeline_0 (m : Option Message)
  | resp (m : Option Message)
deriving DecidableEq, Repr

/-- The calls a handler makes, as logged: the context annotation with the
error it returned, the request function, each operation invocation made by
the request function, the error writer `runtime.HTTPError` and the forwarder
`forward_PipelineService_*_0` of an operation. The mux, marshaler, response
writer and request arguments are the same in every call and are not logged. -/
inductive Event
  | annotate (incoming : Bool) (rpcMethod httpPathPattern : String) (err : Option GoError)
  | request (isLocal : Bool) (op : Op)
  | invoke (call : Call)
  | HTTPError (ctx : Context) (err : GoError)
  | forward (op : Op) (ctx : Context) (resp : ResponseArg)
deriving DecidableEq, Repr

/-- A handler closure: from the request and the path parameters to the log
of the calls made while serving it. -/
abbrev Handler := Request → List (String × String) → List Event

/-- One registration made by `mux.Handle`. -/
structure Route where
  meth : String
  pat : Pattern
  h : Handler

/-- The `runtime.ServeMux`, as far as this file uses it: the registrations
made so far, in the order of the `Handle` calls, the choice of the inbound and
outbound marshalers for a request, and the two context annotators (given the
context, the request, the RPC method name and the HTTP path pattern). -/
structure ServeMux where
  handlers : List Route
  MarshalerForRequest : Request → Marshaler × Marshaler
  AnnotateContext : Context → Request → String → String → Except GoError Context
  AnnotateIncomingContext : Context → Request → String → String → Except GoError Context

/-- The call `mux.Handle(meth, pat, h)`. -/
def ServeMux.Handle (mux : ServeMux) (meth : String) (pat : Pattern) (h : Handler) : ServeMux :=
  { mux with handlers := mux.handlers ++ [⟨meth, pat, h⟩] }

/-- The body shared by the seven closures of
`RegisterPipelineServiceHandlerServer`, which differ in the operation (its
method name, path pattern and `local_request_*` function) and in how the
response is handed to the forwarder. -/
def handlerServer (mux : ServeMux) (op : Op) (rpcMethod httpPathPattern : String)
    (local_request : Context → Marshaler → Request → List (String × String) → Outcome)
    (response : Option Message → ResponseArg) : Handler := fun req pathParams =>
  let ctx := grpc_NewContextWithServerTransportStream req.Context
  let inboundMarshaler := (mux.MarshalerForRequest req).1
  match mux.AnnotateIncomingContext ctx req rpcMethod httpPathPattern with
  | .error err => [.annotate true rpcMethod httpPathPattern (some err), .HTTPError ctx err]
  | .ok annotatedContext =>
    let r := local_request annotatedContext inboundMarshaler req pathParams
    let md : ServerMetadata :=
      { HeaderMD := metadata_Join r.metadata.HeaderMD r.streamHeader,
        TrailerMD := metadata_Join r.metadata.TrailerMD r.streamTrailer }
    let annotatedContext := runtime_NewServerMetadataContext annotatedContext md
    [.annotate true rpcMethod httpPathPattern none, .request true op] ++
      r.calls.map Event.invoke ++
      match r.err with
      | some err => [.HTTPError annotatedContext err]
      | none => [.forward op annotatedContext (response r.msg)]

/-- The body shared by the seven closures of
`RegisterPipelineServiceHandlerClient`. -/
def handlerClient (mux : ServeMux) (op : Op) (rpcMethod httpPathPattern : String)
    (request : Context → Marshaler → Request → List (String × String) → Outcome)
    (response : Option Message → ResponseArg) : Handler := fun req pathParams =>
  let ctx := req.Context
  let inboundMarshaler := (mux.MarshalerForRequest req).1
  match mux.AnnotateContext ctx req rpcMethod httpPathPattern with
  | .error err => [.annotate false rpcMethod httpPathPattern (some err), .HTTPError ctx err]
  | .ok annotatedContext =>
    let r := request annotatedContext inboundMarshaler req pathParams
    let annotatedContext := runtime_NewServerMetadataContext annotatedContext r.metadata
    [.annotate false rpcMethod httpPathPattern none, .request false op] ++
      r.calls.map Event.invoke ++
      match r.err with
      | some err => [.HTTPError annotatedContext err]
      | none => [.forward op annotatedContext (response r.msg)]

def RegisterPipelineServiceHandlerServer (qp : QueryParser) (mux : ServeMux)
    (server : PipelineServiceServer) : ServeMux × Option GoError :=
  let m1 := mux.Handle "POST" pattern_PipelineService_CreatePipeline_0
    (handlerServer mux .CreatePipeline "/redpanda.api.dataplane.v1alpha2.PipelineService/CreatePipeline"
      "/v1alpha2/redpanda-connect/pipelines"
      (fun ctx marshaler req pathParams =>
        local_request_PipelineService_CreatePipeline_0 ctx marshaler server req pathParams)
      .response_PipelineService_CreatePipeline_0)
  let m2 := m1.Handle "GET" pattern_PipelineService_GetPipeline_0
    (handlerServer mux .GetPipeline "/redpanda.api.dataplane.v1alpha2.PipelineService/GetPipeline"
      "/v1alpha2/redpanda-connect/pipelines/{id}"
      (fun ctx marshaler req pathParams =>
        local_request_PipelineService_GetPipeline_0 ctx marshaler server req pathParams)
      .response_PipelineService_GetPipeline_0)
  let m3 := m2.Handle "GET" pattern_PipelineService_ListPipelines_0
    (handlerServer mux .ListPipelines "/redpanda.api.dataplane.v1alpha2.PipelineService/ListPipelines"
      "/v1alpha2/redpanda-connect/pipelines"
      (fun ctx marshaler req pathParams =>
        local_request_PipelineService_ListPipelines_0 qp ctx marshaler server req pathParams)
      .resp)
  let m4 := m3.Handle "PUT" pattern_PipelineService_UpdatePipeline_0
    (handlerServer mux .UpdatePipeline "/redpanda.api.dataplane.v1alpha2.PipelineService/UpdatePipeline"
      "/v1alpha2/redpanda-connect/pipelines/{id}"
      (fun ctx marshaler req pathParams =>
        local_request_PipelineService_UpdatePipeline_0 qp ctx marshaler server req pathParams)
      .response_PipelineService_UpdatePipeline_0)
  let m5 := m4.Handle "DELETE" pattern_PipelineService_DeletePipeline_0
    (handlerServer mux .DeletePipeline "/redpanda.api.dataplane.v1alpha2.PipelineService/DeletePipeline"
      "/v1alpha2/redpanda-connect/pipelines/{id}"
      (fun ctx marshaler req pathParams =>
        local_request_PipelineService_DeletePipeline_0 ctx marshaler server req pathParams)
      .resp)
  let m6 := m5.Handle "PUT" pattern_PipelineService_StopPipeline_0
    (handlerServer mux .StopPipeline "/redpanda.api.dataplane.v1alpha2.PipelineService/StopPipeline"
      "/v1alpha2/redpanda-connect/pipelines/{id}/stop"
      (fun ctx marshaler req pathParams =>
        local_request_PipelineService_StopPipeline_0 ctx marshaler server req pathParams)
      .response_PipelineService_StopPipeline_0)
  let m7 := m6.Handle "PUT" pattern_PipelineService_StartPipeline_0
    (handlerServer mux .StartPipeline "/redpanda.api.dataplane.v1alpha2.PipelineService/StartPipeline"
      "/v1alpha2/redpanda-connect/pipelines/{id}/start"
      (fun ctx marshaler req pathParams =>
        local_request_PipelineService_StartPipeline_0 ctx marshaler server req pathParams)
      .response_PipelineService_StartPipeline_0)
  (m7, none)

def RegisterPipelineServiceHandlerClient (qp : QueryParser) (mux : ServeMux)
    (client : PipelineServiceClient) : ServeMux × Option GoError :=
  let m1 := mux.Handle "POST" pattern_PipelineService_CreatePipeline_0
    (handlerClient mux .CreatePipeline "/redpanda.api.dataplane.v1alpha2.PipelineService/CreatePipeline"
      "/v1alpha2/redpanda-connect/pipelines"
      (fun ctx marshaler req pathParams =>
        request_PipelineService_CreatePipeline_0 ctx marshaler client req pathParams)
      .response_PipelineService_CreatePipeline_0)
  let m2 := m1.Handle "GET" pattern_PipelineService_GetPipeline_0
    (handlerClient mux .GetPipeline "/redpanda.api.dataplane.v1alpha2.PipelineService/GetPipeline"
      "/v1alpha2/redpanda-connect/pipelines/{id}"
      (fun ctx marshaler req pathParams =>
        request_PipelineService_GetPipeline_0 ctx marshaler client req pathParams)
      .response_PipelineService_GetPipeline_0)
  let m3 := m2.Handle "GET" pattern_PipelineService_ListPipelines_0
    (handlerClient mux .ListPipelines "/redpanda.api.dataplane.v1alpha2.PipelineService/ListPipelines"
      "/v1alpha2/redpanda-connect/pipelines"
      (fun ctx marshaler req pathParams =>
        request_PipelineService_ListPipelines_0 qp ctx marshaler client req pathParams)
      .resp)
  let m4 := m3.Handle "PUT" pattern_PipelineService_UpdatePipeline_0
    (handlerClient mux .UpdatePipeline "/redpanda.api.dataplane.v1alpha2.PipelineService/UpdatePipeline"
      "/v1alpha2/redpanda-connect/pipelines/{id}"
      (fun ctx marshaler req pathParams =>
        request_PipelineService_UpdatePipeline_0 qp ctx marshaler client req pathParams)
      .response_PipelineService_UpdatePipeline_0)
  let m5 := m4.Handle "DELETE" pattern_PipelineService_DeletePipeline_0
    (handlerClient mux .DeletePipeline "/redpanda.api.dataplane.v1alpha2.PipelineService/DeletePipeline"
      "/v1alpha2/redpanda-connect/pipelines/{id}"
      (fun ctx marshaler req pathParams =>
        request_PipelineService_DeletePipeline_0 ctx marshaler client req pathParams)
      .resp)
  let m6 := m5.Handle "PUT" pattern_PipelineService_StopPipeline_0
    (handlerClient mux .StopPipeline "/redpanda.api.dataplane.v1alpha2.PipelineService/StopPipeline"
      "/v1alpha2/redpanda-connect/pipelines/{id}/stop"
      (fun ctx marshaler req pathParams =>
        request_PipelineService_StopPipeline_0 ctx marshaler client req pathParams)
      .response_PipelineService_StopPipeline_0)
  let m7 := m6.Handle "PUT" pattern_PipelineService_StartPipeline_0
    (handlerClient mux .StartPipeline "/redpanda.api.dataplane.v1alpha2.PipelineService/StartPipeline"
      "/v1alpha2/redpanda-connect/pipelines/{id}/start"
      (fun ctx marshaler req pathParams =>
        request_PipelineService_StartPipeline_0 ctx marshaler client req pathParams)
      .response_PipelineService_StartPipeline_0)
  (m7, none)

/-! ## Specification predicates -/

/-- What is asked of a request function that captures `id` from the path:
it stops before the invocation exactly when the key is absent, then with a
nil message and the InvalidArgument error "missing parameter id"; when the
key is present with value `v` it makes the one invocation `call v` and
returns the message and the error of that invocation. -/
def CapturesId (pathParams : List (String × String)) (out : Outcome)
    (call : String → Call) (result : Call → Message × Option GoError) : Prop :=
  (out.calls = [] ↔ pathParams.lookup "id" = none) ∧
  (pathParams.lookup "id" = none →
    out.msg = none ∧ out.err = some (.status .InvalidArgument "missing parameter id")) ∧
  (∀ v, pathParams.lookup "id" = some v →
    out.calls = [call v] ∧ out.msg = some (result (call v)).1 ∧ out.err = (result (call v)).2)

/-- The method and pattern of each route, in order. -/
def routeTable (routes : List Route) : List (String × Pattern) :=
  routes.map (fun r => (r.meth, r.pat))

/-- The routes a registration function added to a mux that held `before`. -/
def addedRoutes (before : ServeMux) (after : ServeMux × Option GoError) : List Route :=
  after.1.handlers.drop before.handlers.length

/-- The operation an invocation belongs to. -/
def Call.op : Call → Op
  | .CreatePipeline _ _ => .CreatePipeline
  | .GetPipeline _ _ => .GetPipeline
  | .ListPipelines _ _ => .ListPipelines
  | .UpdatePipeline _ _ => .UpdatePipeline
  | .DeletePipeline _ _ => .DeletePipeline
  | .StopPipeline _ _ => .StopPipeline
  | .StartPipeline _ _ => .StartPipeline

/-- The context an invocation was made with. -/
def Call.ctx : Call → Context
  | .CreatePipeline ctx _ => ctx
  | .GetPipeline ctx _ => ctx
  | .ListPipelines ctx _ => ctx
  | .UpdatePipeline ctx _ => ctx
  | .DeletePipeline ctx _ => ctx
  | .StopPipeline ctx _ => ctx
  | .StartPipeline ctx _ => ctx

/-- The two ways a request function for operation `op` can end. Either
binding failed: nothing was invoked, the message is nil and the error is an
InvalidArgument status. Or binding succeeded: the operation was invoked
exactly once, with the context given, and the message and the error returned
are those of that invocation, as `result` gives them. -/
def PropagatesOperation (op : Op) (ctx : Context)
    (result : Call → Message × Option GoError) (out : Outcome) : Prop :=
  (out.calls = [] ∧ out.msg = none ∧
    ∃ text, out.err = some (.status .InvalidArgument text)) ∨
  (∃ c, out.calls = [c] ∧ c.op = op ∧ c.ctx = ctx ∧
    out.msg = some (result c).1 ∧ out.err = (result c).2)

/-- The remote and the local request function agree: they make the same
invocations (none, when binding fails, and then they return the same message,
error and metadata), and when the client and the server return the same
message and error for the invocation made, so do the two request functions. -/
def SameBinding (client : PipelineServiceClient) (server : PipelineServiceServer)
    (remote loc : Outcome) : Prop :=
  remote.calls = loc.calls ∧
  (remote.calls = [] →
    remote.msg = loc.msg ∧ remote.err = loc.err ∧ remote.metadata = loc.metadata) ∧
  (∀ c, remote.calls = [c] → c.viaClient client = c.viaServer server →
    remote.msg = loc.msg ∧ remote.err = loc.err)

/-- A response is written: the error writer or the forwarder is called. -/
def Event.isWrite : Event → Bool
  | .HTTPError _ _ => true
  | .forward _ _ _ => true
  | _ => false

/-- The forwarder is called. -/
def Event.isForward : Event → Bool
  | .forward _ _ _ => true
  | _ => false

/-- The request function is called. -/
def Event.isRequest : Event → Bool
  | .request _ _ => true
  | _ => false

/-- The operation is invoked. -/
def Event.isInvoke : Event → Bool
  | .invoke _ => true
  | _ => false

/-- The four ways of serving a request, `Received -> Bound -> Dispatched ->
Succeeded or Failed`: annotation fails and the error is written; binding
fails (the request function invokes nothing) and its error is written; the
operation is invoked and fails, and its error is written; the operation is
invoked and succeeds, and the response is forwarded. -/
inductive Served (result : Call → Message × Option GoError) : List Event → Prop
  | annotationFailed (incoming : Bool) (m p : String) (ctx : Context) (err : GoError) :
    Served result [.annotate incoming m p (some err), .HTTPError ctx err]
  | bindingFailed (incoming : Bool) (m p : String) (isLocal : Bool) (op : Op)
      (ctx : Context) (err : GoError) :
    Served result [.annotate incoming m p none, .request isLocal op, .HTTPError ctx err]
  | dispatchFailed (incoming : Bool) (m p : String) (isLocal : Bool) (op : Op)
      (c : Call) (ctx : Context) (err : GoError) (h : (result c).2 = some err) :
    Served result
      [.annotate incoming m p none, .request isLocal op, .invoke c, .HTTPError ctx err]
  | succeeded (incoming : Bool) (m p : String) (isLocal : Bool) (op : Op)
      (c : Call) (ctx : Context) (resp : ResponseArg) (h : (result c).2 = none) :
    Served result
      [.annotate incoming m p none, .request isLocal op, .invoke c, .forward op ctx resp]

/-- Exactly one response is written per request: one call of the error writer
or the forwarder; the forwarder is called exactly when annotation succeeded,
binding succeeded (the operation was invoked) and the invocation returned no
error; when annotation fails neither the request function nor the operation
is called; and the operation is invoked at most once. -/
def WritesOneResponse (result : Call → Message × Option GoError) (tr : List Event) : Prop :=
  (tr.filter Event.isWrite).length = 1 ∧
  ((∃ e ∈ tr, e.isForward = true) ↔
    (∃ i m p, Event.annotate i m p none ∈ tr) ∧
      ∃ c, Event.invoke c ∈ tr ∧ (result c).2 = none) ∧
  ((∃ i m p err, Event.annotate i m p (some err) ∈ tr) →
    ∀ e ∈ tr, e.isRequest = false ∧ e.isInvoke = false) ∧
  (tr.filter Event.isInvoke).length ≤ 1

/-- A request function stopped before the invocation: nil message, nothing
invoked, and the InvalidArgument error with the given text. -/
def FailsWith (out : Outcome) (text : String) : Prop :=
  out.msg = none ∧ out.err = some (.status .InvalidArgument text) ∧ out.calls = []

/-- The request with the entries of a key taken out of its form values. -/
def Request.withoutKey (req : Request) (key : String) : Request :=
  { req with Form := req.Form.filter (fun kv => kv.1 ≠ key) }

/-! ## Example collaborators

Concrete collaborators on which the theorems below are instantiated. -/

/-- The JSON body `{"pipeline":{"displayName":"x"}}`. -/
def exampleBody : String :=
  "\x7b\"pipeline\":\x7b\"displayName\":\"x\"\x7d\x7d"

/-- A marshaler that reports `io.EOF` on the empty body and leaves the target
unset, decodes `exampleBody` to a pipeline with display name "x", and rejects
every other body. -/
def exampleMarshaler : Marshaler :=
  { DecodePipelineCreate := fun body =>
      if body = "" then (none, some .EOF)
      else if body = exampleBody then (some { DisplayName := "x" }, none)
      else (none, some (.other "invalid character"))
    DecodePipelineUpdate := fun body =>
      if body = "" then (none, some .EOF)
      else if body = exampleBody then (some { DisplayName := "x" }, none)
      else (none, some (.other "invalid character")) }

/-- A query parser in the manner of the runtime, for the fields modelled: a
known path is set from a single value, a path through the string field `id`
is an error, and an unknown path is dropped. -/
def exampleQueryParser : QueryParser :=
  { populateListPipelinesRequest := fun e path vals =>
      match path, vals with
      | ["page_token"], [v] => .ok { e with PageToken := v }
      | ["pageToken"], [v] => .ok { e with PageToken := v }
      | _, _ => .ok e
    populateUpdatePipelineRequest := fun e path vals =>
      match path, vals with
      | ["id"], [v] => .ok { e with Id := v }
      | "id" :: _ :: _, _ => .error (.other "invalid path: \"id\" is not a message")
      | ["pipeline", "description"], [v] =>
        .ok { e with Pipeline := some { (e.Pipeline.getD {}) with Description := v } }
      | ["pipeline", "display_name"], [v] =>
        .ok { e with Pipeline := some { (e.Pipeline.getD {}) with DisplayName := v } }
      | ["update_mask"], [v] => .ok { e with UpdateMask := some [v] }
      | _, _ => .ok e }

/-- A client that answers every operation with the pipeline of the id asked
for, and with a NotFound error when that id is "missing". -/
def exampleClient : PipelineServiceClient :=
  { CreatePipeline := fun _ _ => { resp := some { Pipeline := some { Id := "new" } }, err := none }
    GetPipeline := fun _ r =>
      if r.Id = "missing" then { resp := none, err := some (.status .NotFound "no pipeline") }
      else { resp := some { Pipeline := some { Id := r.Id } }, err := none }
    ListPipelines := fun _ _ => { resp := some {}, err := none }
    UpdatePipeline := fun _ r => { resp := some { Pipeline := some { Id := r.Id } }, err := none }
    DeletePipeline := fun _ _ => { resp := some {}, err := none }
    StopPipeline := fun _ r => { resp := some { Pipeline := some { Id := r.Id } }, err := none }
    StartPipeline := fun _ r => { resp := some { Pipeline := some { Id := r.Id } }, err := none } }

/-- A server with the same answers as `exampleClient`. -/
def exampleServer : PipelineServiceServer :=
  { CreatePipeline := fun _ _ => { resp := some { Pipeline := some { Id := "new" } }, err := none }
    GetPipeline := fun _ r =>
      if r.Id = "missing" then { resp := none, err := some (.status .NotFound "no pipeline") }
      else { resp := some { Pipeline := some { Id := r.Id } }, err := none }
    ListPipelines := fun _ _ => { resp := some {}, err := none }
    UpdatePipeline := fun _ r => { resp := some { Pipeline := some { Id := r.Id } }, err := none }
    DeletePipeline := fun _ _ => { resp := some {}, err := none }
    StopPipeline := fun _ r => { resp := some { Pipeline := some { Id := r.Id } }, err := none }
    StartPipeline := fun _ r => { resp := some { Pipeline := some { Id := r.Id } }, err := none } }

/-- A request with the given body and form values that parses. -/
def exampleRequest (body : String) (form : List (String × List String)) : Request :=
  { Context := {}, Body := .ok body, ParseForm := none, Form := form }

/-- A mux with no routes whose marshalers are `exampleMarshaler` and whose
annotators record the method name and the path pattern in the context. -/
def exampleMux : ServeMux :=
  { handlers := []
    MarshalerForRequest := fun _ => (exampleMarshaler, exampleMarshaler)
    AnnotateContext := fun ctx _ m p =>
      .ok { ctx with rpcMethod := some m, httpPathPattern := some p }
    AnnotateIncomingContext := fun ctx _ m p =>
      .ok { ctx with rpcMethod := some m, httpPathPattern := some p } }

/-! ## Response projection, dispatch and pattern compilation -/

/-- A Go run-time panic: a failed type assertion or a nil pointer
dereference. -/
inductive Panic
  | typeAssertion
  | nilDereference
deriving DecidableEq, Repr

/-- The method `XXX_ResponseBody` of the wrapper of the create route: the
message must hold a `*CreatePipelineResponse` (the assertion panics on any
other dynamic type and on a nil interface), whose `Pipeline` field is
returned (reading it through a nil pointer panics). -/
def response_PipelineService_CreatePipeline_0.XXX_ResponseBody (m : Option Message) :
    Except Panic (Option Pipeline) :=
  match m with
  | some (.create (some response)) => .ok response.Pipeline
  | some (.create none) => .error .nilDereference
  | _ => .error .typeAssertion

def response_PipelineService_GetPipeline_0.XXX_ResponseBody (m : Option Message) :
    Except Panic (Option Pipeline) :=
  match m with
  | some (.get (some response)) => .ok response.Pipeline
  | some (.get none) => .error .nilDereference
  | _ => .error .typeAssertion

def response_PipelineService_UpdatePipeline_0.XXX_ResponseBody (m : Option Message) :
    Except Panic (Option Pipeline) :=
  match m with
  | some (.update (some response)) => .ok response.Pipeline
  | some (.update none) => .error .nilDereference
  | _ => .error .typeAssertion

def response_PipelineService_StopPipeline_0.XXX_ResponseBody (m : Option Message) :
    Except Panic (Option Pipeline) :=
  match m with
  | some (.stop (some response)) => .ok response.Pipeline
  | some (.stop none) => .error .nilDereference
  | _ => .error .typeAssertion

def response_PipelineService_StartPipeline_0.XXX_ResponseBody (m : Option Message) :
    Except Panic (Option Pipeline) :=
  match m with
  | some (.start (some response)) => .ok response.Pipeline
  | some (.start none) => .error .nilDereference
  | _ => .error .typeAssertion

/-- What a forwarder serialises: a pipeline resource (a `*Pipeline`, possibly
nil) or a whole response envelope. -/
inductive Payload
  | pipeline (p : Option Pipeline)
  | envelope (m : Option Message)
deriving DecidableEq, Repr

/-- Modelled from the spec: the choice of payload by the forwarder
`runtime.ForwardResponseMessage`, which is not part of the source file: the
value of `XXX_ResponseBody` for a response that has that method, the response
itself otherwise. -/
def ResponseArg.payload : ResponseArg → Except Panic Payload
  | .response_PipelineService_CreatePipeline_0 m =>
    (response_PipelineService_CreatePipeline_0.XXX_ResponseBody m).map Payload.pipeline
  | .response_PipelineService_GetPipeline_0 m =>
    (response_PipelineService_GetPipeline_0.XXX_ResponseBody m).map Payload.pipeline
  | .response_PipelineService_UpdatePipeline_0 m =>
    (response_PipelineService_UpdatePipeline_0.XXX_ResponseBody m).map Payload.pipeline
  | .response_PipelineService_StopPipeline_0 m =>
    (response_PipelineService_StopPipeline_0.XXX_ResponseBody m).map Payload.pipeline
  | .response_PipelineService_StartPipeline_0 m =>
    (response_PipelineService_StartPipeline_0.XXX_ResponseBody m).map Payload.pipeline
  | .resp m => .ok (Payload.envelope m)

/-- The `Pipeline` field of a response envelope, for a non-nil response of a
type that has this field (the delete and the list response have none). -/
def Message.pipelineField : Message → Option (Option Pipeline)
  | .create (some r) => some r.Pipeline
  | .get (some r) => some r.Pipeline
  | .update (some r) => some r.Pipeline
  | .stop (some r) => some r.Pipeline
  | .start (some r) => some r.Pipeline
  | _ => none

/-- Modelled from the spec: the dispatch of the mux, which is not part of the
source file. The routes are tried from the one registered last to the one
registered first; the first whose method is the request's and whose pattern
matches the path components serves the request, its handler being called with
the bindings of the match. With no such route the outcome is route-not-found
(`none`) and no handler is called. -/
def ServeMux.ServeHTTP (mux : ServeMux) (meth : String) (components : List String)
    (req : Request) : Option (List Event) :=
  mux.handlers.reverse.findSome? (fun r =>
    if r.meth = meth then (r.pat.Match components).map (fun b => r.h req b) else none)

/-- A route answers to a method and a component list. -/
def Route.accepts (meth : String) (components : List String) (r : Route) : Bool :=
  decide (r.meth = meth) && (r.pat.Match components).isSome

/-- Modelled from the spec: the checks of `runtime.NewPattern`, which is not
part of the source file, over the remaining opcodes, with the simulated stack
depth and the names captured so far. Opcode 3 (PushM) is allowed once;
LitPush and Capture need an operand inside the pool; ConcatN needs a positive
operand and that many stack items; Capture needs one stack item. The result
is the list of captured names, or `none` for an invalid pattern. -/
def NewPattern.check (pool : List String) :
    List Nat → Nat → Bool → List String → Option (List String)
  | [], _, _, vars => some vars
  | [_], _, _, _ => none
  | code :: operand :: rest, stack, pushMSeen, vars =>
    match code with
    | 0 => NewPattern.check pool rest stack pushMSeen vars
    | 1 => NewPattern.check pool rest (stack + 1) pushMSeen vars
    | 2 =>
      if pool.length ≤ operand then none
      else NewPattern.check pool rest (stack + 1) pushMSeen vars
    | 3 =>
      if pushMSeen then none else NewPattern.check pool rest (stack + 1) true vars
    | 4 =>
      if operand = 0 then none
      else if stack < operand then none
      else NewPattern.check pool rest (stack - operand + 1) pushMSeen vars
    | 5 =>
      match pool.get? operand with
      | none => none
      | some v =>
        if stack = 0 then none
        else NewPattern.check pool rest (stack - 1) pushMSeen (vars ++ [v])
    | _ => none

/-- Modelled from the spec: `runtime.NewPattern`: the captured names of a
well-formed pattern, or `none` (the error `ErrInvalidPattern`, on which
`runtime.MustPattern` panics). -/
def NewPattern (p : Pattern) : Option (List String) :=
  if p.version ≠ 1 then none
  else if p.ops.length % 2 ≠ 0 then none
  else NewPattern.check p.pool p.ops 0 false []

/-! ## The routes as a table -/

/-- The seven operations, in the order of registration. -/
def Op.all : List Op :=
  [.CreatePipeline, .GetPipeline, .ListPipelines, .UpdatePipeline, .DeletePipeline,
    .StopPipeline, .StartPipeline]

/-- The HTTP method of the route of an operation. -/
def Op.httpMethod : Op → String
  | .CreatePipeline => "POST"
  | .GetPipeline => "GET"
  | .ListPipelines => "GET"
  | .UpdatePipeline => "PUT"
  | .DeletePipeline => "DELETE"
  | .StopPipeline => "PUT"
  | .StartPipeline => "PUT"

/-- The pattern of the route of an operation. -/
def Op.pattern : Op → Pattern
  | .CreatePipeline => pattern_PipelineService_CreatePipeline_0
  | .GetPipeline => pattern_PipelineService_GetPipeline_0
  | .ListPipelines => pattern_PipelineService_ListPipelines_0
  | .UpdatePipeline => pattern_PipelineService_UpdatePipeline_0
  | .DeletePipeline => pattern_PipelineService_DeletePipeline_0
  | .StopPipeline => pattern_PipelineService_StopPipeline_0
  | .StartPipeline => pattern_PipelineService_StartPipeline_0

/-- The RPC method name a handler annotates the context with. -/
def Op.rpcMethod : Op → String
  | .CreatePipeline => "/redpanda.api.dataplane.v1alpha2.PipelineService/CreatePipeline"
  | .GetPipeline => "/redpanda.api.dataplane.v1alpha2.PipelineService/GetPipeline"
  | .ListPipelines => "/redpanda.api.dataplane.v1alpha2.PipelineService/ListPipelines"
  | .UpdatePipeline => "/redpanda.api.dataplane.v1alpha2.PipelineService/UpdatePipeline"
  | .DeletePipeline => "/redpanda.api.dataplane.v1alpha2.PipelineService/DeletePipeline"
  | .StopPipeline => "/redpanda.api.dataplane.v1alpha2.PipelineService/StopPipeline"
  | .StartPipeline => "/redpanda.api.dataplane.v1alpha2.PipelineService/StartPipeline"

/-- The HTTP path pattern a handler annotates the context with. -/
def Op.httpPathPattern : Op → String
  | .CreatePipeline => "/v1alpha2/redpanda-connect/pipelines"
  | .GetPipeline => "/v1alpha2/redpanda-connect/pipelines/{id}"
  | .ListPipelines => "/v1alpha2/redpanda-connect/pipelines"
  | .UpdatePipeline => "/v1alpha2/redpanda-connect/pipelines/{id}"
  | .DeletePipeline => "/v1alpha2/redpanda-connect/pipelines/{id}"
  | .StopPipeline => "/v1alpha2/redpanda-connect/pipelines/{id}/stop"
  | .StartPipeline => "/v1alpha2/redpanda-connect/pipelines/{id}/start"

/-- The remote request function of an operation. -/
def Op.request (qp : QueryParser) (client : PipelineServiceClient) (op : Op) :
    Context → Marshaler → Request → List (String × String) → Outcome :=
  fun ctx marshaler req pathParams =>
    match op with
    | .CreatePipeline =>
      request_PipelineService_CreatePipeline_0 ctx marshaler client req pathParams
    | .GetPipeline =>
      request_PipelineService_GetPipeline_0 ctx marshaler client req pathParams
    | .ListPipelines =>
      request_PipelineService_ListPipelines_0 qp ctx marshaler client req pathParams
    | .UpdatePipeline =>
      request_PipelineService_UpdatePipeline_0 qp ctx marshaler client req pathParams
    | .DeletePipeline =>
      request_PipelineService_DeletePipeline_0 ctx marshaler client req pathParams
    | .StopPipeline =>
      request_PipelineService_StopPipeline_0 ctx marshaler client req pathParams
    | .StartPipeline =>
      request_PipelineService_StartPipeline_0 ctx marshaler client req pathParams

/-- The local request function of an operation. -/
def Op.local_request (qp : QueryParser) (server : PipelineServiceServer) (op : Op) :
    Context → Marshaler → Request → List (String × String) → Outcome :=
  fun ctx marshaler req pathParams =>
    match op with
    | .CreatePipeline =>
      local_request_PipelineService_CreatePipeline_0 ctx marshaler server req pathParams
    | .GetPipeline =>
      local_request_PipelineService_GetPipeline_0 ctx marshaler server req pathParams
    | .ListPipelines =>
      local_request_PipelineService_ListPipelines_0 qp ctx marshaler server req pathParams
    | .UpdatePipeline =>
      local_request_PipelineService_UpdatePipeline_0 qp ctx marshaler server req pathParams
    | .DeletePipeline =>
      local_request_PipelineService_DeletePipeline_0 ctx marshaler server req pathParams
    | .StopPipeline =>
      local_request_PipelineService_StopPipeline_0 ctx marshaler server req pathParams
    | .StartPipeline =>
      local_request_PipelineService_StartPipeline_0 ctx marshaler server req pathParams

/-- How the handler of an operation hands the response to its forwarder. -/
def Op.response : Op → Option Message → ResponseArg
  | .CreatePipeline => .response_PipelineService_CreatePipeline_0
  | .GetPipeline => .response_PipelineService_GetPipeline_0
  | .ListPipelines => .resp
  | .UpdatePipeline => .response_PipelineService_UpdatePipeline_0
  | .DeletePipeline => .resp
  | .StopPipeline => .response_PipelineService_StopPipeline_0
  | .StartPipeline => .response_PipelineService_StartPipeline_0

/-- The metadata a server handler attaches to the context: the sets returned
by the request function joined with those of the transport stream. -/
def Outcome.joined (r : Outcome) : ServerMetadata :=
  { HeaderMD := metadata_Join r.metadata.HeaderMD r.streamHeader,
    TrailerMD := metadata_Join r.metadata.TrailerMD r.streamTrailer }

/-- Read a decimal numeral, digit by digit. -/
def parseDigits : List Char → Nat → Option Nat
  | [], n => some n
  | c :: cs, n => if c.isDigit then parseDigits cs (10 * n + (c.toNat - 48)) else none

/-- Read a non-empty, unsigned decimal numeral. -/
def parseDecimal (s : String) : Option Int :=
  match s.data with
  | [] => none
  | cs => (parseDigits cs 0).map Int.ofNat

/-- A query parser for the paging fields of the list request, in the manner
of the runtime: `page_size` and `page_token`, under their proto or JSON
names, are set from a single value, the size from a decimal numeral; an
unknown path is dropped. -/
def examplePagingParser : QueryParser :=
  { populateListPipelinesRequest := fun e path vals =>
      match path, vals with
      | ["page_size"], [v] =>
        match parseDecimal v with
        | some n => .ok { e with PageSize := n }
        | none => .error (.other "parsing field \"page_size\": invalid syntax")
      | ["pageSize"], [v] =>
        match parseDecimal v with
        | some n => .ok { e with PageSize := n }
        | none => .error (.other "parsing field \"page_size\": invalid syntax")
      | ["page_token"], [v] => .ok { e with PageToken := v }
      | ["pageToken"], [v] => .ok { e with PageToken := v }
      | _, _ => .ok e
    populateUpdatePipelineRequest := exampleQueryParser.populateUpdatePipelineRequest }

/-- A server whose get operation observes a cancelled context and returns the
cancellation error; the other operations are those of `exampleServer`. -/
def cancelledServer : PipelineServiceServer :=
  { exampleServer with
    GetPipeline := fun _ _ => { resp := none, err := some (.status .Canceled "context canceled") } }

/-- A client whose get operation returns the cancellation error. -/
def cancelledClient : PipelineServiceClient :=
  { exampleClient with
    GetPipeline := fun _ _ => { resp := none, err := some (.status .Canceled "context canceled") } }

/-- The log of a handler in full, given the context before annotation, the
result of the annotation, the outcome of the request function on the
annotated context and the metadata the handler attaches for that outcome:
annotation failed and its error is written with the context before
annotation; or the request function invoked nothing and its error is written;
or it made one invocation `c` of the operation, which failed, and that error
is written; or the invocation succeeded and its message is forwarded. In the
last three cases the context written with is the annotated context with the
metadata attached. -/
def HandlerLog (result : Call → Message × Option GoError) (isLocal : Bool) (op : Op)
    (rpcMethod httpPathPattern : String) (response : Option Message → ResponseArg)
    (bare : Context) (annotated : Except GoError Context) (outcome : Context → Outcome)
    (md : Outcome → ServerMetadata) (tr : List Event) : Prop :=
  (∃ err, annotated = .error err ∧
    tr = [.annotate isLocal rpcMethod httpPathPattern (some err), .HTTPError bare err]) ∨
  (∃ actx, annotated = .ok actx ∧
    ((∃ err, (outcome actx).calls = [] ∧ (outcome actx).err = some err ∧
        tr = [.annotate isLocal rpcMethod httpPathPattern none, .request isLocal op,
          .HTTPError (runtime_NewServerMetadataContext actx (md (outcome actx))) err]) ∨
      (∃ c, (outcome actx).calls = [c] ∧ c.op = op ∧ c.ctx = actx ∧
        (outcome actx).err = (result c).2 ∧
        ((∃ err, (result c).2 = some err ∧
            tr = [.annotate isLocal rpcMethod httpPathPattern none, .request isLocal op,
              .invoke c,
              .HTTPError (runtime_NewServerMetadataContext actx (md (outcome actx))) err]) ∨
          ((result c).2 = none ∧
            tr = [.annotate isLocal rpcMethod httpPathPattern none, .request isLocal op,
              .invoke c,
              .forward op (runtime_NewServerMetadataContext actx (md (outcome actx)))
                (response (some (result c).1))])))))

/-- What a handler forwards: every call of the forwarder follows an
invocation of the handler's operation and hands over the message of that
invocation in the way of that operation's route; for create, get, update, stop
and start the payload is then the `Pipeline` field of the response envelope
(for a non-nil response), for delete and list it is the envelope itself. -/
def ForwardsProjection (result : Call → Message × Option GoError) (tr : List Event) : Prop :=
  ∀ op ctx arg, Event.forward op ctx arg ∈ tr →
    ∃ c, Event.invoke c ∈ tr ∧ c.op = op ∧ arg = op.response (some (result c).1) ∧
      (op ≠ .DeletePipeline → op ≠ .ListPipelines →
        ∀ p, (result c).1.pipelineField = some p → arg.payload = .ok (.pipeline p)) ∧
      (op = .DeletePipeline ∨ op = .ListPipelines →
        (result c).1.pipelineField = none ∧ arg.payload = .ok (.envelope (some (result c).1)))

/-- Projection does not fail on a successful outcome: when the request
function returned no error, its message holds a response pointer of the type
the route's `XXX_ResponseBody` asserts, so that the assertion does not panic,
and for a non-nil response the method returns its `Pipeline` field. -/
def ProjectionTotal {ρ : Type} (wrap : Option ρ → Message) (field : ρ → Option Pipeline)
    (body : Option Message → Except Panic (Option Pipeline)) (out : Outcome) : Prop :=
  out.err = none →
    ∃ resp, out.msg = some (wrap resp) ∧ body out.msg ≠ .error .typeAssertion ∧
      ∀ r, resp = some r → body out.msg = .ok (field r)

/-- The responses written by a handler carry the metadata: when annotation
gave the context `actx` and the request function the outcome `out`, the one
response written is `runtime.HTTPError` with the error of `out`, or the
forwarder when `out` has no error, and in both cases the context passed is
`actx` with the metadata `md` attached. -/
def WritesWithMetadata (op : Op) (actx : Context) (out : Outcome) (md : ServerMetadata)
    (tr : List Event) : Prop :=
  (∀ err, out.err = some err →
    tr.filter Event.isWrite =
      [.HTTPError (runtime_NewServerMetadataContext actx md) err]) ∧
  (out.err = none →
    ∃ arg, tr.filter Event.isWrite =
      [.forward op (runtime_NewServerMetadataContext actx md) arg]) ∧
  (runtime_NewServerMetadataContext actx md).serverMetadata = some md

/-! ## Binding, in the words of the specification

The three steps of the binding algorithm of the specification, as functions of
the inputs alone, to be compared with the request functions of the source. -/

/-- Step 1 of binding: decode the request body into the designated sub-field;
an empty body (`io.EOF`) is tolerated, a body that cannot be read or decoded
is an invalid-argument error with the text of the cause. -/
def specBindBody {π : Type} (decode : String → Option π × Option GoError) (req : Request) :
    Except GoError (Option π) :=
  match req.Body with
  | .error berr => .error (.status .InvalidArgument berr.Error)
  | .ok body =>
    match (decode body).2 with
    | none => .ok (decode body).1
    | some err =>
      if err = GoError.EOF then .ok (decode body).1
      else .error (.status .InvalidArgument err.Error)

/-- Step 2 of binding: look the capture `id` up in the bound parameters; a
missing capture is an invalid-argument error, never a default. -/
def specBindId (pathParams : List (String × String)) : Except GoError String :=
  match pathParams.lookup "id" with
  | none => .error (.status .InvalidArgument "missing parameter id")
  | some v => .ok v

/-- Step 3 of binding: parse the query string and bind every key that the
filter of the route does not exclude; a query that does not parse or a value
that does not convert is an invalid-argument error with the text of the
cause. -/
def specBindQuery {α : Type} (populate : α → List String → List String → Except GoError α)
    (filter : DoubleArray) (req : Request) (e : α) : Except GoError α :=
  match req.ParseForm with
  | some err => .error (.status .InvalidArgument err.Error)
  | none =>
    match runtime_PopulateQueryParameters populate e req.Form filter with
    | .error err => .error (.status .InvalidArgument err.Error)
    | .ok e1 => .ok e1

/-- The binding of an operation: the bind error, or the invocation to make
(the context and the request envelope bound from body, path and query, in
this order). -/
def Op.bind (qp : QueryParser) (op : Op) (ctx : Context) (marshaler : Marshaler)
    (req : Request) (pathParams : List (String × String)) : Except GoError Call :=
  match op with
  | .CreatePipeline =>
    (specBindBody marshaler.DecodePipelineCreate req).map
      (fun p => Call.CreatePipeline ctx { Pipeline := p })
  | .GetPipeline => (specBindId pathParams).map (fun v => Call.GetPipeline ctx { Id := v })
  | .ListPipelines =>
    (specBindQuery qp.populateListPipelinesRequest filter_PipelineService_ListPipelines_0 req
      {}).map (fun e => Call.ListPipelines ctx e)
  | .UpdatePipeline =>
    (specBindBody marshaler.DecodePipelineUpdate req).bind (fun p =>
      (specBindId pathParams).bind (fun v =>
        (specBindQuery qp.populateUpdatePipelineRequest filter_PipelineService_UpdatePipeline_0
          req { Id := v, Pipeline := p }).map (fun e => Call.UpdatePipeline ctx e)))
  | .DeletePipeline =>
    (specBindId pathParams).map (fun v => Call.DeletePipeline ctx { Id := v })
  | .StopPipeline => (specBindId pathParams).map (fun v => Call.StopPipeline ctx { Id := v })
  | .StartPipeline => (specBindId pathParams).map (fun v => Call.StartPipeline ctx { Id := v })

/-- A request function dispatches what binding gives: when binding fails it
invokes nothing and returns a nil message with the bind error; when binding
succeeds with the invocation `c` it makes exactly that one invocation and
returns the message and the error of it, as `result` gives them. -/
def DispatchesBound (bound : Except GoError Call) (result : Call → Message × Option GoError)
    (out : Outcome) : Prop :=
  match bound with
  | .error err => out.calls = [] ∧ out.msg = none ∧ out.err = some err
  | .ok c => out.calls = [c] ∧ out.msg = some (result c).1 ∧ out.err = (result c).2

/-- The log of the handler of an operation as a function of the inputs: of
the result of the annotation, of the binding on the annotated context and of
the result of the invocation. When annotation fails its error is written with
the context before annotation and nothing else is called; when binding fails
the request function is called, the operation is not, and the bind error is
written; when the invocation fails its error is written; when it succeeds its
message is forwarded. `md` is the metadata the handler attaches. -/
def ServesAs (result : Call → Message × Option GoError) (isLocal : Bool) (op : Op)
    (bare : Context) (annotated : Except GoError Context)
    (bound : Context → Except GoError Call) (md : Context → ServerMetadata)
    (tr : List Event) : Prop :=
  match annotated with
  | .error err =>
    tr = [.annotate isLocal op.rpcMethod op.httpPathPattern (some err), .HTTPError bare err]
  | .ok actx =>
    match bound actx with
    | .error err =>
      tr = [.annotate isLocal op.rpcMethod op.httpPathPattern none, .request isLocal op,
        .HTTPError (runtime_NewServerMetadataContext actx (md actx)) err]
    | .ok c =>
      match (result c).2 with
      | some err =>
        tr = [.annotate isLocal op.rpcMethod op.httpPathPattern none, .request isLocal op,
          .invoke c, .HTTPError (runtime_NewServerMetadataContext actx (md actx)) err]
      | none =>
        tr = [.annotate isLocal op.rpcMethod op.httpPathPattern none, .request isLocal op,
          .invoke c,
          .forward op (runtime_NewServerMetadataContext actx (md actx))
            (op.response (some (result c).1))]

/-- One response per request, in terms of the inputs: exactly one call of the
error writer or the forwarder; the forwarder is called exactly when
annotation, binding and the invocation all succeed; when annotation fails
neither the request function nor the operation is called; when binding fails
the operation is not invoked. -/
def RespondsOnce (result : Call → Message × Option GoError)
    (annotated : Except GoError Context) (bound : Context → Except GoError Call)
    (tr : List Event) : Prop :=
  (tr.filter Event.isWrite).length = 1 ∧
  ((∃ e ∈ tr, e.isForward = true) ↔
    ∃ actx c, annotated = .ok actx ∧ bound actx = .ok c ∧ (result c).2 = none) ∧
  ((∃ err, annotated = .error err) →
    ∀ e ∈ tr, e.isRequest = false ∧ e.isInvoke = false) ∧
  (∀ actx err, annotated = .ok actx → bound actx = .error err →
    (∃ e ∈ tr, e.isRequest = true) ∧ ∀ e ∈ tr, e.isInvoke = false) ∧
  (∀ actx c, annotated = .ok actx → bound actx = .ok c →
    tr.filter Event.isInvoke = [.invoke c])

/-! ## Path captures -/

theorem missing_id_text : status_Errorf_missing .InvalidArgument "id" =
    .status .InvalidArgument "missing parameter id" := by
  decide

/-- C1: each of the eight request functions that capture `id` (Get, Delete,
Stop, Start, remote and local) fails to bind exactly when the key "id" is
absent from the path parameters, then returning a nil message and the
InvalidArgument error "missing parameter id" without invoking the operation;
with the key present at value `v`, the empty string included, the operation is
invoked once with the envelope whose Id is `v`, and the result is the
operation's, so no type-mismatch error occurs. -/
theorem path_capture_binders_id (ctx : Context) (marshaler : Marshaler)
    (client : PipelineServiceClient) (server : PipelineServiceServer) (req : Request)
    (pathParams : List (String × String)) :
    CapturesId pathParams
      (request_PipelineService_GetPipeline_0 ctx marshaler client req pathParams)
      (fun v => .GetPipeline ctx { Id := v }) (Call.viaClient client) ∧
    CapturesId pathParams
      (local_request_PipelineService_GetPipeline_0 ctx marshaler server req pathParams)
      (fun v => .GetPipeline ctx { Id := v }) (Call.viaServer server) ∧
    CapturesId pathParams
      (request_PipelineService_DeletePipeline_0 ctx marshaler client req pathParams)
      (fun v => .DeletePipeline ctx { Id := v }) (Call.viaClient client) ∧
    CapturesId pathParams
      (local_request_PipelineService_DeletePipeline_0 ctx marshaler server req pathParams)
      (fun v => .DeletePipeline ctx { Id := v }) (Call.viaServer server) ∧
    CapturesId pathParams
      (request_PipelineService_StopPipeline_0 ctx marshaler client req pathParams)
      (fun v => .StopPipeline ctx { Id := v }) (Call.viaClient client) ∧
    CapturesId pathParams
      (local_request_PipelineService_StopPipeline_0 ctx marshaler server req pathParams)
      (fun v => .StopPipeline ctx { Id := v }) (Call.viaServer server) ∧
    CapturesId pathParams
      (request_PipelineService_StartPipeline_0 ctx marshaler client req pathParams)
      (fun v => .StartPipeline ctx { Id := v }) (Call.viaClient client) ∧
    CapturesId pathParams
      (local_request_PipelineService_StartPipeline_0 ctx marshaler server req pathParams)
      (fun v => .StartPipeline ctx { Id := v }) (Call.viaServer server) := by
  refine ⟨?_, ?_, ?_, ?_, ?_, ?_, ?_, ?_⟩ <;>
  · unfold CapturesId
    cases h : pathParams.lookup "id" <;>
      simp [request_PipelineService_GetPipeline_0, local_request_PipelineService_GetPipeline_0,
        request_PipelineService_DeletePipeline_0, local_request_PipelineService_DeletePipeline_0,
        request_PipelineService_StopPipeline_0, local_request_PipelineService_StopPipeline_0,
        request_PipelineService_StartPipeline_0, local_request_PipelineService_StartPipeline_0,
        h, Outcome.returnNil, Outcome.ofClient, Outcome.ofServer, runtime_String,
        missing_id_text, Call.viaClient, Call.viaServer]

/-! ## Route patterns -/

theorem match_three_literals (p : Pattern) (components : List String)
    (b : List (String × String))
    (hops : p.ops = [2, 0, 2, 1, 2, 2])
    (hpool : p.pool = ["v1alpha2", "redpanda-connect", "pipelines"]) :
    p.Match components = some b ↔
      components = ["v1alpha2", "redpanda-connect", "pipelines"] ∧ b = [] := by
  rcases components with _ | ⟨c1, _ | ⟨c2, _ | ⟨c3, _ | ⟨c4, t⟩⟩⟩⟩ <;>
    simp [Pattern.Match, Pattern.run, hops, hpool]
  all_goals aesop

theorem match_with_id (p : Pattern) (components : List String)
    (b : List (String × String))
    (hops : p.ops = [2, 0, 2, 1, 2, 2, 1, 0, 4, 1, 5, 3])
    (hpool : p.pool = ["v1alpha2", "redpanda-connect", "pipelines", "id"]) :
    p.Match components = some b ↔
      ∃ v, components = ["v1alpha2", "redpanda-connect", "pipelines", v] ∧
        b = [("id", v)] := by
  rcases components with _ | ⟨c1, _ | ⟨c2, _ | ⟨c3, _ | ⟨c4, _ | ⟨c5, t⟩⟩⟩⟩⟩ <;>
    simp [Pattern.Match, Pattern.run, hops, hpool, strings_Join, String.intercalate,
      String.intercalate.go]
  all_goals aesop

theorem match_with_id_and_verb (p : Pattern) (components : List String)
    (b : List (String × String)) (last : String)
    (hops : p.ops = [2, 0, 2, 1, 2, 2, 1, 0, 4, 1, 5, 3, 2, 4])
    (hpool : p.pool = ["v1alpha2", "redpanda-connect", "pipelines", "id", last]) :
    p.Match components = some b ↔
      ∃ v, components = ["v1alpha2", "redpanda-connect", "pipelines", v, last] ∧
        b = [("id", v)] := by
  rcases components with
    _ | ⟨c1, _ | ⟨c2, _ | ⟨c3, _ | ⟨c4, _ | ⟨c5, _ | ⟨c6, t⟩⟩⟩⟩⟩⟩ <;>
    simp [Pattern.Match, Pattern.run, hops, hpool, strings_Join, String.intercalate,
      String.intercalate.go]
  all_goals aesop

/-- C2: under the pattern machine, for every component list, the Create and
List patterns match exactly [v1alpha2, redpanda-connect, pipelines] and bind
nothing; the Get, Update and Delete patterns match exactly the four-component
lists that start with those literals, binding id to the fourth; the Stop and
Start patterns match exactly the five-component lists that start with those
literals and end in "stop" (resp. "start"), binding id to the fourth. Any
other number of components yields no match. -/
theorem patterns_match_exactly (components : List String) (b : List (String × String)) :
    (pattern_PipelineService_CreatePipeline_0.Match components = some b ↔
      components = ["v1alpha2", "redpanda-connect", "pipelines"] ∧ b = []) ∧
    (pattern_PipelineService_ListPipelines_0.Match components = some b ↔
      components = ["v1alpha2", "redpanda-connect", "pipelines"] ∧ b = []) ∧
    (pattern_PipelineService_GetPipeline_0.Match components = some b ↔
      ∃ v, components = ["v1alpha2", "redpanda-connect", "pipelines", v] ∧
        b = [("id", v)]) ∧
    (pattern_PipelineService_UpdatePipeline_0.Match components = some b ↔
      ∃ v, components = ["v1alpha2", "redpanda-connect", "pipelines", v] ∧
        b = [("id", v)]) ∧
    (pattern_PipelineService_DeletePipeline_0.Match components = some b ↔
      ∃ v, components = ["v1alpha2", "redpanda-connect", "pipelines", v] ∧
        b = [("id", v)]) ∧
    (pattern_PipelineService_StopPipeline_0.Match components = some b ↔
      ∃ v, components = ["v1alpha2", "redpanda-connect", "pipelines", v, "stop"] ∧
        b = [("id", v)]) ∧
    (pattern_PipelineService_StartPipeline_0.Match components = some b ↔
      ∃ v, components = ["v1alpha2", "redpanda-connect", "pipelines", v, "start"] ∧
        b = [("id", v)]) ∧
    (components.length < 3 ∨ 5 < components.length →
      pattern_PipelineService_CreatePipeline_0.Match components = none ∧
      pattern_PipelineService_ListPipelines_0.Match components = none ∧
      pattern_PipelineService_GetPipeline_0.Match components = none ∧
      pattern_PipelineService_UpdatePipeline_0.Match components = none ∧
      pattern_PipelineService_DeletePipeline_0.Match components = none ∧
      pattern_PipelineService_StopPipeline_0.Match components = none ∧
      pattern_PipelineService_StartPipeline_0.Match components = none) := by
  have h3 := fun p b h1 h2 => match_three_literals p components b h1 h2
  have h4 := fun p b h1 h2 => match_with_id p components b h1 h2
  have h5 := fun p b l h1 h2 => match_with_id_and_verb p components b l h1 h2
  refine ⟨h3 _ _ rfl rfl, h3 _ _ rfl rfl, h4 _ _ rfl rfl, h4 _ _ rfl rfl, h4 _ _ rfl rfl,
    h5 _ _ _ rfl rfl, h5 _ _ _ rfl rfl, ?_⟩
  intro hlen
  have none_of : ∀ p : Pattern,
      (∀ b, p.Match components = some b → components.length = 3 ∨
        components.length = 4 ∨ components.length = 5) → p.Match components = none := by
    intro p hp
    cases hm : p.Match components with
    | none => rfl
    | some b => have := hp b hm; omega
  refine ⟨none_of _ ?_, none_of _ ?_, none_of _ ?_, none_of _ ?_, none_of _ ?_,
    none_of _ ?_, none_of _ ?_⟩
  · intro b hb; rw [h3 _ _ rfl rfl] at hb; simp [hb.1]
  · intro b hb; rw [h3 _ _ rfl rfl] at hb; simp [hb.1]
  · intro b hb; rw [h4 _ _ rfl rfl] at hb; obtain ⟨v, hv, _⟩ := hb; simp [hv]
  · intro b hb; rw [h4 _ _ rfl rfl] at hb; obtain ⟨v, hv, _⟩ := hb; simp [hv]
  · intro b hb; rw [h4 _ _ rfl rfl] at hb; obtain ⟨v, hv, _⟩ := hb; simp [hv]
  · intro b hb; rw [h5 _ _ _ rfl rfl] at hb; obtain ⟨v, hv, _⟩ := hb; simp [hv]
  · intro b hb; rw [h5 _ _ _ rfl rfl] at hb; obtain ⟨v, hv, _⟩ := hb; simp [hv]
/-! ## Registration -/

theorem server_routes (qp : QueryParser) (mux : ServeMux) (server : PipelineServiceServer) :
    addedRoutes mux (RegisterPipelineServiceHandlerServer qp mux server) = [
      ⟨"POST", pattern_PipelineService_CreatePipeline_0,
        handlerServer mux .CreatePipeline "/redpanda.api.dataplane.v1alpha2.PipelineService/CreatePipeline"
          "/v1alpha2/redpanda-connect/pipelines"
          (fun ctx marshaler req pathParams =>
            local_request_PipelineService_CreatePipeline_0 ctx marshaler server req pathParams)
          .response_PipelineService_CreatePipeline_0⟩,
      ⟨"GET", pattern_PipelineService_GetPipeline_0,
        handlerServer mux .GetPipeline "/redpanda.api.dataplane.v1alpha2.PipelineService/GetPipeline"
          "/v1alpha2/redpanda-connect/pipelines/{id}"
          (fun ctx marshaler req pathParams =>
            local_request_PipelineService_GetPipeline_0 ctx marshaler server req pathParams)
          .response_PipelineService_GetPipeline_0⟩,
      ⟨"GET", pattern_PipelineService_ListPipelines_0,
        handlerServer mux .ListPipelines "/redpanda.api.dataplane.v1alpha2.PipelineService/ListPipelines"
          "/v1alpha2/redpanda-connect/pipelines"
          (fun ctx marshaler req pathParams =>
            local_request_PipelineService_ListPipelines_0 qp ctx marshaler server req pathParams)
          .resp⟩,
      ⟨"PUT", pattern_PipelineService_UpdatePipeline_0,
        handlerServer mux .UpdatePipeline "/redpanda.api.dataplane.v1alpha2.PipelineService/UpdatePipeline"
          "/v1alpha2/redpanda-connect/pipelines/{id}"
          (fun ctx marshaler req pathParams =>
            local_request_PipelineService_UpdatePipeline_0 qp ctx marshaler server req pathParams)
          .response_PipelineService_UpdatePipeline_0⟩,
      ⟨"DELETE", pattern_PipelineService_DeletePipeline_0,
        handlerServer mux .DeletePipeline "/redpanda.api.dataplane.v1alpha2.PipelineService/DeletePipeline"
          "/v1alpha2/redpanda-connect/pipelines/{id}"
          (fun ctx marshaler req pathParams =>
            local_request_PipelineService_DeletePipeline_0 ctx marshaler server req pathParams)
          .resp⟩,
      ⟨"PUT", pattern_PipelineService_StopPipeline_0,
        handlerServer mux .StopPipeline "/redpanda.api.dataplane.v1alpha2.PipelineService/StopPipeline"
          "/v1alpha2/redpanda-connect/pipelines/{id}/stop"
          (fun ctx marshaler req pathParams =>
            local_request_PipelineService_StopPipeline_0 ctx marshaler server req pathParams)
          .response_PipelineService_StopPipeline_0⟩,
      ⟨"PUT", pattern_PipelineService_StartPipeline_0,
        handlerServer mux .StartPipeline "/redpanda.api.dataplane.v1alpha2.PipelineService/StartPipeline"
          "/v1alpha2/redpanda-connect/pipelines/{id}/start"
          (fun ctx marshaler req pathParams =>
            local_request_PipelineService_StartPipeline_0 ctx marshaler server req pathParams)
          .response_PipelineService_StartPipeline_0⟩] := by
  simp [addedRoutes, RegisterPipelineServiceHandlerServer, ServeMux.Handle]

theorem client_routes (qp : QueryParser) (mux : ServeMux) (client : PipelineServiceClient) :
    addedRoutes mux (RegisterPipelineServiceHandlerClient qp mux client) = [
      ⟨"POST", pattern_PipelineService_CreatePipeline_0,
        handlerClient mux .CreatePipeline "/redpanda.api.dataplane.v1alpha2.PipelineService/CreatePipeline"
          "/v1alpha2/redpanda-connect/pipelines"
          (fun ctx marshaler req pathParams =>
            request_PipelineService_CreatePipeline_0 ctx marshaler client req pathParams)
          .response_PipelineService_CreatePipeline_0⟩,
      ⟨"GET", pattern_PipelineService_GetPipeline_0,
        handlerClient mux .GetPipeline "/redpanda.api.dataplane.v1alpha2.PipelineService/GetPipeline"
          "/v1alpha2/redpanda-connect/pipelines/{id}"
          (fun ctx marshaler req pathParams =>
            request_PipelineService_GetPipeline_0 ctx marshaler client req pathParams)
          .response_PipelineService_GetPipeline_0⟩,
      ⟨"GET", pattern_PipelineService_ListPipelines_0,
        handlerClient mux .ListPipelines "/redpanda.api.dataplane.v1alpha2.PipelineService/ListPipelines"
          "/v1alpha2/redpanda-connect/pipelines"
          (fun ctx marshaler req pathParams =>
            request_PipelineService_ListPipelines_0 qp ctx marshaler client req pathParams)
          .resp⟩,
      ⟨"PUT", pattern_PipelineService_UpdatePipeline_0,
        handlerClient mux .UpdatePipeline "/redpanda.api.dataplane.v1alpha2.PipelineService/UpdatePipeline"
          "/v1alpha2/redpanda-connect/pipelines/{id}"
          (fun ctx marshaler req pathParams =>
            request_PipelineService_UpdatePipeline_0 qp ctx marshaler client req pathParams)
          .response_PipelineService_UpdatePipeline_0⟩,
      ⟨"DELETE", pattern_PipelineService_DeletePipeline_0,
        handlerClient mux .DeletePipeline "/redpanda.api.dataplane.v1alpha2.PipelineService/DeletePipeline"
          "/v1alpha2/redpanda-connect/pipelines/{id}"
          (fun ctx marshaler req pathParams =>
            request_PipelineService_DeletePipeline_0 ctx marshaler client req pathParams)
          .resp⟩,
      ⟨"PUT", pattern_PipelineService_StopPipeline_0,
        handlerClient mux .StopPipeline "/redpanda.api.dataplane.v1alpha2.PipelineService/StopPipeline"
          "/v1alpha2/redpanda-connect/pipelines/{id}/stop"
          (fun ctx marshaler req pathParams =>
            request_PipelineService_StopPipeline_0 ctx marshaler client req pathParams)
          .response_PipelineService_StopPipeline_0⟩,
      ⟨"PUT", pattern_PipelineService_StartPipeline_0,
        handlerClient mux .StartPipeline "/redpanda.api.dataplane.v1alpha2.PipelineService/StartPipeline"
          "/v1alpha2/redpanda-connect/pipelines/{id}/start"
          (fun ctx marshaler req pathParams =>
            request_PipelineService_StartPipeline_0 ctx marshaler client req pathParams)
          .response_PipelineService_StartPipeline_0⟩] := by
  simp [addedRoutes, RegisterPipelineServiceHandlerClient, ServeMux.Handle]

/-- C3: each of the two registration functions returns nil and adds exactly
seven routes to the mux, in this order: POST create, GET get, GET list, PUT
update, DELETE delete, PUT stop, PUT start, each on the pattern of its
operation; the two functions register the same (method, pattern) pairs in the
same order; and the handler of each route is the closure that annotates the
context with the method name of that operation and calls the request function
of that same operation (`local_request_*` on the server, `request_*` on the
client). -/
theorem registration_adds_seven_routes (qp : QueryParser) (mux : ServeMux)
    (server : PipelineServiceServer) (client : PipelineServiceClient) :
    (RegisterPipelineServiceHandlerServer qp mux server).2 = none ∧
    (RegisterPipelineServiceHandlerClient qp mux client).2 = none ∧
    (addedRoutes mux (RegisterPipelineServiceHandlerServer qp mux server)).length = 7 ∧
    (addedRoutes mux (RegisterPipelineServiceHandlerClient qp mux client)).length = 7 ∧
    routeTable (addedRoutes mux (RegisterPipelineServiceHandlerServer qp mux server)) =
      [("POST", pattern_PipelineService_CreatePipeline_0),
        ("GET", pattern_PipelineService_GetPipeline_0),
        ("GET", pattern_PipelineService_ListPipelines_0),
        ("PUT", pattern_PipelineService_UpdatePipeline_0),
        ("DELETE", pattern_PipelineService_DeletePipeline_0),
        ("PUT", pattern_PipelineService_StopPipeline_0),
        ("PUT", pattern_PipelineService_StartPipeline_0)] ∧
    routeTable (addedRoutes mux (RegisterPipelineServiceHandlerClient qp mux client)) =
      routeTable (addedRoutes mux (RegisterPipelineServiceHandlerServer qp mux server)) ∧
    (RegisterPipelineServiceHandlerServer qp mux server).1.handlers.take mux.handlers.length =
      mux.handlers ∧
    (RegisterPipelineServiceHandlerClient qp mux client).1.handlers.take mux.handlers.length =
      mux.handlers ∧
    (addedRoutes mux (RegisterPipelineServiceHandlerServer qp mux server)).map Route.h =
      ([
        ⟨"POST", pattern_PipelineService_CreatePipeline_0,
          handlerServer mux .CreatePipeline "/redpanda.api.dataplane.v1alpha2.PipelineService/CreatePipeline"
            "/v1alpha2/redpanda-connect/pipelines"
            (fun ctx marshaler req pathParams =>
              local_request_PipelineService_CreatePipeline_0 ctx marshaler server req pathParams)
            .response_PipelineService_CreatePipeline_0⟩,
        ⟨"GET", pattern_PipelineService_GetPipeline_0,
          handlerServer mux .GetPipeline "/redpanda.api.dataplane.v1alpha2.PipelineService/GetPipeline"
            "/v1alpha2/redpanda-connect/pipelines/{id}"
            (fun ctx marshaler req pathParams =>
              local_request_PipelineService_GetPipeline_0 ctx marshaler server req pathParams)
            .response_PipelineService_GetPipeline_0⟩,
        ⟨"GET", pattern_PipelineService_ListPipelines_0,
          handlerServer mux .ListPipelines "/redpanda.api.dataplane.v1alpha2.PipelineService/ListPipelines"
            "/v1alpha2/redpanda-connect/pipelines"
            (fun ctx marshaler req pathParams =>
              local_request_PipelineService_ListPipelines_0 qp ctx marshaler server req pathParams)
            .resp⟩,
        ⟨"PUT", pattern_PipelineService_UpdatePipeline_0,
          handlerServer mux .UpdatePipeline "/redpanda.api.dataplane.v1alpha2.PipelineService/UpdatePipeline"
            "/v1alpha2/redpanda-connect/pipelines/{id}"
            (fun ctx marshaler req pathParams =>
              local_request_PipelineService_UpdatePipeline_0 qp ctx marshaler server req pathParams)
            .response_PipelineService_UpdatePipeline_0⟩,
        ⟨"DELETE", pattern_PipelineService_DeletePipeline_0,
          handlerServer mux .DeletePipeline "/redpanda.api.dataplane.v1alpha2.PipelineService/DeletePipeline"
            "/v1alpha2/redpanda-connect/pipelines/{id}"
            (fun ctx marshaler req pathParams =>
              local_request_PipelineService_DeletePipeline_0 ctx marshaler server req pathParams)
            .resp⟩,
        ⟨"PUT", pattern_PipelineService_StopPipeline_0,
          handlerServer mux .StopPipeline "/redpanda.api.dataplane.v1alpha2.PipelineService/StopPipeline"
            "/v1alpha2/redpanda-connect/pipelines/{id}/stop"
            (fun ctx marshaler req pathParams =>
              local_request_PipelineService_StopPipeline_0 ctx marshaler server req pathParams)
            .response_PipelineService_StopPipeline_0⟩,
        ⟨"PUT", pattern_PipelineService_StartPipeline_0,
          handlerServer mux .StartPipeline "/redpanda.api.dataplane.v1alpha2.PipelineService/StartPipeline"
            "/v1alpha2/redpanda-connect/pipelines/{id}/start"
            (fun ctx marshaler req pathParams =>
              local_request_PipelineService_StartPipeline_0 ctx marshaler server req pathParams)
            .response_PipelineService_StartPipeline_0⟩]).map Route.h ∧
    (addedRoutes mux (RegisterPipelineServiceHandlerClient qp mux client)).map Route.h =
      ([
        ⟨"POST", pattern_PipelineService_CreatePipeline_0,
          handlerClient mux .CreatePipeline "/redpanda.api.dataplane.v1alpha2.PipelineService/CreatePipeline"
            "/v1alpha2/redpanda-connect/pipelines"
            (fun ctx marshaler req pathParams =>
              request_PipelineService_CreatePipeline_0 ctx marshaler client req pathParams)
            .response_PipelineService_CreatePipeline_0⟩,
        ⟨"GET", pattern_PipelineService_GetPipeline_0,
          handlerClient mux .GetPipeline "/redpanda.api.dataplane.v1alpha2.PipelineService/GetPipeline"
            "/v1alpha2/redpanda-connect/pipelines/{id}"
            (fun ctx marshaler req pathParams =>
              request_PipelineService_GetPipeline_0 ctx marshaler client req pathParams)
            .response_PipelineService_GetPipeline_0⟩,
        ⟨"GET", pattern_PipelineService_ListPipelines_0,
          handlerClient mux .ListPipelines "/redpanda.api.dataplane.v1alpha2.PipelineService/ListPipelines"
            "/v1alpha2/redpanda-connect/pipelines"
            (fun ctx marshaler req pathParams =>
              request_PipelineService_ListPipelines_0 qp ctx marshaler client req pathParams)
            .resp⟩,
        ⟨"PUT", pattern_PipelineService_UpdatePipeline_0,
          handlerClient mux .UpdatePipeline "/redpanda.api.dataplane.v1alpha2.PipelineService/UpdatePipeline"
            "/v1alpha2/redpanda-connect/pipelines/{id}"
            (fun ctx marshaler req pathParams =>
              request_PipelineService_UpdatePipeline_0 qp ctx marshaler client req pathParams)
            .response_PipelineService_UpdatePipeline_0⟩,
        ⟨"DELETE", pattern_PipelineService_DeletePipeline_0,
          handlerClient mux .DeletePipeline "/redpanda.api.dataplane.v1alpha2.PipelineService/DeletePipeline"
            "/v1alpha2/redpanda-connect/pipelines/{id}"
            (fun ctx marshaler req pathParams =>
              request_PipelineService_DeletePipeline_0 ctx marshaler client req pathParams)
            .resp⟩,
        ⟨"PUT", pattern_PipelineService_StopPipeline_0,
          handlerClient mux .StopPipeline "/redpanda.api.dataplane.v1alpha2.PipelineService/StopPipeline"
            "/v1alpha2/redpanda-connect/pipelines/{id}/stop"
            (fun ctx marshaler req pathParams =>
              request_PipelineService_StopPipeline_0 ctx marshaler client req pathParams)
            .response_PipelineService_StopPipeline_0⟩,
        ⟨"PUT", pattern_PipelineService_StartPipeline_0,
          handlerClient mux .StartPipeline "/redpanda.api.dataplane.v1alpha2.PipelineService/StartPipeline"
            "/v1alpha2/redpanda-connect/pipelines/{id}/start"
            (fun ctx marshaler req pathParams =>
              request_PipelineService_StartPipeline_0 ctx marshaler client req pathParams)
            .response_PipelineService_StartPipeline_0⟩]).map Route.h := by
  rw [server_routes, client_routes]
  refine ⟨rfl, rfl, rfl, rfl, rfl, rfl, ?_, ?_, rfl, rfl⟩ <;>
    simp [RegisterPipelineServiceHandlerServer, RegisterPipelineServiceHandlerClient,
      ServeMux.Handle]

/-! ## The query filter of the update route -/

theorem update_encoding_lookup (t : String) :
    filter_PipelineService_UpdatePipeline_0.Encoding.lookup t =
      if t = "pipeline" then some 0 else if t = "id" then some 1 else none := by
  by_cases h1 : t = "pipeline"
  · subst h1; rfl
  · by_cases h2 : t = "id"
    · subst h2; rfl
    · have e1 : (t == "pipeline") = false := by simpa using h1
      have e2 : (t == "id") = false := by simpa using h2
      simp [filter_PipelineService_UpdatePipeline_0, List.lookup, e1, e2, h1, h2]

theorem scan_cons (da : DoubleArray) (i : Nat) (t : String) (ts : List String) :
    da.scan i (t :: ts) =
      match da.Encoding.lookup t with
      | none => i
      | some code =>
        if da.Check.length ≤ da.Base.getD i 0 + code ∨
            da.Check.getD (da.Base.getD i 0 + code) 0 ≠ i + 1 then i
        else da.scan (da.Base.getD i 0 + code) ts := by
  rfl

theorem scan_dead_state_three (seq : List String) :
    filter_PipelineService_UpdatePipeline_0.scan 3 seq = 3 := by
  cases seq with
  | nil => rfl
  | cons t ts =>
    rw [scan_cons, update_encoding_lookup]
    by_cases h1 : t = "pipeline"
    · simp [h1, filter_PipelineService_UpdatePipeline_0]
    · by_cases h2 : t = "id"
      · simp [h2, filter_PipelineService_UpdatePipeline_0]
      · simp [h1, h2]

theorem scan_dead_state_five (seq : List String) :
    filter_PipelineService_UpdatePipeline_0.scan 5 seq = 5 := by
  cases seq with
  | nil => rfl
  | cons t ts =>
    rw [scan_cons, update_encoding_lookup]
    by_cases h1 : t = "pipeline"
    · simp [h1, filter_PipelineService_UpdatePipeline_0]
    · by_cases h2 : t = "id"
      · simp [h2, filter_PipelineService_UpdatePipeline_0]
      · simp [h1, h2]

/-- After a first token "pipeline" (state 1) or "id" (state 2), scanning
moves on exactly when the next token is "id". -/
theorem scan_after_first (i : Nat) (hi : i = 1 ∨ i = 2) (ts : List String) :
    filter_PipelineService_UpdatePipeline_0.scan i ts =
      if ts.head? = some "id" then 2 * i + 1 else i := by
  cases ts with
  | nil => simp [DoubleArray.scan]
  | cons t ts =>
    have e3 := scan_dead_state_three ts
    have e5 := scan_dead_state_five ts
    rw [scan_cons, update_encoding_lookup]
    simp only [filter_PipelineService_UpdatePipeline_0] at e3 e5
    by_cases h1 : t = "pipeline"
    · rcases hi with rfl | rfl <;> simp [h1, filter_PipelineService_UpdatePipeline_0]
    · by_cases h2 : t = "id"
      · rcases hi with rfl | rfl
        · simp [h2, filter_PipelineService_UpdatePipeline_0, e3]
        · simp [h2, filter_PipelineService_UpdatePipeline_0, e5]
      · simp [h1, h2]

/-- The state in which scanning a field path from the root stops. -/
theorem scan_from_root (seq : List String) :
    filter_PipelineService_UpdatePipeline_0.scan 0 seq =
      match seq with
      | [] => 0
      | t :: ts =>
        if t = "pipeline" then (if ts.head? = some "id" then 3 else 1)
        else if t = "id" then (if ts.head? = some "id" then 5 else 2)
        else 0 := by
  cases seq with
  | nil => rfl
  | cons t ts =>
    have s1 := scan_after_first 1 (Or.inl rfl) ts
    have s2 := scan_after_first 2 (Or.inr rfl) ts
    rw [scan_cons, update_encoding_lookup]
    simp only [filter_PipelineService_UpdatePipeline_0] at s1 s2
    by_cases h1 : t = "pipeline"
    · simp [h1, filter_PipelineService_UpdatePipeline_0, s1]
    · by_cases h2 : t = "id"
      · simp [h2, filter_PipelineService_UpdatePipeline_0, s2]
      · simp [h1, h2]

/-- The field paths the update filter excludes: those that start with
"pipeline" or "id" and do not continue with "id". -/
theorem update_filter_excluded_iff (seq : List String) :
    filter_PipelineService_UpdatePipeline_0.HasCommonPrefix seq = true ↔
      ∃ t ts, seq = t :: ts ∧ (t = "pipeline" ∨ t = "id") ∧ ts.head? ≠ some "id" := by
  unfold DoubleArray.HasCommonPrefix
  rw [scan_from_root]
  cases seq with
  | nil => simp [filter_PipelineService_UpdatePipeline_0]
  | cons t ts =>
    by_cases h1 : t = "pipeline"
    · by_cases h3 : ts.head? = some "id"
      · simp [h1, h3, filter_PipelineService_UpdatePipeline_0]
      · simp [h1, h3, filter_PipelineService_UpdatePipeline_0]
        exact ⟨"pipeline", ts, ⟨rfl, rfl⟩, Or.inl rfl, h3⟩
    · by_cases h2 : t = "id"
      · by_cases h3 : ts.head? = some "id"
        · simp [h2, h3, filter_PipelineService_UpdatePipeline_0]
        · simp [h2, h3, filter_PipelineService_UpdatePipeline_0]
          exact ⟨"id", ts, ⟨rfl, rfl⟩, Or.inr rfl, h3⟩
      · simp [h1, h2, filter_PipelineService_UpdatePipeline_0]

/-- C4, evaluated on the code: the one-component paths "pipeline" and "id"
and the path "pipeline.description" are excluded by the filter of the update
route, but the paths "pipeline.id" and "id.id" are not: after "pipeline"
(state 1) or "id" (state 2) the table has a transition on the token "id"
(Check[3] = 2, Check[5] = 3) into a state without terminal transition. -/
theorem update_filter_lets_id_continuation_through :
    filter_PipelineService_UpdatePipeline_0.HasCommonPrefix (strings_Split_dot "pipeline") = true ∧
    filter_PipelineService_UpdatePipeline_0.HasCommonPrefix (strings_Split_dot "id") = true ∧
    filter_PipelineService_UpdatePipeline_0.HasCommonPrefix
      (strings_Split_dot "pipeline.description") = true ∧
    strings_Split_dot "pipeline.id" = ["pipeline", "id"] ∧
    filter_PipelineService_UpdatePipeline_0.HasCommonPrefix (strings_Split_dot "pipeline.id") = false ∧
    filter_PipelineService_UpdatePipeline_0.HasCommonPrefix (strings_Split_dot "id.id") = false := by
  decide
/-! ## Binding the update request -/

/-- A key whose field path the filter excludes has no effect on the result of
populating a message from the query. -/
theorem populate_ignores_excluded_key {α : Type}
    (populate : α → List String → List String → Except GoError α)
    (filter : DoubleArray) (key : String)
    (hkey : filter.HasCommonPrefix (strings_Split_dot key) = true)
    (values : List (String × List String)) (msg : α) :
    runtime_PopulateQueryParameters populate msg values filter =
      runtime_PopulateQueryParameters populate msg
        (values.filter (fun kv => kv.1 ≠ key)) filter := by
  induction values generalizing msg with
  | nil => rfl
  | cons kv rest ih =>
    obtain ⟨k, vals⟩ := kv
    by_cases hk : k = key
    · subst hk
      simp [runtime_PopulateQueryParameters, hkey, ih]
    · simp only [List.filter, hk, ne_eq, not_false_eq_true, decide_True]
      simp only [runtime_PopulateQueryParameters]
      split
      · exact ih msg
      · split
        · rfl
        · exact ih _

/-- Populating succeeds and keeps the value of `f` when every key that is
not excluded is populated without error and without changing `f`. -/
theorem populate_keeps {α β : Type}
    (populate : α → List String → List String → Except GoError α)
    (filter : DoubleArray) (f : α → β) (values : List (String × List String))
    (hrest : ∀ kv ∈ values, filter.HasCommonPrefix (strings_Split_dot kv.1) = false →
      ∀ e, ∃ e1, populate e (strings_Split_dot kv.1) kv.2 = .ok e1 ∧ f e1 = f e)
    (msg : α) :
    ∃ e, runtime_PopulateQueryParameters populate msg values filter = .ok e ∧ f e = f msg := by
  induction values generalizing msg with
  | nil => exact ⟨msg, rfl, rfl⟩
  | cons kv rest ih =>
    obtain ⟨k, vals⟩ := kv
    have hrest1 : ∀ kv ∈ rest,
        filter.HasCommonPrefix (strings_Split_dot kv.1) = false →
        ∀ e, ∃ e1, populate e (strings_Split_dot kv.1) kv.2 = .ok e1 ∧ f e1 = f e :=
      fun kv hkv => hrest kv (List.mem_cons_of_mem _ hkv)
    simp only [runtime_PopulateQueryParameters]
    cases hx : filter.HasCommonPrefix (strings_Split_dot k) with
    | true => simpa using ih hrest1 msg
    | false =>
      obtain ⟨e1, he1, hf1⟩ := hrest (k, vals) (List.mem_cons_self _ _) hx msg
      obtain ⟨e, he, hf⟩ := ih hrest1 e1
      refine ⟨e, ?_, hf.trans hf1⟩
      simp [he1, he]

/-- The remote update function, once the body is decoded and `id` is in the
path parameters and the form is parsed, is decided by the population of the
envelope from the query. -/
theorem update_remote_after_path (qp : QueryParser) (ctx : Context) (marshaler : Marshaler)
    (client : PipelineServiceClient) (req : Request) (pathParams : List (String × String))
    (body v : String) (hbody : req.Body = .ok body)
    (hdec : decodeFailure (marshaler.DecodePipelineUpdate body).2 = none)
    (hid : pathParams.lookup "id" = some v) (hparse : req.ParseForm = none) :
    request_PipelineService_UpdatePipeline_0 qp ctx marshaler client req pathParams =
      match runtime_PopulateQueryParameters qp.populateUpdatePipelineRequest
          { Id := v, Pipeline := (marshaler.DecodePipelineUpdate body).1 } req.Form
          filter_PipelineService_UpdatePipeline_0 with
      | .error err => Outcome.returnNil {} (status_Errorf_v .InvalidArgument err)
      | .ok e => Outcome.ofClient Message.update (.UpdatePipeline ctx e)
          (client.UpdatePipeline ctx e) := by
  simp only [request_PipelineService_UpdatePipeline_0, utilities_IOReaderFactory, hbody, hdec,
    hid, runtime_String, hparse]

/-- The local update function, under the same conditions. -/
theorem update_local_after_path (qp : QueryParser) (ctx : Context) (marshaler : Marshaler)
    (server : PipelineServiceServer) (req : Request) (pathParams : List (String × String))
    (body v : String) (hbody : req.Body = .ok body)
    (hdec : decodeFailure (marshaler.DecodePipelineUpdate body).2 = none)
    (hid : pathParams.lookup "id" = some v) (hparse : req.ParseForm = none) :
    local_request_PipelineService_UpdatePipeline_0 qp ctx marshaler server req pathParams =
      match runtime_PopulateQueryParameters qp.populateUpdatePipelineRequest
          { Id := v, Pipeline := (marshaler.DecodePipelineUpdate body).1 } req.Form
          filter_PipelineService_UpdatePipeline_0 with
      | .error err => Outcome.returnNil {} (status_Errorf_v .InvalidArgument err)
      | .ok e => Outcome.ofServer Message.update (.UpdatePipeline ctx e)
          (server.UpdatePipeline ctx e) := by
  simp only [local_request_PipelineService_UpdatePipeline_0, utilities_IOReaderFactory, hbody,
    hdec, hid, runtime_String, hparse]

theorem id_key_excluded :
    filter_PipelineService_UpdatePipeline_0.HasCommonPrefix (strings_Split_dot "id") = true := by
  decide

/-- C5: for the update request function, remote and local, when the body
decodes, the path parameters hold id = v, and the query (which parses, and
whose other keys each populate without error and without touching Id) holds
the key "id" with any values: the key "id" is excluded by the filter of the
route, binding succeeds, the envelope passed to the operation has Id = v, and
that envelope is the one bound from the query with the key "id" taken out, so
the query value is ignored (the form without the key is strictly shorter). -/
theorem update_path_id_wins_over_query (qp : QueryParser) (ctx : Context)
    (marshaler : Marshaler) (client : PipelineServiceClient) (server : PipelineServiceServer)
    (req : Request) (pathParams : List (String × String)) (body v : String)
    (vals : List String)
    (hbody : req.Body = .ok body)
    (hdec : decodeFailure (marshaler.DecodePipelineUpdate body).2 = none)
    (hid : pathParams.lookup "id" = some v)
    (hparse : req.ParseForm = none)
    (hkey : ("id", vals) ∈ req.Form)
    (hrest : ∀ kv ∈ req.Form, kv.1 ≠ "id" →
      filter_PipelineService_UpdatePipeline_0.HasCommonPrefix (strings_Split_dot kv.1) = false →
      ∀ e, ∃ e1, qp.populateUpdatePipelineRequest e (strings_Split_dot kv.1) kv.2 = .ok e1 ∧
        e1.Id = e.Id) :
    filter_PipelineService_UpdatePipeline_0.HasCommonPrefix (strings_Split_dot "id") = true ∧
    (req.withoutKey "id").Form.length < req.Form.length ∧
    ∃ e : UpdatePipelineRequest, e.Id = v ∧
      runtime_PopulateQueryParameters qp.populateUpdatePipelineRequest
        { Id := v, Pipeline := (marshaler.DecodePipelineUpdate body).1 }
        (req.withoutKey "id").Form filter_PipelineService_UpdatePipeline_0 = .ok e ∧
      request_PipelineService_UpdatePipeline_0 qp ctx marshaler client req pathParams =
        Outcome.ofClient Message.update (.UpdatePipeline ctx e) (client.UpdatePipeline ctx e) ∧
      local_request_PipelineService_UpdatePipeline_0 qp ctx marshaler server req pathParams =
        Outcome.ofServer Message.update (.UpdatePipeline ctx e)
          (server.UpdatePipeline ctx e) := by
  refine ⟨id_key_excluded, ?_, ?_⟩
  · exact List.length_filter_lt_length_iff_exists.mpr ⟨("id", vals), hkey, by simp⟩
  have hkeep := populate_keeps qp.populateUpdatePipelineRequest
    filter_PipelineService_UpdatePipeline_0 (fun e => e.Id) req.Form
    (by
      intro kv hkv hx e
      have hne : kv.1 ≠ "id" := by
        intro h
        rw [h, id_key_excluded] at hx
        exact absurd hx (by decide)
      exact hrest kv hkv hne hx e)
    { Id := v, Pipeline := (marshaler.DecodePipelineUpdate body).1 }
  obtain ⟨e, he, hId⟩ := hkeep
  refine ⟨e, hId, ?_, ?_, ?_⟩
  · rw [← he]
    exact (populate_ignores_excluded_key _ _ "id" id_key_excluded req.Form _).symm
  · rw [update_remote_after_path qp ctx marshaler client req pathParams body v hbody hdec hid
      hparse, he]
  · rw [update_local_after_path qp ctx marshaler server req pathParams body v hbody hdec hid
      hparse, he]

theorem update_path_id_wins_over_query_witness :
    (exampleRequest exampleBody [("id", ["other"]), ("update_mask", ["display_name"])]).Body =
      .ok exampleBody ∧
    [("id", "p1")].lookup "id" = some "p1" ∧
    ∃ e : UpdatePipelineRequest, e.Id = "p1" ∧
      runtime_PopulateQueryParameters exampleQueryParser.populateUpdatePipelineRequest
        { Id := "p1", Pipeline := (exampleMarshaler.DecodePipelineUpdate exampleBody).1 }
        ((exampleRequest exampleBody
          [("id", ["other"]), ("update_mask", ["display_name"])]).withoutKey "id").Form
        filter_PipelineService_UpdatePipeline_0 = .ok e ∧
      request_PipelineService_UpdatePipeline_0 exampleQueryParser {} exampleMarshaler
          exampleClient
          (exampleRequest exampleBody [("id", ["other"]), ("update_mask", ["display_name"])])
          [("id", "p1")] =
        Outcome.ofClient Message.update (.UpdatePipeline {} e)
          (exampleClient.UpdatePipeline {} e) ∧
      local_request_PipelineService_UpdatePipeline_0 exampleQueryParser {} exampleMarshaler
          exampleServer
          (exampleRequest exampleBody [("id", ["other"]), ("update_mask", ["display_name"])])
          [("id", "p1")] =
        Outcome.ofServer Message.update (.UpdatePipeline {} e)
          (exampleServer.UpdatePipeline {} e) :=
  ⟨rfl, rfl,
    (update_path_id_wins_over_query exampleQueryParser {} exampleMarshaler exampleClient
      exampleServer
      (exampleRequest exampleBody [("id", ["other"]), ("update_mask", ["display_name"])])
      [("id", "p1")] exampleBody "p1" ["other"] rfl (by decide) rfl rfl
      (by simp [exampleRequest])
      (by
        intro kv hkv hne hx e
        simp only [exampleRequest, List.mem_cons, List.mem_singleton, List.not_mem_nil,
          or_false] at hkv
        rcases hkv with rfl | rfl
        · exact absurd rfl hne
        · exact ⟨{ e with UpdateMask := some ["display_name"] }, by
            simp [exampleQueryParser, strings_Split_dot, splitFields], rfl⟩)).2.2⟩

/-- C6, refuted as stated: on the request of the scenario (path id "p1", body
`exampleBody` decoded to display name "x", query pipeline.description=demo),
with a query parser that would set the description if it were handed the key,
the field path pipeline.description does not pass the filter, and the
operation does not receive an envelope whose pipeline has description "demo". -/
theorem update_query_description_not_bound :
    filter_PipelineService_UpdatePipeline_0.HasCommonPrefix
        (strings_Split_dot "pipeline.description") ≠ false ∧
    ¬ ∃ e p, (request_PipelineService_UpdatePipeline_0 exampleQueryParser {}
          exampleMarshaler exampleClient
          (exampleRequest exampleBody [("pipeline.description", ["demo"])])
          [("id", "p1")]).calls = [.UpdatePipeline {} e] ∧
        e.Pipeline = some p ∧ p.Description = "demo" := by
  refine ⟨by decide, ?_⟩
  have hc : (request_PipelineService_UpdatePipeline_0 exampleQueryParser {}
      exampleMarshaler exampleClient
      (exampleRequest exampleBody [("pipeline.description", ["demo"])])
      [("id", "p1")]).calls =
      [.UpdatePipeline {} { Id := "p1", Pipeline := some { DisplayName := "x" } }] := by
    decide
  rintro ⟨e, p, h1, h2, h3⟩
  rw [hc] at h1
  simp only [List.cons.injEq, Call.UpdatePipeline.injEq, true_and, and_true] at h1
  subst h1
  simp only [Option.some.injEq] at h2
  subst h2
  exact absurd h3 (by decide)

/-- C6, amended: for the update request function, remote and local, when the
marshaler decodes the body to a pipeline `p`, the path parameters hold id = v
and the query is pipeline.description=demo, the field path
pipeline.description is excluded by the filter of the route, binding succeeds
whatever the query parser does, and the envelope passed to the operation has
Id = v and Pipeline = p: the display name and the description are those of the
body, and the query value "demo" is not applied. -/
theorem update_body_field_not_bound_from_query (qp : QueryParser) (ctx : Context)
    (marshaler : Marshaler) (client : PipelineServiceClient) (server : PipelineServiceServer)
    (req : Request) (pathParams : List (String × String)) (body v : String)
    (p : PipelineUpdate)
    (hbody : req.Body = .ok body)
    (hdec : marshaler.DecodePipelineUpdate body = (some p, none))
    (hid : pathParams.lookup "id" = some v)
    (hparse : req.ParseForm = none)
    (hform : req.Form = [("pipeline.description", ["demo"])]) :
    filter_PipelineService_UpdatePipeline_0.HasCommonPrefix
      (strings_Split_dot "pipeline.description") = true ∧
    request_PipelineService_UpdatePipeline_0 qp ctx marshaler client req pathParams =
      Outcome.ofClient Message.update (.UpdatePipeline ctx { Id := v, Pipeline := some p })
        (client.UpdatePipeline ctx { Id := v, Pipeline := some p }) ∧
    local_request_PipelineService_UpdatePipeline_0 qp ctx marshaler server req pathParams =
      Outcome.ofServer Message.update (.UpdatePipeline ctx { Id := v, Pipeline := some p })
        (server.UpdatePipeline ctx { Id := v, Pipeline := some p }) := by
  have hx : filter_PipelineService_UpdatePipeline_0.HasCommonPrefix
      (strings_Split_dot "pipeline.description") = true := by decide
  have hd : decodeFailure (marshaler.DecodePipelineUpdate body).2 = none := by
    rw [hdec]; rfl
  refine ⟨hx, ?_, ?_⟩
  · rw [update_remote_after_path qp ctx marshaler client req pathParams body v hbody hd hid
      hparse, hform]
    simp [runtime_PopulateQueryParameters, hx, hdec]
  · rw [update_local_after_path qp ctx marshaler server req pathParams body v hbody hd hid
      hparse, hform]
    simp [runtime_PopulateQueryParameters, hx, hdec]

theorem update_body_field_not_bound_from_query_witness :
    exampleMarshaler.DecodePipelineUpdate exampleBody = (some { DisplayName := "x" }, none) ∧
    [("id", "p1")].lookup "id" = some "p1" ∧
    (request_PipelineService_UpdatePipeline_0 exampleQueryParser {} exampleMarshaler
        exampleClient (exampleRequest exampleBody [("pipeline.description", ["demo"])])
        [("id", "p1")]).calls =
      [.UpdatePipeline {}
        { Id := "p1", Pipeline := some { DisplayName := "x", Description := "" } }] :=
  ⟨by decide, rfl, by
    rw [(update_body_field_not_bound_from_query exampleQueryParser {} exampleMarshaler
      exampleClient exampleServer
      (exampleRequest exampleBody [("pipeline.description", ["demo"])]) [("id", "p1")]
      exampleBody "p1" { DisplayName := "x" } rfl (by decide) rfl rfl rfl).2.1]
    rfl⟩

/-! ## Decoding the body -/

/-- C7: for the four request functions that carry a body (create and update,
remote and local): when the reader factory fails, or when decoding returns an
error other than `io.EOF`, the function returns a nil message and the
InvalidArgument error with the text of that error, and invokes nothing; when
decoding returns `io.EOF` the function goes on as after a decoding without
error, with the Pipeline field as the decoder left it (unset, when the decoder
left it unset): create invokes the operation with that envelope, and update
goes on to the path and the query, invoking the operation with Id and that
Pipeline when the id is present and the query is empty. -/
theorem body_decode_eof_tolerated (qp : QueryParser) (ctx : Context) (marshaler : Marshaler)
    (client : PipelineServiceClient) (server : PipelineServiceServer) (req : Request)
    (pathParams : List (String × String)) :
    (∀ berr, req.Body = .error berr →
      FailsWith (request_PipelineService_CreatePipeline_0 ctx marshaler client req pathParams)
        berr.Error ∧
      FailsWith
        (local_request_PipelineService_CreatePipeline_0 ctx marshaler server req pathParams)
        berr.Error ∧
      FailsWith
        (request_PipelineService_UpdatePipeline_0 qp ctx marshaler client req pathParams)
        berr.Error ∧
      FailsWith
        (local_request_PipelineService_UpdatePipeline_0 qp ctx marshaler server req pathParams)
        berr.Error) ∧
    (∀ body err, req.Body = .ok body → err ≠ GoError.EOF →
      ((marshaler.DecodePipelineCreate body).2 = some err →
        FailsWith (request_PipelineService_CreatePipeline_0 ctx marshaler client req pathParams)
          err.Error ∧
        FailsWith
          (local_request_PipelineService_CreatePipeline_0 ctx marshaler server req pathParams)
          err.Error) ∧
      ((marshaler.DecodePipelineUpdate body).2 = some err →
        FailsWith
          (request_PipelineService_UpdatePipeline_0 qp ctx marshaler client req pathParams)
          err.Error ∧
        FailsWith
          (local_request_PipelineService_UpdatePipeline_0 qp ctx marshaler server req
            pathParams)
          err.Error)) ∧
    (∀ body p, req.Body = .ok body →
      marshaler.DecodePipelineCreate body = (p, some GoError.EOF) →
      request_PipelineService_CreatePipeline_0 ctx marshaler client req pathParams =
        Outcome.ofClient Message.create (.CreatePipeline ctx { Pipeline := p })
          (client.CreatePipeline ctx { Pipeline := p }) ∧
      local_request_PipelineService_CreatePipeline_0 ctx marshaler server req pathParams =
        Outcome.ofServer Message.create (.CreatePipeline ctx { Pipeline := p })
          (server.CreatePipeline ctx { Pipeline := p })) ∧
    (∀ body p, req.Body = .ok body →
      marshaler.DecodePipelineUpdate body = (p, some GoError.EOF) →
      request_PipelineService_UpdatePipeline_0 qp ctx marshaler client req pathParams =
        request_PipelineService_UpdatePipeline_0 qp ctx
          { marshaler with DecodePipelineUpdate := fun _ => (p, none) } client req pathParams ∧
      local_request_PipelineService_UpdatePipeline_0 qp ctx marshaler server req pathParams =
        local_request_PipelineService_UpdatePipeline_0 qp ctx
          { marshaler with DecodePipelineUpdate := fun _ => (p, none) } server req pathParams ∧
      ∀ v, pathParams.lookup "id" = some v → req.ParseForm = none → req.Form = [] →
        request_PipelineService_UpdatePipeline_0 qp ctx marshaler client req pathParams =
          Outcome.ofClient Message.update (.UpdatePipeline ctx { Id := v, Pipeline := p })
            (client.UpdatePipeline ctx { Id := v, Pipeline := p }) ∧
        local_request_PipelineService_UpdatePipeline_0 qp ctx marshaler server req pathParams =
          Outcome.ofServer Message.update (.UpdatePipeline ctx { Id := v, Pipeline := p })
            (server.UpdatePipeline ctx { Id := v, Pipeline := p })) := by
  refine ⟨?_, ?_, ?_, ?_⟩
  · intro berr hb
    simp [FailsWith, request_PipelineService_CreatePipeline_0,
      local_request_PipelineService_CreatePipeline_0, request_PipelineService_UpdatePipeline_0,
      local_request_PipelineService_UpdatePipeline_0, utilities_IOReaderFactory, hb,
      Outcome.returnNil, status_Errorf_v]
  · intro body err hb hne
    constructor <;>
    · intro hd
      simp [FailsWith, request_PipelineService_CreatePipeline_0,
        local_request_PipelineService_CreatePipeline_0,
        request_PipelineService_UpdatePipeline_0,
        local_request_PipelineService_UpdatePipeline_0, utilities_IOReaderFactory, hb, hd,
        decodeFailure, hne, Outcome.returnNil, status_Errorf_v]
  · intro body p hb hd
    simp [request_PipelineService_CreatePipeline_0,
      local_request_PipelineService_CreatePipeline_0, utilities_IOReaderFactory, hb, hd,
      decodeFailure]
  · intro body p hb hd
    refine ⟨?_, ?_, ?_⟩
    · simp [request_PipelineService_UpdatePipeline_0, utilities_IOReaderFactory, hb, hd,
        decodeFailure]
    · simp [local_request_PipelineService_UpdatePipeline_0, utilities_IOReaderFactory, hb, hd,
        decodeFailure]
    · intro v hid hparse hform
      have hdf : decodeFailure (marshaler.DecodePipelineUpdate body).2 = none := by
        rw [hd]; rfl
      rw [update_remote_after_path qp ctx marshaler client req pathParams body v hb hdf hid
          hparse,
        update_local_after_path qp ctx marshaler server req pathParams body v hb hdf hid
          hparse, hform, hd]
      simp [runtime_PopulateQueryParameters]

theorem body_decode_eof_tolerated_witness :
    (exampleRequest "bad" []).Body = .ok "bad" ∧
    (exampleMarshaler.DecodePipelineCreate "bad").2 = some (.other "invalid character") ∧
    FailsWith
      (request_PipelineService_CreatePipeline_0 {} exampleMarshaler exampleClient
        (exampleRequest "bad" []) [])
      "invalid character" ∧
    exampleMarshaler.DecodePipelineUpdate "" = (none, some GoError.EOF) ∧
    request_PipelineService_UpdatePipeline_0 exampleQueryParser {} exampleMarshaler
        exampleClient (exampleRequest "" []) [("id", "p1")] =
      Outcome.ofClient Message.update (.UpdatePipeline {} { Id := "p1", Pipeline := none })
        (exampleClient.UpdatePipeline {} { Id := "p1", Pipeline := none }) :=
  ⟨rfl, by decide,
    (((body_decode_eof_tolerated exampleQueryParser {} exampleMarshaler exampleClient
      exampleServer (exampleRequest "bad" []) []).2.1 "bad" (.other "invalid character") rfl
      (by decide)).1 (by decide)).1,
    by decide,
    (((body_decode_eof_tolerated exampleQueryParser {} exampleMarshaler exampleClient
      exampleServer (exampleRequest "" []) [("id", "p1")]).2.2.2 "" none rfl
      (by decide)).2.2 "p1" rfl rfl rfl).1⟩
/-! ## Propagation of the operation result -/

theorem remote_CreatePipeline_propagates (ctx : Context) (marshaler : Marshaler)
    (client : PipelineServiceClient) (req : Request) (pathParams : List (String × String)) :
    PropagatesOperation .CreatePipeline ctx (Call.viaClient client)
      (request_PipelineService_CreatePipeline_0 ctx marshaler client req pathParams) := by
  unfold PropagatesOperation request_PipelineService_CreatePipeline_0
  simp only []
  repeat' split
  all_goals
    first
    | exact Or.inl ⟨rfl, rfl, _, rfl⟩
    | exact Or.inr ⟨_, rfl, rfl, rfl, rfl, rfl⟩

theorem local_CreatePipeline_propagates (ctx : Context) (marshaler : Marshaler)
    (server : PipelineServiceServer) (req : Request) (pathParams : List (String × String)) :
    PropagatesOperation .CreatePipeline ctx (Call.viaServer server)
      (local_request_PipelineService_CreatePipeline_0 ctx marshaler server req pathParams) := by
  unfold PropagatesOperation local_request_PipelineService_CreatePipeline_0
  simp only []
  repeat' split
  all_goals
    first
    | exact Or.inl ⟨rfl, rfl, _, rfl⟩
    | exact Or.inr ⟨_, rfl, rfl, rfl, rfl, rfl⟩

theorem remote_GetPipeline_propagates (ctx : Context) (marshaler : Marshaler)
    (client : PipelineServiceClient) (req : Request) (pathParams : List (String × String)) :
    PropagatesOperation .GetPipeline ctx (Call.viaClient client)
      (request_PipelineService_GetPipeline_0 ctx marshaler client req pathParams) := by
  unfold PropagatesOperation request_PipelineService_GetPipeline_0
  simp only []
  repeat' split
  all_goals
    first
    | exact Or.inl ⟨rfl, rfl, _, rfl⟩
    | exact Or.inr ⟨_, rfl, rfl, rfl, rfl, rfl⟩

theorem local_GetPipeline_propagates (ctx : Context) (marshaler : Marshaler)
    (server : PipelineServiceServer) (req : Request) (pathParams : List (String × String)) :
    PropagatesOperation .GetPipeline ctx (Call.viaServer server)
      (local_request_PipelineService_GetPipeline_0 ctx marshaler server req pathParams) := by
  unfold PropagatesOperation local_request_PipelineService_GetPipeline_0
  simp only []
  repeat' split
  all_goals
    first
    | exact Or.inl ⟨rfl, rfl, _, rfl⟩
    | exact Or.inr ⟨_, rfl, rfl, rfl, rfl, rfl⟩

theorem remote_ListPipelines_propagates (qp : QueryParser) (ctx : Context) (marshaler : Marshaler)
    (client : PipelineServiceClient) (req : Request) (pathParams : List (String × String)) :
    PropagatesOperation .ListPipelines ctx (Call.viaClient client)
      (request_PipelineService_ListPipelines_0 qp ctx marshaler client req pathParams) := by
  unfold PropagatesOperation request_PipelineService_ListPipelines_0
  simp only []
  repeat' split
  all_goals
    first
    | exact Or.inl ⟨rfl, rfl, _, rfl⟩
    | exact Or.inr ⟨_, rfl, rfl, rfl, rfl, rfl⟩

theorem local_ListPipelines_propagates (qp : QueryParser) (ctx : Context) (marshaler : Marshaler)
    (server : PipelineServiceServer) (req : Request) (pathParams : List (String × String)) :
    PropagatesOperation .ListPipelines ctx (Call.viaServer server)
      (local_request_PipelineService_ListPipelines_0 qp ctx marshaler server req pathParams) := by
  unfold PropagatesOperation local_request_PipelineService_ListPipelines_0
  simp only []
  repeat' split
  all_goals
    first
    | exact Or.inl ⟨rfl, rfl, _, rfl⟩
    | exact Or.inr ⟨_, rfl, rfl, rfl, rfl, rfl⟩

theorem remote_UpdatePipeline_propagates (qp : QueryParser) (ctx : Context) (marshaler : Marshaler)
    (client : PipelineServiceClient) (req : Request) (pathParams : List (String × String)) :
    PropagatesOperation .UpdatePipeline ctx (Call.viaClient client)
      (request_PipelineService_UpdatePipeline_0 qp ctx marshaler client req pathParams) := by
  unfold PropagatesOperation request_PipelineService_UpdatePipeline_0
  simp only []
  repeat' split
  all_goals
    first
    | exact Or.inl ⟨rfl, rfl, _, rfl⟩
    | exact Or.inr ⟨_, rfl, rfl, rfl, rfl, rfl⟩

theorem local_UpdatePipeline_propagates (qp : QueryParser) (ctx : Context) (marshaler : Marshaler)
    (server : PipelineServiceServer) (req : Request) (pathParams : List (String × String)) :
    PropagatesOperation .UpdatePipeline ctx (Call.viaServer server)
      (local_request_PipelineService_UpdatePipeline_0 qp ctx marshaler server req pathParams) := by
  unfold PropagatesOperation local_request_PipelineService_UpdatePipeline_0
  simp only []
  repeat' split
  all_goals
    first
    | exact Or.inl ⟨rfl, rfl, _, rfl⟩
    | exact Or.inr ⟨_, rfl, rfl, rfl, rfl, rfl⟩

theorem remote_DeletePipeline_propagates (ctx : Context) (marshaler : Marshaler)
    (client : PipelineServiceClient) (req : Request) (pathParams : List (String × String)) :
    PropagatesOperation .DeletePipeline ctx (Call.viaClient client)
      (request_PipelineService_DeletePipeline_0 ctx marshaler client req pathParams) := by
  unfold PropagatesOperation request_PipelineService_DeletePipeline_0
  simp only []
  repeat' split
  all_goals
    first
    | exact Or.inl ⟨rfl, rfl, _, rfl⟩
    | exact Or.inr ⟨_, rfl, rfl, rfl, rfl, rfl⟩

theorem local_DeletePipeline_propagates (ctx : Context) (marshaler : Marshaler)
    (server : PipelineServiceServer) (req : Request) (pathParams : List (String × String)) :
    PropagatesOperation .DeletePipeline ctx (Call.viaServer server)
      (local_request_PipelineService_DeletePipeline_0 ctx marshaler server req pathParams) := by
  unfold PropagatesOperation local_request_PipelineService_DeletePipeline_0
  simp only []
  repeat' split
  all_goals
    first
    | exact Or.inl ⟨rfl, rfl, _, rfl⟩
    | exact Or.inr ⟨_, rfl, rfl, rfl, rfl, rfl⟩

theorem remote_StopPipeline_propagates (ctx : Context) (marshaler : Marshaler)
    (client : PipelineServiceClient) (req : Request) (pathParams : List (String × String)) :
    PropagatesOperation .StopPipeline ctx (Call.viaClient client)
      (request_PipelineService_StopPipeline_0 ctx marshaler client req pathParams) := by
  unfold PropagatesOperation request_PipelineService_StopPipeline_0
  simp only []
  repeat' split
  all_goals
    first
    | exact Or.inl ⟨rfl, rfl, _, rfl⟩
    | exact Or.inr ⟨_, rfl, rfl, rfl, rfl, rfl⟩

theorem local_StopPipeline_propagates (ctx : Context) (marshaler : Marshaler)
    (server : PipelineServiceServer) (req : Request) (pathParams : List (String × String)) :
    PropagatesOperation .StopPipeline ctx (Call.viaServer server)
      (local_request_PipelineService_StopPipeline_0 ctx marshaler server req pathParams) := by
  unfold PropagatesOperation local_request_PipelineService_StopPipeline_0
  simp only []
  repeat' split
  all_goals
    first
    | exact Or.inl ⟨rfl, rfl, _, rfl⟩
    | exact Or.inr ⟨_, rfl, rfl, rfl, rfl, rfl⟩

theorem remote_StartPipeline_propagates (ctx : Context) (marshaler : Marshaler)
    (client : PipelineServiceClient) (req : Request) (pathParams : List (String × String)) :
    PropagatesOperation .StartPipeline ctx (Call.viaClient client)
      (request_PipelineService_StartPipeline_0 ctx marshaler client req pathParams) := by
  unfold PropagatesOperation request_PipelineService_StartPipeline_0
  simp only []
  repeat' split
  all_goals
    first
    | exact Or.inl ⟨rfl, rfl, _, rfl⟩
    | exact Or.inr ⟨_, rfl, rfl, rfl, rfl, rfl⟩

theorem local_StartPipeline_propagates (ctx : Context) (marshaler : Marshaler)
    (server : PipelineServiceServer) (req : Request) (pathParams : List (String × String)) :
    PropagatesOperation .StartPipeline ctx (Call.viaServer server)
      (local_request_PipelineService_StartPipeline_0 ctx marshaler server req pathParams) := by
  unfold PropagatesOperation local_request_PipelineService_StartPipeline_0
  simp only []
  repeat' split
  all_goals
    first
    | exact Or.inl ⟨rfl, rfl, _, rfl⟩
    | exact Or.inr ⟨_, rfl, rfl, rfl, rfl, rfl⟩
/-! ## Remote and local request functions -/

theorem CreatePipeline_same_binding (ctx : Context) (marshaler : Marshaler)
    (client : PipelineServiceClient) (server : PipelineServiceServer) (req : Request)
    (pathParams : List (String × String)) :
    SameBinding client server
      (request_PipelineService_CreatePipeline_0 ctx marshaler client req pathParams)
      (local_request_PipelineService_CreatePipeline_0 ctx marshaler server req pathParams) := by
  unfold SameBinding request_PipelineService_CreatePipeline_0
    local_request_PipelineService_CreatePipeline_0
  simp only []
  repeat' split
  all_goals
    simp_all [Outcome.returnNil, Outcome.ofClient, Outcome.ofServer, Call.viaClient,
      Call.viaServer]

theorem GetPipeline_same_binding (ctx : Context) (marshaler : Marshaler)
    (client : PipelineServiceClient) (server : PipelineServiceServer) (req : Request)
    (pathParams : List (String × String)) :
    SameBinding client server
      (request_PipelineService_GetPipeline_0 ctx marshaler client req pathParams)
      (local_request_PipelineService_GetPipeline_0 ctx marshaler server req pathParams) := by
  unfold SameBinding request_PipelineService_GetPipeline_0
    local_request_PipelineService_GetPipeline_0
  simp only []
  repeat' split
  all_goals
    simp_all [Outcome.returnNil, Outcome.ofClient, Outcome.ofServer, Call.viaClient,
      Call.viaServer]

theorem ListPipelines_same_binding (qp : QueryParser) (ctx : Context) (marshaler : Marshaler)
    (client : PipelineServiceClient) (server : PipelineServiceServer) (req : Request)
    (pathParams : List (String × String)) :
    SameBinding client server
      (request_PipelineService_ListPipelines_0 qp ctx marshaler client req pathParams)
      (local_request_PipelineService_ListPipelines_0 qp ctx marshaler server req pathParams) := by
  unfold SameBinding request_PipelineService_ListPipelines_0
    local_request_PipelineService_ListPipelines_0
  simp only []
  repeat' split
  all_goals
    simp_all [Outcome.returnNil, Outcome.ofClient, Outcome.ofServer, Call.viaClient,
      Call.viaServer]

theorem UpdatePipeline_same_binding (qp : QueryParser) (ctx : Context) (marshaler : Marshaler)
    (client : PipelineServiceClient) (server : PipelineServiceServer) (req : Request)
    (pathParams : List (String × String)) :
    SameBinding client server
      (request_PipelineService_UpdatePipeline_0 qp ctx marshaler client req pathParams)
      (local_request_PipelineService_UpdatePipeline_0 qp ctx marshaler server req pathParams) := by
  unfold SameBinding request_PipelineService_UpdatePipeline_0
    local_request_PipelineService_UpdatePipeline_0
  simp only []
  repeat' split
  all_goals
    simp_all [Outcome.returnNil, Outcome.ofClient, Outcome.ofServer, Call.viaClient,
      Call.viaServer]

theorem DeletePipeline_same_binding (ctx : Context) (marshaler : Marshaler)
    (client : PipelineServiceClient) (server : PipelineServiceServer) (req : Request)
    (pathParams : List (String × String)) :
    SameBinding client server
      (request_PipelineService_DeletePipeline_0 ctx marshaler client req pathParams)
      (local_request_PipelineService_DeletePipeline_0 ctx marshaler server req pathParams) := by
  unfold SameBinding request_PipelineService_DeletePipeline_0
    local_request_PipelineService_DeletePipeline_0
  simp only []
  repeat' split
  all_goals
    simp_all [Outcome.returnNil, Outcome.ofClient, Outcome.ofServer, Call.viaClient,
      Call.viaServer]

theorem StopPipeline_same_binding (ctx : Context) (marshaler : Marshaler)
    (client : PipelineServiceClient) (server : PipelineServiceServer) (req : Request)
    (pathParams : List (String × String)) :
    SameBinding client server
      (request_PipelineService_StopPipeline_0 ctx marshaler client req pathParams)
      (local_request_PipelineService_StopPipeline_0 ctx marshaler server req pathParams) := by
  unfold SameBinding request_PipelineService_StopPipeline_0
    local_request_PipelineService_StopPipeline_0
  simp only []
  repeat' split
  all_goals
    simp_all [Outcome.returnNil, Outcome.ofClient, Outcome.ofServer, Call.viaClient,
      Call.viaServer]

theorem StartPipeline_same_binding (ctx : Context) (marshaler : Marshaler)
    (client : PipelineServiceClient) (server : PipelineServiceServer) (req : Request)
    (pathParams : List (String × String)) :
    SameBinding client server
      (request_PipelineService_StartPipeline_0 ctx marshaler client req pathParams)
      (local_request_PipelineService_StartPipeline_0 ctx marshaler server req pathParams) := by
  unfold SameBinding request_PipelineService_StartPipeline_0
    local_request_PipelineService_StartPipeline_0
  simp only []
  repeat' split
  all_goals
    simp_all [Outcome.returnNil, Outcome.ofClient, Outcome.ofServer, Call.viaClient,
      Call.viaServer]

/-- C9: for each of the seven operations and every context, marshaler,
request and path-parameter map, the remote function `request_X` and the local
function `local_request_X` bind alike: they make the same invocations, so
that one fails to bind exactly when the other does, and then both return the
same nil message, the same error and the same metadata; otherwise both pass
the same envelope, with the same context, to their executor, and if the client
and the server return the same message and error for that envelope, the two
functions return the same message and error. -/
theorem remote_and_local_bind_alike (qp : QueryParser) (ctx : Context)
    (marshaler : Marshaler) (client : PipelineServiceClient) (server : PipelineServiceServer)
    (req : Request) (pathParams : List (String × String)) :
    SameBinding client server
      (request_PipelineService_CreatePipeline_0 ctx marshaler client req pathParams)
      (local_request_PipelineService_CreatePipeline_0 ctx marshaler server req pathParams) ∧
    SameBinding client server
      (request_PipelineService_GetPipeline_0 ctx marshaler client req pathParams)
      (local_request_PipelineService_GetPipeline_0 ctx marshaler server req pathParams) ∧
    SameBinding client server
      (request_PipelineService_ListPipelines_0 qp ctx marshaler client req pathParams)
      (local_request_PipelineService_ListPipelines_0 qp ctx marshaler server req pathParams) ∧
    SameBinding client server
      (request_PipelineService_UpdatePipeline_0 qp ctx marshaler client req pathParams)
      (local_request_PipelineService_UpdatePipeline_0 qp ctx marshaler server req pathParams) ∧
    SameBinding client server
      (request_PipelineService_DeletePipeline_0 ctx marshaler client req pathParams)
      (local_request_PipelineService_DeletePipeline_0 ctx marshaler server req pathParams) ∧
    SameBinding client server
      (request_PipelineService_StopPipeline_0 ctx marshaler client req pathParams)
      (local_request_PipelineService_StopPipeline_0 ctx marshaler server req pathParams) ∧
    SameBinding client server
      (request_PipelineService_StartPipeline_0 ctx marshaler client req pathParams)
      (local_request_PipelineService_StartPipeline_0 ctx marshaler server req pathParams) :=
  ⟨CreatePipeline_same_binding ctx marshaler client server req pathParams,
    GetPipeline_same_binding ctx marshaler client server req pathParams,
    ListPipelines_same_binding qp ctx marshaler client server req pathParams,
    UpdatePipeline_same_binding qp ctx marshaler client server req pathParams,
    DeletePipeline_same_binding ctx marshaler client server req pathParams,
    StopPipeline_same_binding ctx marshaler client server req pathParams,
    StartPipeline_same_binding ctx marshaler client server req pathParams⟩

/-! ## Handlers -/

theorem served_writes_one_response (result : Call → Message × Option GoError)
    (tr : List Event) (h : Served result tr) : WritesOneResponse result tr := by
  cases h with
  | annotationFailed incoming m p ctx err =>
    simp [WritesOneResponse, Event.isWrite, Event.isForward, Event.isRequest, Event.isInvoke]
  | bindingFailed incoming m p isLocal op ctx err =>
    simp [WritesOneResponse, Event.isWrite, Event.isForward, Event.isRequest, Event.isInvoke]
  | dispatchFailed incoming m p isLocal op c ctx err h =>
    simp [WritesOneResponse, Event.isWrite, Event.isForward, Event.isRequest, Event.isInvoke, h]
  | succeeded incoming m p isLocal op c ctx resp h =>
    simp [WritesOneResponse, Event.isWrite, Event.isForward, Event.isRequest, Event.isInvoke, h]

theorem handlerServer_served (mux : ServeMux) (op : Op) (rpcMethod httpPathPattern : String)
    (local_request : Context → Marshaler → Request → List (String × String) → Outcome)
    (response : Option Message → ResponseArg) (server : PipelineServiceServer)
    (hprop : ∀ ctx marshaler req pathParams,
      PropagatesOperation op ctx (Call.viaServer server)
        (local_request ctx marshaler req pathParams))
    (req : Request) (pathParams : List (String × String)) :
    Served (Call.viaServer server)
      (handlerServer mux op rpcMethod httpPathPattern local_request response req
        pathParams) := by
  unfold handlerServer
  simp only []
  split
  · exact Served.annotationFailed _ _ _ _ _
  · rename_i annotatedContext _
    rcases hprop annotatedContext (mux.MarshalerForRequest req).1 req pathParams with
      ⟨hcalls, _, text, herr⟩ | ⟨c, hcalls, _, _, _, herr⟩
    · rw [hcalls, herr]
      exact Served.bindingFailed _ _ _ _ _ _ _
    · rw [hcalls, herr]
      cases hres : (Call.viaServer server c).2 with
      | none => exact Served.succeeded _ _ _ _ _ _ _ _ hres
      | some err => exact Served.dispatchFailed _ _ _ _ _ _ _ _ hres

theorem handlerClient_served (mux : ServeMux) (op : Op) (rpcMethod httpPathPattern : String)
    (request : Context → Marshaler → Request → List (String × String) → Outcome)
    (response : Option Message → ResponseArg) (client : PipelineServiceClient)
    (hprop : ∀ ctx marshaler req pathParams,
      PropagatesOperation op ctx (Call.viaClient client)
        (request ctx marshaler req pathParams))
    (req : Request) (pathParams : List (String × String)) :
    Served (Call.viaClient client)
      (handlerClient mux op rpcMethod httpPathPattern request response req pathParams) := by
  unfold handlerClient
  simp only []
  split
  · exact Served.annotationFailed _ _ _ _ _
  · rename_i annotatedContext _
    rcases hprop annotatedContext (mux.MarshalerForRequest req).1 req pathParams with
      ⟨hcalls, _, text, herr⟩ | ⟨c, hcalls, _, _, _, herr⟩
    · rw [hcalls, herr]
      exact Served.bindingFailed _ _ _ _ _ _ _
    · rw [hcalls, herr]
      cases hres : (Call.viaClient client c).2 with
      | none => exact Served.succeeded _ _ _ _ _ _ _ _ hres
      | some err => exact Served.dispatchFailed _ _ _ _ _ _ _ _ hres

theorem server_routes_served (qp : QueryParser) (mux : ServeMux)
    (server : PipelineServiceServer) (req : Request) (pathParams : List (String × String))
    (r : Route) (hr : r ∈ addedRoutes mux (RegisterPipelineServiceHandlerServer qp mux server)) :
    Served (Call.viaServer server) (r.h req pathParams) := by
  rw [server_routes] at hr
  simp only [List.mem_cons, List.mem_singleton, List.not_mem_nil, or_false] at hr
  rcases hr with rfl | rfl | rfl | rfl | rfl | rfl | rfl
  · exact handlerServer_served _ _ _ _ _ _ server
      (fun c m q p => local_CreatePipeline_propagates c m server q p) req pathParams
  · exact handlerServer_served _ _ _ _ _ _ server
      (fun c m q p => local_GetPipeline_propagates c m server q p) req pathParams
  · exact handlerServer_served _ _ _ _ _ _ server
      (fun c m q p => local_ListPipelines_propagates qp c m server q p) req pathParams
  · exact handlerServer_served _ _ _ _ _ _ server
      (fun c m q p => local_UpdatePipeline_propagates qp c m server q p) req pathParams
  · exact handlerServer_served _ _ _ _ _ _ server
      (fun c m q p => local_DeletePipeline_propagates c m server q p) req pathParams
  · exact handlerServer_served _ _ _ _ _ _ server
      (fun c m q p => local_StopPipeline_propagates c m server q p) req pathParams
  · exact handlerServer_served _ _ _ _ _ _ server
      (fun c m q p => local_StartPipeline_propagates c m server q p) req pathParams

theorem client_routes_served (qp : QueryParser) (mux : ServeMux)
    (client : PipelineServiceClient) (req : Request) (pathParams : List (String × String))
    (r : Route) (hr : r ∈ addedRoutes mux (RegisterPipelineServiceHandlerClient qp mux client)) :
    Served (Call.viaClient client) (r.h req pathParams) := by
  rw [client_routes] at hr
  simp only [List.mem_cons, List.mem_singleton, List.not_mem_nil, or_false] at hr
  rcases hr with rfl | rfl | rfl | rfl | rfl | rfl | rfl
  · exact handlerClient_served _ _ _ _ _ _ client
      (fun c m q p => remote_CreatePipeline_propagates c m client q p) req pathParams
  · exact handlerClient_served _ _ _ _ _ _ client
      (fun c m q p => remote_GetPipeline_propagates c m client q p) req pathParams
  · exact handlerClient_served _ _ _ _ _ _ client
      (fun c m q p => remote_ListPipelines_propagates qp c m client q p) req pathParams
  · exact handlerClient_served _ _ _ _ _ _ client
      (fun c m q p => remote_UpdatePipeline_propagates qp c m client q p) req pathParams
  · exact handlerClient_served _ _ _ _ _ _ client
      (fun c m q p => remote_DeletePipeline_propagates c m client q p) req pathParams
  · exact handlerClient_served _ _ _ _ _ _ client
      (fun c m q p => remote_StopPipeline_propagates c m client q p) req pathParams
  · exact handlerClient_served _ _ _ _ _ _ client
      (fun c m q p => remote_StartPipeline_propagates c m client q p) req pathParams
/-! ## The log of a handler in full -/

theorem handlerServer_log (mux : ServeMux) (op : Op) (rpcMethod httpPathPattern : String)
    (local_request : Context → Marshaler → Request → List (String × String) → Outcome)
    (response : Option Message → ResponseArg) (server : PipelineServiceServer)
    (hprop : ∀ ctx marshaler req pathParams,
      PropagatesOperation op ctx (Call.viaServer server)
        (local_request ctx marshaler req pathParams))
    (req : Request) (pathParams : List (String × String)) :
    HandlerLog (Call.viaServer server) true op rpcMethod httpPathPattern response
      (grpc_NewContextWithServerTransportStream req.Context)
      (mux.AnnotateIncomingContext (grpc_NewContextWithServerTransportStream req.Context) req
        rpcMethod httpPathPattern)
      (fun actx => local_request actx (mux.MarshalerForRequest req).1 req pathParams)
      Outcome.joined
      (handlerServer mux op rpcMethod httpPathPattern local_request response req
        pathParams) := by
  unfold handlerServer HandlerLog
  simp only []
  cases hann : mux.AnnotateIncomingContext (grpc_NewContextWithServerTransportStream
      req.Context) req rpcMethod httpPathPattern with
  | error err => exact Or.inl ⟨err, rfl, rfl⟩
  | ok actx =>
    refine Or.inr ⟨actx, rfl, ?_⟩
    rcases hprop actx (mux.MarshalerForRequest req).1 req pathParams with
      ⟨hcalls, _, text, herr⟩ | ⟨c, hcalls, hop, hctx, hmsg, herr⟩
    · refine Or.inl ⟨_, hcalls, herr, ?_⟩
      simp only [hcalls, herr, Outcome.joined]
      rfl
    · refine Or.inr ⟨c, hcalls, hop, hctx, herr, ?_⟩
      cases hres : (Call.viaServer server c).2 with
      | none =>
        refine Or.inr ⟨rfl, ?_⟩
        simp only [hcalls, herr, hres, hmsg, Outcome.joined]
        rfl
      | some err =>
        refine Or.inl ⟨err, rfl, ?_⟩
        simp only [hcalls, herr, hres, Outcome.joined]
        rfl

theorem handlerClient_log (mux : ServeMux) (op : Op) (rpcMethod httpPathPattern : String)
    (request : Context → Marshaler → Request → List (String × String) → Outcome)
    (response : Option Message → ResponseArg) (client : PipelineServiceClient)
    (hprop : ∀ ctx marshaler req pathParams,
      PropagatesOperation op ctx (Call.viaClient client)
        (request ctx marshaler req pathParams))
    (req : Request) (pathParams : List (String × String)) :
    HandlerLog (Call.viaClient client) false op rpcMethod httpPathPattern response
      req.Context (mux.AnnotateContext req.Context req rpcMethod httpPathPattern)
      (fun actx => request actx (mux.MarshalerForRequest req).1 req pathParams)
      Outcome.metadata
      (handlerClient mux op rpcMethod httpPathPattern request response req pathParams) := by
  unfold handlerClient HandlerLog
  simp only []
  cases hann : mux.AnnotateContext req.Context req rpcMethod httpPathPattern with
  | error err => exact Or.inl ⟨err, rfl, rfl⟩
  | ok actx =>
    refine Or.inr ⟨actx, rfl, ?_⟩
    rcases hprop actx (mux.MarshalerForRequest req).1 req pathParams with
      ⟨hcalls, _, text, herr⟩ | ⟨c, hcalls, hop, hctx, hmsg, herr⟩
    · refine Or.inl ⟨_, hcalls, herr, ?_⟩
      simp only [hcalls, herr]
      rfl
    · refine Or.inr ⟨c, hcalls, hop, hctx, herr, ?_⟩
      cases hres : (Call.viaClient client c).2 with
      | none =>
        refine Or.inr ⟨rfl, ?_⟩
        simp only [hcalls, herr, hres, hmsg]
        rfl
      | some err =>
        refine Or.inl ⟨err, rfl, ?_⟩
        simp only [hcalls, herr, hres]
        rfl

theorem local_request_propagates (qp : QueryParser) (server : PipelineServiceServer) (op : Op)
    (ctx : Context) (marshaler : Marshaler) (req : Request)
    (pathParams : List (String × String)) :
    PropagatesOperation op ctx (Call.viaServer server)
      (op.local_request qp server ctx marshaler req pathParams) := by
  cases op
  · exact local_CreatePipeline_propagates ctx marshaler server req pathParams
  · exact local_GetPipeline_propagates ctx marshaler server req pathParams
  · exact local_ListPipelines_propagates qp ctx marshaler server req pathParams
  · exact local_UpdatePipeline_propagates qp ctx marshaler server req pathParams
  · exact local_DeletePipeline_propagates ctx marshaler server req pathParams
  · exact local_StopPipeline_propagates ctx marshaler server req pathParams
  · exact local_StartPipeline_propagates ctx marshaler server req pathParams

theorem request_propagates (qp : QueryParser) (client : PipelineServiceClient) (op : Op)
    (ctx : Context) (marshaler : Marshaler) (req : Request)
    (pathParams : List (String × String)) :
    PropagatesOperation op ctx (Call.viaClient client)
      (op.request qp client ctx marshaler req pathParams) := by
  cases op
  · exact remote_CreatePipeline_propagates ctx marshaler client req pathParams
  · exact remote_GetPipeline_propagates ctx marshaler client req pathParams
  · exact remote_ListPipelines_propagates qp ctx marshaler client req pathParams
  · exact remote_UpdatePipeline_propagates qp ctx marshaler client req pathParams
  · exact remote_DeletePipeline_propagates ctx marshaler client req pathParams
  · exact remote_StopPipeline_propagates ctx marshaler client req pathParams
  · exact remote_StartPipeline_propagates ctx marshaler client req pathParams

/-- The server registration as a table: the route of each operation, in the
order of `Op.all`. -/
theorem server_routes_table (qp : QueryParser) (mux : ServeMux)
    (server : PipelineServiceServer) :
    addedRoutes mux (RegisterPipelineServiceHandlerServer qp mux server) =
      Op.all.map (fun op => ⟨op.httpMethod, op.pattern,
        handlerServer mux op op.rpcMethod op.httpPathPattern (op.local_request qp server)
          op.response⟩) := by
  rw [server_routes]
  rfl

/-- The client registration as a table. -/
theorem client_routes_table (qp : QueryParser) (mux : ServeMux)
    (client : PipelineServiceClient) :
    addedRoutes mux (RegisterPipelineServiceHandlerClient qp mux client) =
      Op.all.map (fun op => ⟨op.httpMethod, op.pattern,
        handlerClient mux op op.rpcMethod op.httpPathPattern (op.request qp client)
          op.response⟩) := by
  rw [client_routes]
  rfl

theorem server_route_log (qp : QueryParser) (mux : ServeMux) (server : PipelineServiceServer)
    (r : Route) (hr : r ∈ addedRoutes mux (RegisterPipelineServiceHandlerServer qp mux server)) :
    ∃ op, r.meth = op.httpMethod ∧ r.pat = op.pattern ∧ ∀ req pathParams,
      HandlerLog (Call.viaServer server) true op op.rpcMethod op.httpPathPattern op.response
        (grpc_NewContextWithServerTransportStream req.Context)
        (mux.AnnotateIncomingContext (grpc_NewContextWithServerTransportStream req.Context)
          req op.rpcMethod op.httpPathPattern)
        (fun actx => op.local_request qp server actx (mux.MarshalerForRequest req).1 req
          pathParams)
        Outcome.joined (r.h req pathParams) := by
  rw [server_routes_table] at hr
  obtain ⟨op, _, rfl⟩ := List.mem_map.mp hr
  exact ⟨op, rfl, rfl, fun req pathParams =>
    handlerServer_log mux op _ _ _ _ server (local_request_propagates qp server op) req
      pathParams⟩

theorem client_route_log (qp : QueryParser) (mux : ServeMux) (client : PipelineServiceClient)
    (r : Route) (hr : r ∈ addedRoutes mux (RegisterPipelineServiceHandlerClient qp mux client)) :
    ∃ op, r.meth = op.httpMethod ∧ r.pat = op.pattern ∧ ∀ req pathParams,
      HandlerLog (Call.viaClient client) false op op.rpcMethod op.httpPathPattern op.response
        req.Context (mux.AnnotateContext req.Context req op.rpcMethod op.httpPathPattern)
        (fun actx => op.request qp client actx (mux.MarshalerForRequest req).1 req pathParams)
        Outcome.metadata (r.h req pathParams) := by
  rw [client_routes_table] at hr
  obtain ⟨op, _, rfl⟩ := List.mem_map.mp hr
  exact ⟨op, rfl, rfl, fun req pathParams =>
    handlerClient_log mux op _ _ _ _ client (request_propagates qp client op) req pathParams⟩
/-! ## Response projection -/

theorem payload_of_server_call (server : PipelineServiceServer) (c : Call) :
    (c.op ≠ .DeletePipeline → c.op ≠ .ListPipelines →
      ∀ p, (Call.viaServer server c).1.pipelineField = some p →
        (c.op.response (some (Call.viaServer server c).1)).payload = .ok (.pipeline p)) ∧
    (c.op = .DeletePipeline ∨ c.op = .ListPipelines →
      (Call.viaServer server c).1.pipelineField = none ∧
      (c.op.response (some (Call.viaServer server c).1)).payload =
        .ok (.envelope (some (Call.viaServer server c).1))) := by
  cases c with
  | CreatePipeline ctx r =>
    cases h : (server.CreatePipeline ctx r).resp <;>
      simp [Call.viaServer, Call.op, Op.response, ResponseArg.payload, Message.pipelineField,
        response_PipelineService_CreatePipeline_0.XXX_ResponseBody, h, Except.map]
  | GetPipeline ctx r =>
    cases h : (server.GetPipeline ctx r).resp <;>
      simp [Call.viaServer, Call.op, Op.response, ResponseArg.payload, Message.pipelineField,
        response_PipelineService_GetPipeline_0.XXX_ResponseBody, h, Except.map]
  | ListPipelines ctx r =>
    simp [Call.viaServer, Call.op, Op.response, ResponseArg.payload, Message.pipelineField]
  | UpdatePipeline ctx r =>
    cases h : (server.UpdatePipeline ctx r).resp <;>
      simp [Call.viaServer, Call.op, Op.response, ResponseArg.payload, Message.pipelineField,
        response_PipelineService_UpdatePipeline_0.XXX_ResponseBody, h, Except.map]
  | DeletePipeline ctx r =>
    simp [Call.viaServer, Call.op, Op.response, ResponseArg.payload, Message.pipelineField]
  | StopPipeline ctx r =>
    cases h : (server.StopPipeline ctx r).resp <;>
      simp [Call.viaServer, Call.op, Op.response, ResponseArg.payload, Message.pipelineField,
        response_PipelineService_StopPipeline_0.XXX_ResponseBody, h, Except.map]
  | StartPipeline ctx r =>
    cases h : (server.StartPipeline ctx r).resp <;>
      simp [Call.viaServer, Call.op, Op.response, ResponseArg.payload, Message.pipelineField,
        response_PipelineService_StartPipeline_0.XXX_ResponseBody, h, Except.map]

theorem payload_of_client_call (client : PipelineServiceClient) (c : Call) :
    (c.op ≠ .DeletePipeline → c.op ≠ .ListPipelines →
      ∀ p, (Call.viaClient client c).1.pipelineField = some p →
        (c.op.response (some (Call.viaClient client c).1)).payload = .ok (.pipeline p)) ∧
    (c.op = .DeletePipeline ∨ c.op = .ListPipelines →
      (Call.viaClient client c).1.pipelineField = none ∧
      (c.op.response (some (Call.viaClient client c).1)).payload =
        .ok (.envelope (some (Call.viaClient client c).1))) := by
  cases c with
  | CreatePipeline ctx r =>
    cases h : (client.CreatePipeline ctx r).resp <;>
      simp [Call.viaClient, Call.op, Op.response, ResponseArg.payload, Message.pipelineField,
        response_PipelineService_CreatePipeline_0.XXX_ResponseBody, h, Except.map]
  | GetPipeline ctx r =>
    cases h : (client.GetPipeline ctx r).resp <;>
      simp [Call.viaClient, Call.op, Op.response, ResponseArg.payload, Message.pipelineField,
        response_PipelineService_GetPipeline_0.XXX_ResponseBody, h, Except.map]
  | ListPipelines ctx r =>
    simp [Call.viaClient, Call.op, Op.response, ResponseArg.payload, Message.pipelineField]
  | UpdatePipeline ctx r =>
    cases h : (client.UpdatePipeline ctx r).resp <;>
      simp [Call.viaClient, Call.op, Op.response, ResponseArg.payload, Message.pipelineField,
        response_PipelineService_UpdatePipeline_0.XXX_ResponseBody, h, Except.map]
  | DeletePipeline ctx r =>
    simp [Call.viaClient, Call.op, Op.response, ResponseArg.payload, Message.pipelineField]
  | StopPipeline ctx r =>
    cases h : (client.StopPipeline ctx r).resp <;>
      simp [Call.viaClient, Call.op, Op.response, ResponseArg.payload, Message.pipelineField,
        response_PipelineService_StopPipeline_0.XXX_ResponseBody, h, Except.map]
  | StartPipeline ctx r =>
    cases h : (client.StartPipeline ctx r).resp <;>
      simp [Call.viaClient, Call.op, Op.response, ResponseArg.payload, Message.pipelineField,
        response_PipelineService_StartPipeline_0.XXX_ResponseBody, h, Except.map]

/-- A handler log forwards in the way of its operation, given how the payload
is chosen for the invocations of that operation. -/
theorem log_forwards_projection (result : Call → Message × Option GoError) (isLocal : Bool)
    (op : Op) (rpcMethod httpPathPattern : String) (bare : Context)
    (annotated : Except GoError Context) (outcome : Context → Outcome)
    (md : Outcome → ServerMetadata) (tr : List Event)
    (hpay : ∀ c : Call,
      (c.op ≠ .DeletePipeline → c.op ≠ .ListPipelines →
        ∀ p, (result c).1.pipelineField = some p →
          (c.op.response (some (result c).1)).payload = .ok (.pipeline p)) ∧
      (c.op = .DeletePipeline ∨ c.op = .ListPipelines →
        (result c).1.pipelineField = none ∧
        (c.op.response (some (result c).1)).payload = .ok (.envelope (some (result c).1))))
    (hlog : HandlerLog result isLocal op rpcMethod httpPathPattern op.response bare annotated
      outcome md tr) :
    ForwardsProjection result tr := by
  intro op1 ctx arg hmem
  rcases hlog with ⟨err, _, rfl⟩ | ⟨actx, _, ⟨err, _, _, rfl⟩ |
    ⟨c, _, hop, _, _, ⟨err, _, rfl⟩ | ⟨_, rfl⟩⟩⟩
  · simp at hmem
  · simp at hmem
  · simp at hmem
  · simp only [List.mem_cons, List.mem_singleton, List.not_mem_nil, or_false, false_or,
      Event.forward.injEq, reduceCtorEq] at hmem
    obtain ⟨rfl, _, rfl⟩ := hmem
    subst hop
    exact ⟨c, by simp, rfl, rfl, hpay c⟩

/-- C11, refuted as stated: the delete handler of the server registration, on
a DELETE of pipeline "p1" that succeeds, hands to the forwarder the response
envelope itself (the `*DeletePipelineResponse` returned by the operation, not
wrapped), and the payload is that envelope, not a `Pipeline` field. -/
theorem delete_forwards_whole_envelope :
    (addedRoutes exampleMux
        (RegisterPipelineServiceHandlerServer exampleQueryParser exampleMux
          exampleServer))[4]?.map
      (fun r => (r.meth, (r.h (exampleRequest "" []) [("id", "p1")]).filter Event.isForward)) =
      some ("DELETE",
        [.forward .DeletePipeline
          { transportStream := true,
            rpcMethod := some "/redpanda.api.dataplane.v1alpha2.PipelineService/DeletePipeline",
            httpPathPattern := some "/v1alpha2/redpanda-connect/pipelines/{id}",
            serverMetadata := some {} }
          (.resp (some (.delete (some {}))))]) ∧
    (ResponseArg.resp (some (.delete (some {})))).payload =
      .ok (.envelope (some (.delete (some {})))) ∧
    (Message.delete (some {})).pipelineField = none := by
  refine ⟨by decide, rfl, rfl⟩

/-- C11, amended: in both registrations, whenever a handler calls its
forwarder, it hands over the message of the one invocation of its operation:
for create, get, update, stop and start inside the wrapper of that route, so
that the payload is the `Pipeline` field of the response envelope (for a
non-nil response), not the envelope; for delete and for list unwrapped, so
that the payload is the full response envelope. -/
theorem forwarded_payload_per_route (qp : QueryParser) (mux : ServeMux)
    (server : PipelineServiceServer) (client : PipelineServiceClient) (req : Request)
    (pathParams : List (String × String)) :
    (∀ r ∈ addedRoutes mux (RegisterPipelineServiceHandlerServer qp mux server),
      ForwardsProjection (Call.viaServer server) (r.h req pathParams)) ∧
    (∀ r ∈ addedRoutes mux (RegisterPipelineServiceHandlerClient qp mux client),
      ForwardsProjection (Call.viaClient client) (r.h req pathParams)) := by
  constructor
  · intro r hr
    obtain ⟨op, _, _, hlog⟩ := server_route_log qp mux server r hr
    exact log_forwards_projection _ _ _ _ _ _ _ _ _ _ (payload_of_server_call server)
      (hlog req pathParams)
  · intro r hr
    obtain ⟨op, _, _, hlog⟩ := client_route_log qp mux client r hr
    exact log_forwards_projection _ _ _ _ _ _ _ _ _ _ (payload_of_client_call client)
      (hlog req pathParams)
/-! ## Routing -/

/-- The component lists the pattern of each operation matches. -/
theorem op_pattern_matches_iff (op : Op) (components : List String) :
    (∃ b, op.pattern.Match components = some b) ↔
      match op with
      | .CreatePipeline | .ListPipelines =>
        components = ["v1alpha2", "redpanda-connect", "pipelines"]
      | .GetPipeline | .UpdatePipeline | .DeletePipeline =>
        ∃ v, components = ["v1alpha2", "redpanda-connect", "pipelines", v]
      | .StopPipeline =>
        ∃ v, components = ["v1alpha2", "redpanda-connect", "pipelines", v, "stop"]
      | .StartPipeline =>
        ∃ v, components = ["v1alpha2", "redpanda-connect", "pipelines", v, "start"] := by
  cases op
  · exact ⟨fun ⟨b, h⟩ =>
        ((match_three_literals pattern_PipelineService_CreatePipeline_0 components b rfl
          rfl).mp h).1,
      fun h => ⟨[], (match_three_literals pattern_PipelineService_CreatePipeline_0 components
        [] rfl rfl).mpr ⟨h, rfl⟩⟩⟩
  · exact ⟨fun ⟨b, h⟩ =>
        let ⟨v, hv, _⟩ := (match_with_id pattern_PipelineService_GetPipeline_0 components b rfl
          rfl).mp h
        ⟨v, hv⟩,
      fun ⟨v, hv⟩ => ⟨[("id", v)], (match_with_id pattern_PipelineService_GetPipeline_0
        components _ rfl rfl).mpr ⟨v, hv, rfl⟩⟩⟩
  · exact ⟨fun ⟨b, h⟩ =>
        ((match_three_literals pattern_PipelineService_ListPipelines_0 components b rfl
          rfl).mp h).1,
      fun h => ⟨[], (match_three_literals pattern_PipelineService_ListPipelines_0 components
        [] rfl rfl).mpr ⟨h, rfl⟩⟩⟩
  · exact ⟨fun ⟨b, h⟩ =>
        let ⟨v, hv, _⟩ := (match_with_id pattern_PipelineService_UpdatePipeline_0 components b
          rfl rfl).mp h
        ⟨v, hv⟩,
      fun ⟨v, hv⟩ => ⟨[("id", v)], (match_with_id pattern_PipelineService_UpdatePipeline_0
        components _ rfl rfl).mpr ⟨v, hv, rfl⟩⟩⟩
  · exact ⟨fun ⟨b, h⟩ =>
        let ⟨v, hv, _⟩ := (match_with_id pattern_PipelineService_DeletePipeline_0 components b
          rfl rfl).mp h
        ⟨v, hv⟩,
      fun ⟨v, hv⟩ => ⟨[("id", v)], (match_with_id pattern_PipelineService_DeletePipeline_0
        components _ rfl rfl).mpr ⟨v, hv, rfl⟩⟩⟩
  · exact ⟨fun ⟨b, h⟩ =>
        let ⟨v, hv, _⟩ := (match_with_id_and_verb pattern_PipelineService_StopPipeline_0
          components b "stop" rfl rfl).mp h
        ⟨v, hv⟩,
      fun ⟨v, hv⟩ => ⟨[("id", v)], (match_with_id_and_verb
        pattern_PipelineService_StopPipeline_0 components _ "stop" rfl rfl).mpr
        ⟨v, hv, rfl⟩⟩⟩
  · exact ⟨fun ⟨b, h⟩ =>
        let ⟨v, hv, _⟩ := (match_with_id_and_verb pattern_PipelineService_StartPipeline_0
          components b "start" rfl rfl).mp h
        ⟨v, hv⟩,
      fun ⟨v, hv⟩ => ⟨[("id", v)], (match_with_id_and_verb
        pattern_PipelineService_StartPipeline_0 components _ "start" rfl rfl).mpr
        ⟨v, hv, rfl⟩⟩⟩

/-- Two operations whose routes answer to the same method and component list
are the same operation. -/
theorem op_route_unique (meth : String) (components : List String) (op1 op2 : Op)
    (h1 : op1.httpMethod = meth) (m1 : ∃ b, op1.pattern.Match components = some b)
    (h2 : op2.httpMethod = meth) (m2 : ∃ b, op2.pattern.Match components = some b) :
    op1 = op2 := by
  rw [op_pattern_matches_iff] at m1 m2
  subst h1
  cases op1 <;> cases op2 <;> first
    | rfl
    | exact absurd h2 (by decide)
    | (simp only [] at m1 m2
       first
       | (obtain ⟨v, hv⟩ := m1; obtain ⟨w, hw⟩ := m2; rw [hv] at hw; simp at hw)
       | (obtain ⟨v, hv⟩ := m1; rw [hv] at m2; simp at m2)
       | (obtain ⟨w, hw⟩ := m2; rw [hw] at m1; simp at m1))

theorem filter_length_le_one {α : Type} (l : List α) (p : α → Bool) (hnd : l.Nodup)
    (huniq : ∀ a ∈ l, ∀ b ∈ l, p a = true → p b = true → a = b) :
    (l.filter p).length ≤ 1 := by
  have hn := hnd.filter p
  have hmem : ∀ a, a ∈ l.filter p → a ∈ l ∧ p a = true := fun a ha => List.mem_filter.mp ha
  match hf : l.filter p with
  | [] => simp
  | [a] => simp
  | a :: b :: t =>
    rw [hf] at hn hmem
    have ha := hmem a (by simp)
    have hb := hmem b (by simp)
    have hab : a = b := huniq a ha.1 b hb.1 ha.2 hb.2
    subst hab
    simp at hn

theorem findSome?_eq_head_filter {α β : Type} (f : α → Option β) (l : List α) :
    l.findSome? f = ((l.filter (fun a => (f a).isSome)).head?).bind f := by
  induction l with
  | nil => rfl
  | cons a l ih =>
    cases h : f a with
    | none => simp [List.findSome?, List.filter, h, ih]
    | some b => simp [List.findSome?, List.filter, h]

theorem findSome?_perm {α β : Type} (f : α → Option β) (l1 l2 : List α) (hp : l1.Perm l2)
    (h2 : (l2.filter (fun a => (f a).isSome)).length ≤ 1) :
    l1.findSome? f = l2.findSome? f := by
  rw [findSome?_eq_head_filter f l1, findSome?_eq_head_filter f l2]
  have hpf := hp.filter (fun a => (f a).isSome)
  match hf : l2.filter (fun a => (f a).isSome) with
  | [] =>
    rw [hf] at hpf
    rw [hpf.eq_nil]
  | [a] =>
    rw [hf] at hpf
    rw [List.perm_singleton.mp hpf]
  | a :: b :: t =>
    rw [hf] at h2
    simp at h2

/-- The routes of a table answer to a method and a component list at most
once. -/
theorem table_accepts_at_most_once (mk : Op → Route)
    (hmeth : ∀ op, (mk op).meth = op.httpMethod) (hpat : ∀ op, (mk op).pat = op.pattern)
    (meth : String) (components : List String) :
    ((Op.all.map mk).filter (Route.accepts meth components)).length ≤ 1 := by
  rw [List.filter_map, List.length_map]
  apply filter_length_le_one _ _ (by decide)
  intro a _ b _ ha hb
  simp only [Function.comp, Route.accepts, Bool.and_eq_true, decide_eq_true_eq, hmeth, hpat,
    Option.isSome_iff_exists] at ha hb
  exact op_route_unique meth components a b ha.1 ha.2 hb.1 hb.2

theorem selected_iff_accepts (meth : String) (components : List String) (req : Request)
    (r : Route) :
    (if r.meth = meth then (r.pat.Match components).map (fun b => r.h req b)
      else none).isSome = Route.accepts meth components r := by
  unfold Route.accepts
  by_cases h : r.meth = meth
  · cases hm : r.pat.Match components <;> simp [h]
  · simp [h]

/-- Dispatch over routes that accept at most once does not depend on their
order. -/
theorem dispatch_order_free (mux : ServeMux) (routes l : List Route) (meth : String)
    (components : List String) (req : Request) (hp : l.Perm routes)
    (h1 : (routes.filter (Route.accepts meth components)).length ≤ 1) :
    ({ mux with handlers := l } : ServeMux).ServeHTTP meth components req =
      ({ mux with handlers := routes } : ServeMux).ServeHTTP meth components req := by
  unfold ServeMux.ServeHTTP
  have hsel : (fun r : Route =>
      (if r.meth = meth then (r.pat.Match components).map (fun b => r.h req b)
        else none).isSome) = Route.accepts meth components := by
    funext r
    exact selected_iff_accepts meth components req r
  have h2 : (routes.filter (fun r : Route =>
      (if r.meth = meth then (r.pat.Match components).map (fun b => r.h req b)
        else none).isSome)).length ≤ 1 := by
    rw [hsel]; exact h1
  rw [findSome?_perm _ l.reverse routes ((List.reverse_perm l).trans hp) h2,
    findSome?_perm _ routes.reverse routes (List.reverse_perm routes) h2]

/-- C18: routing is unambiguous. For every HTTP method and every list of
path components at most one of the seven routes of the server registration,
and at most one of the seven routes of the client registration, has that
method and a pattern that matches; hence dispatch over these routes selects
the same handler whatever the order in which they are held. -/
theorem routing_is_unambiguous (qp : QueryParser) (mux : ServeMux)
    (server : PipelineServiceServer) (client : PipelineServiceClient) (meth : String)
    (components : List String) :
    ((addedRoutes mux (RegisterPipelineServiceHandlerServer qp mux server)).filter
      (Route.accepts meth components)).length ≤ 1 ∧
    ((addedRoutes mux (RegisterPipelineServiceHandlerClient qp mux client)).filter
      (Route.accepts meth components)).length ≤ 1 ∧
    (∀ (req : Request) (l : List Route),
      l.Perm (addedRoutes mux (RegisterPipelineServiceHandlerServer qp mux server)) →
      ({ mux with handlers := l } : ServeMux).ServeHTTP meth components req =
        ({ mux with handlers :=
          addedRoutes mux (RegisterPipelineServiceHandlerServer qp mux server) } :
            ServeMux).ServeHTTP meth components req) ∧
    (∀ (req : Request) (l : List Route),
      l.Perm (addedRoutes mux (RegisterPipelineServiceHandlerClient qp mux client)) →
      ({ mux with handlers := l } : ServeMux).ServeHTTP meth components req =
        ({ mux with handlers :=
          addedRoutes mux (RegisterPipelineServiceHandlerClient qp mux client) } :
            ServeMux).ServeHTTP meth components req) := by
  have hs : ((addedRoutes mux (RegisterPipelineServiceHandlerServer qp mux server)).filter
      (Route.accepts meth components)).length ≤ 1 := by
    rw [server_routes_table]
    exact table_accepts_at_most_once _ (fun _ => rfl) (fun _ => rfl) meth components
  have hc : ((addedRoutes mux (RegisterPipelineServiceHandlerClient qp mux client)).filter
      (Route.accepts meth components)).length ≤ 1 := by
    rw [client_routes_table]
    exact table_accepts_at_most_once _ (fun _ => rfl) (fun _ => rfl) meth components
  exact ⟨hs, hc, fun req l hp => dispatch_order_free mux _ l meth components req hp hs,
    fun req l hp => dispatch_order_free mux _ l meth components req hp hc⟩
/-! ## The get route without its id -/

theorem server_handlers_after (qp : QueryParser) (mux : ServeMux)
    (server : PipelineServiceServer) :
    (RegisterPipelineServiceHandlerServer qp mux server).1.handlers =
      mux.handlers ++ addedRoutes mux (RegisterPipelineServiceHandlerServer qp mux server) := by
  simp [addedRoutes, RegisterPipelineServiceHandlerServer, ServeMux.Handle]

theorem client_handlers_after (qp : QueryParser) (mux : ServeMux)
    (client : PipelineServiceClient) :
    (RegisterPipelineServiceHandlerClient qp mux client).1.handlers =
      mux.handlers ++ addedRoutes mux (RegisterPipelineServiceHandlerClient qp mux client) := by
  simp [addedRoutes, RegisterPipelineServiceHandlerClient, ServeMux.Handle]

theorem three_literals_match_list :
    pattern_PipelineService_GetPipeline_0.Match ["v1alpha2", "redpanda-connect", "pipelines"] =
      none ∧
    pattern_PipelineService_UpdatePipeline_0.Match
      ["v1alpha2", "redpanda-connect", "pipelines"] = none ∧
    pattern_PipelineService_DeletePipeline_0.Match
      ["v1alpha2", "redpanda-connect", "pipelines"] = none ∧
    pattern_PipelineService_StopPipeline_0.Match
      ["v1alpha2", "redpanda-connect", "pipelines"] = none ∧
    pattern_PipelineService_StartPipeline_0.Match
      ["v1alpha2", "redpanda-connect", "pipelines"] = none ∧
    pattern_PipelineService_ListPipelines_0.Match
      ["v1alpha2", "redpanda-connect", "pipelines"] = some [] := by
  decide

/-- C12, refuted as stated: on the mux that holds the seven routes of the
server registration, a GET with components [v1alpha2, redpanda-connect,
pipelines] is not answered with route-not-found: the pair (GET, list pattern)
is registered and matches, and the list handler is called, invoking the list
operation. -/
theorem get_without_id_is_routed :
    ("GET", pattern_PipelineService_ListPipelines_0) ∈
      routeTable (addedRoutes exampleMux
        (RegisterPipelineServiceHandlerServer exampleQueryParser exampleMux exampleServer)) ∧
    pattern_PipelineService_ListPipelines_0.Match
      ["v1alpha2", "redpanda-connect", "pipelines"] = some [] ∧
    (RegisterPipelineServiceHandlerServer exampleQueryParser exampleMux
        exampleServer).1.ServeHTTP "GET" ["v1alpha2", "redpanda-connect", "pipelines"]
        (exampleRequest "" []) ≠ none ∧
    ((RegisterPipelineServiceHandlerServer exampleQueryParser exampleMux
        exampleServer).1.ServeHTTP "GET" ["v1alpha2", "redpanda-connect", "pipelines"]
        (exampleRequest "" [])).map (fun tr => tr.filter Event.isInvoke) =
      some [.invoke (.ListPipelines
        { transportStream := true,
          rpcMethod := some "/redpanda.api.dataplane.v1alpha2.PipelineService/ListPipelines",
          httpPathPattern := some "/v1alpha2/redpanda-connect/pipelines" } {})] := by
  refine ⟨?_, by decide, by decide, by decide⟩
  rw [server_routes]
  simp [routeTable]

/-- C12, amended: a GET request with components [v1alpha2, redpanda-connect,
pipelines], the get route with its id segment missing, does not match the
pattern of the get route, but it matches the registered pair (GET, list
pattern): on the mux after either registration the request is dispatched to
the list handler of that registration, called with no bindings, and the
outcome is not route-not-found. -/
theorem get_without_id_reaches_list (qp : QueryParser) (mux : ServeMux)
    (server : PipelineServiceServer) (client : PipelineServiceClient) (req : Request) :
    pattern_PipelineService_GetPipeline_0.Match ["v1alpha2", "redpanda-connect", "pipelines"] =
      none ∧
    pattern_PipelineService_ListPipelines_0.Match
      ["v1alpha2", "redpanda-connect", "pipelines"] = some [] ∧
    (RegisterPipelineServiceHandlerServer qp mux server).1.ServeHTTP "GET"
        ["v1alpha2", "redpanda-connect", "pipelines"] req =
      some (handlerServer mux .ListPipelines
        "/redpanda.api.dataplane.v1alpha2.PipelineService/ListPipelines"
        "/v1alpha2/redpanda-connect/pipelines"
        (fun ctx marshaler req pathParams =>
          local_request_PipelineService_ListPipelines_0 qp ctx marshaler server req pathParams)
        .resp req []) ∧
    (RegisterPipelineServiceHandlerClient qp mux client).1.ServeHTTP "GET"
        ["v1alpha2", "redpanda-connect", "pipelines"] req =
      some (handlerClient mux .ListPipelines
        "/redpanda.api.dataplane.v1alpha2.PipelineService/ListPipelines"
        "/v1alpha2/redpanda-connect/pipelines"
        (fun ctx marshaler req pathParams =>
          request_PipelineService_ListPipelines_0 qp ctx marshaler client req pathParams)
        .resp req []) := by
  obtain ⟨hg, hu, hd, hs, ht, hl⟩ := three_literals_match_list
  refine ⟨hg, hl, ?_, ?_⟩
  · unfold ServeMux.ServeHTTP
    rw [server_handlers_after, server_routes, List.reverse_append, List.findSome?_append]
    simp [hg, hu, hd, hs, ht, hl]
  · unfold ServeMux.ServeHTTP
    rw [client_handlers_after, client_routes, List.reverse_append, List.findSome?_append]
    simp [hg, hu, hd, hs, ht, hl]
/-! ## Binding the list request -/

theorem list_filter_excludes_nothing (seq : List String) :
    filter_PipelineService_ListPipelines_0.HasCommonPrefix seq = false := by
  rfl

/-- C13: the filter of the list route is empty (no encoding, empty Base and
Check), so the prefix test excludes no field path; and for the list request
function, remote and local, a query that parses to pageSize=10 and
pageToken=abc (in either order of visit), with a query parser that sets the
page size and the page token from these keys, binds without error to the
envelope with PageSize = 10 and PageToken = "abc", which is passed to the
operation. -/
theorem list_query_binds_paging (qp : QueryParser) (ctx : Context) (marshaler : Marshaler)
    (client : PipelineServiceClient) (server : PipelineServiceServer) (req : Request)
    (pathParams : List (String × String))
    (hparse : req.ParseForm = none)
    (hform : req.Form = [("pageSize", ["10"]), ("pageToken", ["abc"])] ∨
      req.Form = [("pageToken", ["abc"]), ("pageSize", ["10"])])
    (hsize : ∀ e, qp.populateListPipelinesRequest e ["pageSize"] ["10"] =
      .ok { e with PageSize := 10 })
    (htoken : ∀ e, qp.populateListPipelinesRequest e ["pageToken"] ["abc"] =
      .ok { e with PageToken := "abc" }) :
    filter_PipelineService_ListPipelines_0 = ⟨[], [], []⟩ ∧
    (∀ seq, filter_PipelineService_ListPipelines_0.HasCommonPrefix seq = false) ∧
    request_PipelineService_ListPipelines_0 qp ctx marshaler client req pathParams =
      Outcome.ofClient Message.list (.ListPipelines ctx { PageSize := 10, PageToken := "abc" })
        (client.ListPipelines ctx { PageSize := 10, PageToken := "abc" }) ∧
    local_request_PipelineService_ListPipelines_0 qp ctx marshaler server req pathParams =
      Outcome.ofServer Message.list (.ListPipelines ctx { PageSize := 10, PageToken := "abc" })
        (server.ListPipelines ctx { PageSize := 10, PageToken := "abc" }) := by
  have hs : strings_Split_dot "pageSize" = ["pageSize"] := by decide
  have ht : strings_Split_dot "pageToken" = ["pageToken"] := by decide
  refine ⟨rfl, list_filter_excludes_nothing, ?_, ?_⟩
  · rcases hform with hf | hf <;>
      simp [request_PipelineService_ListPipelines_0, hparse, hf,
        runtime_PopulateQueryParameters, list_filter_excludes_nothing, hs, ht, hsize, htoken]
  · rcases hform with hf | hf <;>
      simp [local_request_PipelineService_ListPipelines_0, hparse, hf,
        runtime_PopulateQueryParameters, list_filter_excludes_nothing, hs, ht, hsize, htoken]

theorem list_query_binds_paging_witness :
    (exampleRequest "" [("pageSize", ["10"]), ("pageToken", ["abc"])]).ParseForm = none ∧
    (∀ e, examplePagingParser.populateListPipelinesRequest e ["pageSize"] ["10"] =
      .ok { e with PageSize := 10 }) ∧
    request_PipelineService_ListPipelines_0 examplePagingParser {} exampleMarshaler
        exampleClient (exampleRequest "" [("pageSize", ["10"]), ("pageToken", ["abc"])]) [] =
      Outcome.ofClient Message.list (.ListPipelines {} { PageSize := 10, PageToken := "abc" })
        (exampleClient.ListPipelines {} { PageSize := 10, PageToken := "abc" }) :=
  ⟨rfl, fun _ => rfl,
    (list_query_binds_paging examplePagingParser {} exampleMarshaler exampleClient
      exampleServer (exampleRequest "" [("pageSize", ["10"]), ("pageToken", ["abc"])]) [] rfl
      (Or.inl rfl) (fun _ => rfl) (fun _ => rfl)).2.2.1⟩

/-! ## The order of binding in the update request -/

/-- C14: the update request function, remote and local, binds from the body,
then the path, then the query, and stops at the first failure without
invoking the operation: a body that cannot be read or decoded gives the body
error whatever the path parameters and the query are; with a body that
decodes, a missing id gives "missing parameter id" whatever the query is; with
a body that decodes and the id present, a query that does not parse or does
not populate gives that error; and when all three succeed the operation is
invoked, so a query error is returned only after body and id succeeded. -/
theorem update_binds_body_path_query (qp : QueryParser) (ctx : Context)
    (marshaler : Marshaler) (client : PipelineServiceClient) (server : PipelineServiceServer)
    (req : Request) (pathParams : List (String × String)) :
    (∀ berr, req.Body = .error berr →
      FailsWith
        (request_PipelineService_UpdatePipeline_0 qp ctx marshaler client req pathParams)
        berr.Error ∧
      FailsWith
        (local_request_PipelineService_UpdatePipeline_0 qp ctx marshaler server req pathParams)
        berr.Error) ∧
    (∀ body err, req.Body = .ok body →
      decodeFailure (marshaler.DecodePipelineUpdate body).2 = some err →
      FailsWith
        (request_PipelineService_UpdatePipeline_0 qp ctx marshaler client req pathParams)
        err.Error ∧
      FailsWith
        (local_request_PipelineService_UpdatePipeline_0 qp ctx marshaler server req pathParams)
        err.Error) ∧
    (∀ body, req.Body = .ok body →
      decodeFailure (marshaler.DecodePipelineUpdate body).2 = none →
      pathParams.lookup "id" = none →
      FailsWith
        (request_PipelineService_UpdatePipeline_0 qp ctx marshaler client req pathParams)
        "missing parameter id" ∧
      FailsWith
        (local_request_PipelineService_UpdatePipeline_0 qp ctx marshaler server req pathParams)
        "missing parameter id") ∧
    (∀ body v err, req.Body = .ok body →
      decodeFailure (marshaler.DecodePipelineUpdate body).2 = none →
      pathParams.lookup "id" = some v →
      (req.ParseForm = some err ∨
        (req.ParseForm = none ∧
          runtime_PopulateQueryParameters qp.populateUpdatePipelineRequest
            { Id := v, Pipeline := (marshaler.DecodePipelineUpdate body).1 } req.Form
            filter_PipelineService_UpdatePipeline_0 = .error err)) →
      FailsWith
        (request_PipelineService_UpdatePipeline_0 qp ctx marshaler client req pathParams)
        err.Error ∧
      FailsWith
        (local_request_PipelineService_UpdatePipeline_0 qp ctx marshaler server req pathParams)
        err.Error) ∧
    (∀ body v e, req.Body = .ok body →
      decodeFailure (marshaler.DecodePipelineUpdate body).2 = none →
      pathParams.lookup "id" = some v → req.ParseForm = none →
      runtime_PopulateQueryParameters qp.populateUpdatePipelineRequest
        { Id := v, Pipeline := (marshaler.DecodePipelineUpdate body).1 } req.Form
        filter_PipelineService_UpdatePipeline_0 = .ok e →
      request_PipelineService_UpdatePipeline_0 qp ctx marshaler client req pathParams =
        Outcome.ofClient Message.update (.UpdatePipeline ctx e) (client.UpdatePipeline ctx e) ∧
      local_request_PipelineService_UpdatePipeline_0 qp ctx marshaler server req pathParams =
        Outcome.ofServer Message.update (.UpdatePipeline ctx e)
          (server.UpdatePipeline ctx e)) := by
  refine ⟨?_, ?_, ?_, ?_, ?_⟩
  · intro berr hb
    simp [FailsWith, request_PipelineService_UpdatePipeline_0,
      local_request_PipelineService_UpdatePipeline_0, utilities_IOReaderFactory, hb,
      Outcome.returnNil, status_Errorf_v]
  · intro body err hb hd
    simp [FailsWith, request_PipelineService_UpdatePipeline_0,
      local_request_PipelineService_UpdatePipeline_0, utilities_IOReaderFactory, hb, hd,
      Outcome.returnNil, status_Errorf_v]
  · intro body hb hd hid
    simp [FailsWith, request_PipelineService_UpdatePipeline_0,
      local_request_PipelineService_UpdatePipeline_0, utilities_IOReaderFactory, hb, hd, hid,
      Outcome.returnNil, missing_id_text]
  · intro body v err hb hd hid hq
    rcases hq with hp | ⟨hp, hpop⟩
    · simp [FailsWith, request_PipelineService_UpdatePipeline_0,
        local_request_PipelineService_UpdatePipeline_0, utilities_IOReaderFactory, hb, hd,
        hid, runtime_String, hp, Outcome.returnNil, status_Errorf_v]
    · rw [update_remote_after_path qp ctx marshaler client req pathParams body v hb hd hid hp,
        update_local_after_path qp ctx marshaler server req pathParams body v hb hd hid hp,
        hpop]
      simp [FailsWith, Outcome.returnNil, status_Errorf_v]
  · intro body v e hb hd hid hp hpop
    rw [update_remote_after_path qp ctx marshaler client req pathParams body v hb hd hid hp,
      update_local_after_path qp ctx marshaler server req pathParams body v hb hd hid hp,
      hpop]
    exact ⟨rfl, rfl⟩

theorem update_binds_body_path_query_witness :
    (exampleRequest "bad" [("id.id", ["x"])]).Body = .ok "bad" ∧
    decodeFailure (exampleMarshaler.DecodePipelineUpdate "bad").2 =
      some (.other "invalid character") ∧
    FailsWith
      (request_PipelineService_UpdatePipeline_0 exampleQueryParser {} exampleMarshaler
        exampleClient (exampleRequest "bad" [("id.id", ["x"])]) [])
      "invalid character" ∧
    FailsWith
      (request_PipelineService_UpdatePipeline_0 exampleQueryParser {} exampleMarshaler
        exampleClient (exampleRequest exampleBody [("id.id", ["x"])]) [])
      "missing parameter id" ∧
    FailsWith
      (request_PipelineService_UpdatePipeline_0 exampleQueryParser {} exampleMarshaler
        exampleClient (exampleRequest exampleBody [("id.id", ["x"])]) [("id", "p1")])
      "invalid path: \"id\" is not a message" :=
  ⟨rfl, by decide,
    ((update_binds_body_path_query exampleQueryParser {} exampleMarshaler exampleClient
      exampleServer (exampleRequest "bad" [("id.id", ["x"])]) []).2.1 "bad"
      (.other "invalid character") rfl (by decide)).1,
    ((update_binds_body_path_query exampleQueryParser {} exampleMarshaler exampleClient
      exampleServer (exampleRequest exampleBody [("id.id", ["x"])]) []).2.2.1 exampleBody rfl
      (by decide) rfl).1,
    ((update_binds_body_path_query exampleQueryParser {} exampleMarshaler exampleClient
      exampleServer (exampleRequest exampleBody [("id.id", ["x"])]) [("id", "p1")]).2.2.2.1
      exampleBody "p1" (.other "invalid path: \"id\" is not a message") rfl (by decide) rfl
      (Or.inr ⟨rfl, rfl⟩)).1⟩
/-! ## Metadata on the written response -/

theorem log_writes_with_metadata (result : Call → Message × Option GoError) (isLocal : Bool)
    (op : Op) (rpcMethod httpPathPattern : String) (response : Option Message → ResponseArg)
    (bare actx : Context) (outcome : Context → Outcome) (md : Outcome → ServerMetadata)
    (tr : List Event)
    (hlog : HandlerLog result isLocal op rpcMethod httpPathPattern response bare (.ok actx)
      outcome md tr) :
    WritesWithMetadata op actx (outcome actx) (md (outcome actx)) tr := by
  rcases hlog with ⟨err, h, _⟩ | ⟨actx1, h, hrest⟩
  · cases h
  · cases h
    rcases hrest with ⟨err, _, herr, rfl⟩ | ⟨c, _, _, _, herr, ⟨err, hres, rfl⟩ | ⟨hres, rfl⟩⟩
    · refine ⟨?_, ?_, rfl⟩
      · intro e he
        rw [herr] at he
        cases he
        simp [Event.isWrite]
      · intro he
        rw [herr] at he
        cases he
    · refine ⟨?_, ?_, rfl⟩
      · intro e he
        rw [herr, hres] at he
        cases he
        simp [Event.isWrite]
      · intro he
        rw [herr, hres] at he
        cases he
    · refine ⟨?_, ?_, rfl⟩
      · intro e he
        rw [herr, hres] at he
        cases he
      · intro _
        exact ⟨response (some (result c).1), by simp [Event.isWrite]⟩

/-- C15: in every handler of both registrations, once annotation succeeded,
the metadata is attached to the context before the outcome is written, on
the error path as on the success path: when the request function returns an
error, the one response written is `runtime.HTTPError` with that error and
with the annotated context carrying the metadata returned by the request
function (in the server handlers its header and trailer sets joined with
those of the transport stream), not the bare annotated context; when it
returns no error the forwarder is called with that same context. -/
theorem written_context_carries_metadata (qp : QueryParser) (mux : ServeMux)
    (server : PipelineServiceServer) (client : PipelineServiceClient) :
    (∀ r ∈ addedRoutes mux (RegisterPipelineServiceHandlerServer qp mux server),
      ∃ op, r.meth = op.httpMethod ∧ r.pat = op.pattern ∧
        ∀ req pathParams actx,
          mux.AnnotateIncomingContext (grpc_NewContextWithServerTransportStream req.Context)
            req op.rpcMethod op.httpPathPattern = .ok actx →
          WritesWithMetadata op actx
            (op.local_request qp server actx (mux.MarshalerForRequest req).1 req pathParams)
            { HeaderMD := metadata_Join
                (op.local_request qp server actx (mux.MarshalerForRequest req).1 req
                  pathParams).metadata.HeaderMD
                (op.local_request qp server actx (mux.MarshalerForRequest req).1 req
                  pathParams).streamHeader,
              TrailerMD := metadata_Join
                (op.local_request qp server actx (mux.MarshalerForRequest req).1 req
                  pathParams).metadata.TrailerMD
                (op.local_request qp server actx (mux.MarshalerForRequest req).1 req
                  pathParams).streamTrailer }
            (r.h req pathParams)) ∧
    (∀ r ∈ addedRoutes mux (RegisterPipelineServiceHandlerClient qp mux client),
      ∃ op, r.meth = op.httpMethod ∧ r.pat = op.pattern ∧
        ∀ req pathParams actx,
          mux.AnnotateContext req.Context req op.rpcMethod op.httpPathPattern = .ok actx →
          WritesWithMetadata op actx
            (op.request qp client actx (mux.MarshalerForRequest req).1 req pathParams)
            (op.request qp client actx (mux.MarshalerForRequest req).1 req
              pathParams).metadata
            (r.h req pathParams)) := by
  constructor
  · intro r hr
    obtain ⟨op, hm, hp, hlog⟩ := server_route_log qp mux server r hr
    refine ⟨op, hm, hp, fun req pathParams actx hann => ?_⟩
    have h := hlog req pathParams
    rw [hann] at h
    exact log_writes_with_metadata _ _ _ _ _ _ _ _ _ _ _ h
  · intro r hr
    obtain ⟨op, hm, hp, hlog⟩ := client_route_log qp mux client r hr
    refine ⟨op, hm, hp, fun req pathParams actx hann => ?_⟩
    have h := hlog req pathParams
    rw [hann] at h
    exact log_writes_with_metadata _ _ _ _ _ _ _ _ _ _ _ h

/-! ## Compilation of the patterns -/

/-- C16: each of the seven pattern definitions passes the checks made at
compilation, so that `runtime.MustPattern` does not panic: the version is 1,
the opcode list has even length, and the walk over the opcodes (operands of
LitPush and Capture inside the pool, no stack underflow, no unknown opcode)
ends with the list of captured names, which is empty for the create and list
patterns and is the single name "id" for the other five, hence without
repetition. -/
theorem patterns_compile :
    (∀ p ∈ [pattern_PipelineService_CreatePipeline_0, pattern_PipelineService_GetPipeline_0,
        pattern_PipelineService_ListPipelines_0, pattern_PipelineService_UpdatePipeline_0,
        pattern_PipelineService_DeletePipeline_0, pattern_PipelineService_StopPipeline_0,
        pattern_PipelineService_StartPipeline_0],
      p.version = 1 ∧ p.ops.length % 2 = 0 ∧
        (NewPattern p = some [] ∨ NewPattern p = some ["id"])) ∧
    NewPattern pattern_PipelineService_CreatePipeline_0 = some [] ∧
    NewPattern pattern_PipelineService_ListPipelines_0 = some [] ∧
    NewPattern pattern_PipelineService_GetPipeline_0 = some ["id"] ∧
    NewPattern pattern_PipelineService_UpdatePipeline_0 = some ["id"] ∧
    NewPattern pattern_PipelineService_DeletePipeline_0 = some ["id"] ∧
    NewPattern pattern_PipelineService_StopPipeline_0 = some ["id"] ∧
    NewPattern pattern_PipelineService_StartPipeline_0 = some ["id"] ∧
    ([] : List String).Nodup ∧ ["id"].Nodup := by
  decide

/-! ## Cancellation -/

theorem log_after_failed_invocation (result : Call → Message × Option GoError)
    (isLocal : Bool) (op : Op) (rpcMethod httpPathPattern : String)
    (response : Option Message → ResponseArg) (bare : Context)
    (annotated : Except GoError Context) (outcome : Context → Outcome)
    (md : Outcome → ServerMetadata) (tr : List Event)
    (hlog : HandlerLog result isLocal op rpcMethod httpPathPattern response bare annotated
      outcome md tr)
    (c : Call) (err : GoError) (hc : Event.invoke c ∈ tr) (herr : (result c).2 = some err) :
    ∃ ctx, tr.filter Event.isWrite = [.HTTPError ctx err] ∧
      ctx.serverMetadata ≠ none := by
  rcases hlog with ⟨e, _, rfl⟩ | ⟨actx, _, ⟨e, _, _, rfl⟩ |
    ⟨c1, _, _, _, _, ⟨e, hres, rfl⟩ | ⟨hres, rfl⟩⟩⟩
  · simp at hc
  · simp at hc
  · simp only [List.mem_cons, List.mem_singleton, List.not_mem_nil, or_false, false_or,
      Event.invoke.injEq, reduceCtorEq] at hc
    subst hc
    rw [hres] at herr
    cases herr
    exact ⟨runtime_NewServerMetadataContext actx (md (outcome actx)),
      by simp [Event.isWrite], by simp [runtime_NewServerMetadataContext]⟩
  · simp only [List.mem_cons, List.mem_singleton, List.not_mem_nil, or_false, false_or,
      Event.invoke.injEq, reduceCtorEq] at hc
    subst hc
    rw [hres] at herr
    cases herr

/-- C17, refuted as stated: when the get operation returns the cancellation
error, the get handler of the server registration and the get handler of the
client registration each write a response: `runtime.HTTPError` is called with
that error. -/
theorem cancelled_dispatch_is_written :
    (addedRoutes exampleMux
        (RegisterPipelineServiceHandlerServer exampleQueryParser exampleMux
          cancelledServer))[1]?.map
      (fun r => (r.meth, (r.h (exampleRequest "" []) [("id", "p1")]).filter Event.isWrite)) =
      some ("GET",
        [.HTTPError
          { transportStream := true,
            rpcMethod := some "/redpanda.api.dataplane.v1alpha2.PipelineService/GetPipeline",
            httpPathPattern := some "/v1alpha2/redpanda-connect/pipelines/{id}",
            serverMetadata := some {} }
          (.status .Canceled "context canceled")]) ∧
    (addedRoutes exampleMux
        (RegisterPipelineServiceHandlerClient exampleQueryParser exampleMux
          cancelledClient))[1]?.map
      (fun r => (r.meth, (r.h (exampleRequest "" []) [("id", "p1")]).filter Event.isWrite)) =
      some ("GET",
        [.HTTPError
          { rpcMethod := some "/redpanda.api.dataplane.v1alpha2.PipelineService/GetPipeline",
            httpPathPattern := some "/v1alpha2/redpanda-connect/pipelines/{id}",
            serverMetadata := some {} }
          (.status .Canceled "context canceled")]) := by
  decide

/-- C17, amended: in every handler of both registrations, when the operation
is invoked and returns a cancellation error (status Canceled, as after
observing the cancelled context), the handler does write a response: it calls
the error writer `runtime.HTTPError` exactly once, with that error and with a
context carrying the metadata, and it does not call the forwarder. -/
theorem cancellation_error_is_written (qp : QueryParser) (mux : ServeMux)
    (server : PipelineServiceServer) (client : PipelineServiceClient) (req : Request)
    (pathParams : List (String × String)) (c : Call) (message : String) :
    (∀ r ∈ addedRoutes mux (RegisterPipelineServiceHandlerServer qp mux server),
      Event.invoke c ∈ r.h req pathParams →
      (Call.viaServer server c).2 = some (.status .Canceled message) →
      ∃ ctx, (r.h req pathParams).filter Event.isWrite =
          [.HTTPError ctx (.status .Canceled message)] ∧
        ctx.serverMetadata ≠ none) ∧
    (∀ r ∈ addedRoutes mux (RegisterPipelineServiceHandlerClient qp mux client),
      Event.invoke c ∈ r.h req pathParams →
      (Call.viaClient client c).2 = some (.status .Canceled message) →
      ∃ ctx, (r.h req pathParams).filter Event.isWrite =
          [.HTTPError ctx (.status .Canceled message)] ∧
        ctx.serverMetadata ≠ none) := by
  constructor
  · intro r hr hc herr
    obtain ⟨op, _, _, hlog⟩ := server_route_log qp mux server r hr
    exact log_after_failed_invocation _ _ _ _ _ _ _ _ _ _ _ (hlog req pathParams) c _ hc herr
  · intro r hr hc herr
    obtain ⟨op, _, _, hlog⟩ := client_route_log qp mux client r hr
    exact log_after_failed_invocation _ _ _ _ _ _ _ _ _ _ _ (hlog req pathParams) c _ hc herr
/-! ## Totality of the projection -/

theorem CreatePipeline_body_typed (resp : Option CreatePipelineResponse) :
    response_PipelineService_CreatePipeline_0.XXX_ResponseBody (some (Message.create resp)) ≠
        .error .typeAssertion ∧
      ∀ r, resp = some r →
        response_PipelineService_CreatePipeline_0.XXX_ResponseBody (some (Message.create resp)) =
          .ok r.Pipeline := by
  cases resp <;> simp [response_PipelineService_CreatePipeline_0.XXX_ResponseBody]

theorem GetPipeline_body_typed (resp : Option GetPipelineResponse) :
    response_PipelineService_GetPipeline_0.XXX_ResponseBody (some (Message.get resp)) ≠
        .error .typeAssertion ∧
      ∀ r, resp = some r →
        response_PipelineService_GetPipeline_0.XXX_ResponseBody (some (Message.get resp)) =
          .ok r.Pipeline := by
  cases resp <;> simp [response_PipelineService_GetPipeline_0.XXX_ResponseBody]

theorem UpdatePipeline_body_typed (resp : Option UpdatePipelineResponse) :
    response_PipelineService_UpdatePipeline_0.XXX_ResponseBody (some (Message.update resp)) ≠
        .error .typeAssertion ∧
      ∀ r, resp = some r →
        response_PipelineService_UpdatePipeline_0.XXX_ResponseBody (some (Message.update resp)) =
          .ok r.Pipeline := by
  cases resp <;> simp [response_PipelineService_UpdatePipeline_0.XXX_ResponseBody]

theorem StopPipeline_body_typed (resp : Option StopPipelineResponse) :
    response_PipelineService_StopPipeline_0.XXX_ResponseBody (some (Message.stop resp)) ≠
        .error .typeAssertion ∧
      ∀ r, resp = some r →
        response_PipelineService_StopPipeline_0.XXX_ResponseBody (some (Message.stop resp)) =
          .ok r.Pipeline := by
  cases resp <;> simp [response_PipelineService_StopPipeline_0.XXX_ResponseBody]

theorem StartPipeline_body_typed (resp : Option StartPipelineResponse) :
    response_PipelineService_StartPipeline_0.XXX_ResponseBody (some (Message.start resp)) ≠
        .error .typeAssertion ∧
      ∀ r, resp = some r →
        response_PipelineService_StartPipeline_0.XXX_ResponseBody (some (Message.start resp)) =
          .ok r.Pipeline := by
  cases resp <;> simp [response_PipelineService_StartPipeline_0.XXX_ResponseBody]

theorem remote_CreatePipeline_projects (ctx : Context) (marshaler : Marshaler)
    (client : PipelineServiceClient) (req : Request) (pathParams : List (String × String)) :
    ProjectionTotal Message.create (fun r => r.Pipeline)
      response_PipelineService_CreatePipeline_0.XXX_ResponseBody
      (request_PipelineService_CreatePipeline_0 ctx marshaler client req pathParams) := by
  unfold ProjectionTotal request_PipelineService_CreatePipeline_0
  simp only []
  repeat' split
  all_goals
    first
    | (intro h; exact absurd h (by simp [Outcome.returnNil]))
    | (intro _
       exact ⟨_, rfl, (CreatePipeline_body_typed _).1, (CreatePipeline_body_typed _).2⟩)

theorem local_CreatePipeline_projects (ctx : Context) (marshaler : Marshaler)
    (server : PipelineServiceServer) (req : Request) (pathParams : List (String × String)) :
    ProjectionTotal Message.create (fun r => r.Pipeline)
      response_PipelineService_CreatePipeline_0.XXX_ResponseBody
      (local_request_PipelineService_CreatePipeline_0 ctx marshaler server req pathParams) := by
  unfold ProjectionTotal local_request_PipelineService_CreatePipeline_0
  simp only []
  repeat' split
  all_goals
    first
    | (intro h; exact absurd h (by simp [Outcome.returnNil]))
    | (intro _
       exact ⟨_, rfl, (CreatePipeline_body_typed _).1, (CreatePipeline_body_typed _).2⟩)

theorem remote_GetPipeline_projects (ctx : Context) (marshaler : Marshaler)
    (client : PipelineServiceClient) (req : Request) (pathParams : List (String × String)) :
    ProjectionTotal Message.get (fun r => r.Pipeline)
      response_PipelineService_GetPipeline_0.XXX_ResponseBody
      (request_PipelineService_GetPipeline_0 ctx marshaler client req pathParams) := by
  unfold ProjectionTotal request_PipelineService_GetPipeline_0
  simp only []
  repeat' split
  all_goals
    first
    | (intro h; exact absurd h (by simp [Outcome.returnNil]))
    | (intro _
       exact ⟨_, rfl, (GetPipeline_body_typed _).1, (GetPipeline_body_typed _).2⟩)

theorem local_GetPipeline_projects (ctx : Context) (marshaler : Marshaler)
    (server : PipelineServiceServer) (req : Request) (pathParams : List (String × String)) :
    ProjectionTotal Message.get (fun r => r.Pipeline)
      response_PipelineService_GetPipeline_0.XXX_ResponseBody
      (local_request_PipelineService_GetPipeline_0 ctx marshaler server req pathParams) := by
  unfold ProjectionTotal local_request_PipelineService_GetPipeline_0
  simp only []
  repeat' split
  all_goals
    first
    | (intro h; exact absurd h (by simp [Outcome.returnNil]))
    | (intro _
       exact ⟨_, rfl, (GetPipeline_body_typed _).1, (GetPipeline_body_typed _).2⟩)

theorem remote_UpdatePipeline_projects (qp : QueryParser) (ctx : Context) (marshaler : Marshaler)
    (client : PipelineServiceClient) (req : Request) (pathParams : List (String × String)) :
    ProjectionTotal Message.update (fun r => r.Pipeline)
      response_PipelineService_UpdatePipeline_0.XXX_ResponseBody
      (request_PipelineService_UpdatePipeline_0 qp ctx marshaler client req pathParams) := by
  unfold ProjectionTotal request_PipelineService_UpdatePipeline_0
  simp only []
  repeat' split
  all_goals
    first
    | (intro h; exact absurd h (by simp [Outcome.returnNil]))
    | (intro _
       exact ⟨_, rfl, (UpdatePipeline_body_typed _).1, (UpdatePipeline_body_typed _).2⟩)

theorem local_UpdatePipeline_projects (qp : QueryParser) (ctx : Context) (marshaler : Marshaler)
    (server : PipelineServiceServer) (req : Request) (pathParams : List (String × String)) :
    ProjectionTotal Message.update (fun r => r.Pipeline)
      response_PipelineService_UpdatePipeline_0.XXX_ResponseBody
      (local_request_PipelineService_UpdatePipeline_0 qp ctx marshaler server req pathParams) := by
  unfold ProjectionTotal local_request_PipelineService_UpdatePipeline_0
  simp only []
  repeat' split
  all_goals
    first
    | (intro h; exact absurd h (by simp [Outcome.returnNil]))
    | (intro _
       exact ⟨_, rfl, (UpdatePipeline_body_typed _).1, (UpdatePipeline_body_typed _).2⟩)

theorem remote_StopPipeline_projects (ctx : Context) (marshaler : Marshaler)
    (client : PipelineServiceClient) (req : Request) (pathParams : List (String × String)) :
    ProjectionTotal Message.stop (fun r => r.Pipeline)
      response_PipelineService_StopPipeline_0.XXX_ResponseBody
      (request_PipelineService_StopPipeline_0 ctx marshaler client req pathParams) := by
  unfold ProjectionTotal request_PipelineService_StopPipeline_0
  simp only []
  repeat' split
  all_goals
    first
    | (intro h; exact absurd h (by simp [Outcome.returnNil]))
    | (intro _
       exact ⟨_, rfl, (StopPipeline_body_typed _).1, (StopPipeline_body_typed _).2⟩)

theorem local_StopPipeline_projects (ctx : Context) (marshaler : Marshaler)
    (server : PipelineServiceServer) (req : Request) (pathParams : List (String × String)) :
    ProjectionTotal Message.stop (fun r => r.Pipeline)
      response_PipelineService_StopPipeline_0.XXX_ResponseBody
      (local_request_PipelineService_StopPipeline_0 ctx marshaler server req pathParams) := by
  unfold ProjectionTotal local_request_PipelineService_StopPipeline_0
  simp only []
  repeat' split
  all_goals
    first
    | (intro h; exact absurd h (by simp [Outcome.returnNil]))
    | (intro _
       exact ⟨_, rfl, (StopPipeline_body_typed _).1, (StopPipeline_body_typed _).2⟩)

theorem remote_StartPipeline_projects (ctx : Context) (marshaler : Marshaler)
    (client : PipelineServiceClient) (req : Request) (pathParams : List (String × String)) :
    ProjectionTotal Message.start (fun r => r.Pipeline)
      response_PipelineService_StartPipeline_0.XXX_ResponseBody
      (request_PipelineService_StartPipeline_0 ctx marshaler client req pathParams) := by
  unfold ProjectionTotal request_PipelineService_StartPipeline_0
  simp only []
  repeat' split
  all_goals
    first
    | (intro h; exact absurd h (by simp [Outcome.returnNil]))
    | (intro _
       exact ⟨_, rfl, (StartPipeline_body_typed _).1, (StartPipeline_body_typed _).2⟩)

theorem local_StartPipeline_projects (ctx : Context) (marshaler : Marshaler)
    (server : PipelineServiceServer) (req : Request) (pathParams : List (String × String)) :
    ProjectionTotal Message.start (fun r => r.Pipeline)
      response_PipelineService_StartPipeline_0.XXX_ResponseBody
      (local_request_PipelineService_StartPipeline_0 ctx marshaler server req pathParams) := by
  unfold ProjectionTotal local_request_PipelineService_StartPipeline_0
  simp only []
  repeat' split
  all_goals
    first
    | (intro h; exact absurd h (by simp [Outcome.returnNil]))
    | (intro _
       exact ⟨_, rfl, (StartPipeline_body_typed _).1, (StartPipeline_body_typed _).2⟩)

/-- C19: for each projecting route (create, get, update, stop, start) and
both request functions of its operation, whenever the request function
returns a nil error, the message it returns holds a response pointer of the
type that the route's `XXX_ResponseBody` asserts, so that the type assertion
does not panic; and when that pointer is not nil the method returns the
`Pipeline` field of the response. -/
theorem projection_is_total (qp : QueryParser) (ctx : Context) (marshaler : Marshaler)
    (client : PipelineServiceClient) (server : PipelineServiceServer) (req : Request)
    (pathParams : List (String × String)) :
    ProjectionTotal Message.create (fun r => r.Pipeline)
      response_PipelineService_CreatePipeline_0.XXX_ResponseBody
      (request_PipelineService_CreatePipeline_0 ctx marshaler client req pathParams) ∧
    ProjectionTotal Message.create (fun r => r.Pipeline)
      response_PipelineService_CreatePipeline_0.XXX_ResponseBody
      (local_request_PipelineService_CreatePipeline_0 ctx marshaler server req pathParams) ∧
    ProjectionTotal Message.get (fun r => r.Pipeline)
      response_PipelineService_GetPipeline_0.XXX_ResponseBody
      (request_PipelineService_GetPipeline_0 ctx marshaler client req pathParams) ∧
    ProjectionTotal Message.get (fun r => r.Pipeline)
      response_PipelineService_GetPipeline_0.XXX_ResponseBody
      (local_request_PipelineService_GetPipeline_0 ctx marshaler server req pathParams) ∧
    ProjectionTotal Message.update (fun r => r.Pipeline)
      response_PipelineService_UpdatePipeline_0.XXX_ResponseBody
      (request_PipelineService_UpdatePipeline_0 qp ctx marshaler client req pathParams) ∧
    ProjectionTotal Message.update (fun r => r.Pipeline)
      response_PipelineService_UpdatePipeline_0.XXX_ResponseBody
      (local_request_PipelineService_UpdatePipeline_0 qp ctx marshaler server req pathParams) ∧
    ProjectionTotal Message.stop (fun r => r.Pipeline)
      response_PipelineService_StopPipeline_0.XXX_ResponseBody
      (request_PipelineService_StopPipeline_0 ctx marshaler client req pathParams) ∧
    ProjectionTotal Message.stop (fun r => r.Pipeline)
      response_PipelineService_StopPipeline_0.XXX_ResponseBody
      (local_request_PipelineService_StopPipeline_0 ctx marshaler server req pathParams) ∧
    ProjectionTotal Message.start (fun r => r.Pipeline)
      response_PipelineService_StartPipeline_0.XXX_ResponseBody
      (request_PipelineService_StartPipeline_0 ctx marshaler client req pathParams) ∧
    ProjectionTotal Message.start (fun r => r.Pipeline)
      response_PipelineService_StartPipeline_0.XXX_ResponseBody
      (local_request_PipelineService_StartPipeline_0 ctx marshaler server req pathParams) :=
  ⟨remote_CreatePipeline_projects ctx marshaler client req pathParams,
    local_CreatePipeline_projects ctx marshaler server req pathParams,
    remote_GetPipeline_projects ctx marshaler client req pathParams,
    local_GetPipeline_projects ctx marshaler server req pathParams,
    remote_UpdatePipeline_projects qp ctx marshaler client req pathParams,
    local_UpdatePipeline_projects qp ctx marshaler server req pathParams,
    remote_StopPipeline_projects ctx marshaler client req pathParams,
    local_StopPipeline_projects ctx marshaler server req pathParams,
    remote_StartPipeline_projects ctx marshaler client req pathParams,
    local_StartPipeline_projects ctx marshaler server req pathParams⟩
/-! ## The theorems on the example collaborators -/

theorem forwarded_payload_per_route_witness :
    (addedRoutes exampleMux
        (RegisterPipelineServiceHandlerServer exampleQueryParser exampleMux
          exampleServer)).map
      (fun r => (r.h (exampleRequest exampleBody []) [("id", "p1")]).any Event.isForward) =
      [true, true, true, true, true, true, true] ∧
    ∀ r ∈ addedRoutes exampleMux
        (RegisterPipelineServiceHandlerServer exampleQueryParser exampleMux exampleServer),
      ForwardsProjection (Call.viaServer exampleServer)
        (r.h (exampleRequest exampleBody []) [("id", "p1")]) :=
  ⟨by decide,
    (forwarded_payload_per_route exampleQueryParser exampleMux exampleServer exampleClient
      (exampleRequest exampleBody []) [("id", "p1")]).1⟩

theorem written_context_carries_metadata_witness :
    exampleMux.AnnotateContext {} (exampleRequest "" []) "m" "p" =
      .ok { rpcMethod := some "m", httpPathPattern := some "p" } ∧
    ∀ r ∈ addedRoutes exampleMux
        (RegisterPipelineServiceHandlerClient exampleQueryParser exampleMux exampleClient),
      ∃ op, r.meth = op.httpMethod ∧ r.pat = op.pattern ∧
        ∀ req pathParams actx,
          exampleMux.AnnotateContext req.Context req op.rpcMethod op.httpPathPattern =
            .ok actx →
          WritesWithMetadata op actx
            (op.request exampleQueryParser exampleClient actx
              (exampleMux.MarshalerForRequest req).1 req pathParams)
            (op.request exampleQueryParser exampleClient actx
              (exampleMux.MarshalerForRequest req).1 req pathParams).metadata
            (r.h req pathParams) :=
  ⟨rfl,
    (written_context_carries_metadata exampleQueryParser exampleMux exampleServer
      exampleClient).2⟩

theorem cancellation_error_is_written_witness :
    ∃ ctx,
      (handlerServer exampleMux .GetPipeline
          "/redpanda.api.dataplane.v1alpha2.PipelineService/GetPipeline"
          "/v1alpha2/redpanda-connect/pipelines/{id}"
          (fun ctx marshaler req pathParams =>
            local_request_PipelineService_GetPipeline_0 ctx marshaler cancelledServer req
              pathParams)
          .response_PipelineService_GetPipeline_0 (exampleRequest "" [])
          [("id", "p1")]).filter Event.isWrite =
        [.HTTPError ctx (.status .Canceled "context canceled")] ∧
      ctx.serverMetadata ≠ none :=
  (cancellation_error_is_written exampleQueryParser exampleMux cancelledServer cancelledClient
    (exampleRequest "" []) [("id", "p1")]
    (.GetPipeline
      { transportStream := true,
        rpcMethod := some "/redpanda.api.dataplane.v1alpha2.PipelineService/GetPipeline",
        httpPathPattern := some "/v1alpha2/redpanda-connect/pipelines/{id}" }
      { Id := "p1" })
    "context canceled").1
    ⟨"GET", pattern_PipelineService_GetPipeline_0,
      handlerServer exampleMux .GetPipeline
        "/redpanda.api.dataplane.v1alpha2.PipelineService/GetPipeline"
        "/v1alpha2/redpanda-connect/pipelines/{id}"
        (fun ctx marshaler req pathParams =>
          local_request_PipelineService_GetPipeline_0 ctx marshaler cancelledServer req
            pathParams)
        .response_PipelineService_GetPipeline_0⟩
    (by rw [server_routes]; simp)
    (by decide) rfl

theorem projection_is_total_witness :
    (request_PipelineService_GetPipeline_0 {} exampleMarshaler exampleClient
        (exampleRequest "" []) [("id", "p1")]).err = none ∧
    response_PipelineService_GetPipeline_0.XXX_ResponseBody
        (request_PipelineService_GetPipeline_0 {} exampleMarshaler exampleClient
          (exampleRequest "" []) [("id", "p1")]).msg = .ok (some { Id := "p1" }) ∧
    ProjectionTotal Message.get (fun r => r.Pipeline)
      response_PipelineService_GetPipeline_0.XXX_ResponseBody
      (request_PipelineService_GetPipeline_0 {} exampleMarshaler exampleClient
        (exampleRequest "" []) [("id", "p1")]) :=
  ⟨rfl, rfl,
    (projection_is_total exampleQueryParser {} exampleMarshaler exampleClient exampleServer
      (exampleRequest "" []) [("id", "p1")]).2.2.1⟩
/-! ## Request functions against the binding of the specification -/

theorem specBindBody_eq {π : Type} (decode : String → Option π × Option GoError)
    (req : Request) :
    specBindBody decode req =
      match req.Body with
      | .error berr => .error (.status .InvalidArgument berr.Error)
      | .ok body =>
        match decodeFailure (decode body).2 with
        | some err => .error (.status .InvalidArgument err.Error)
        | none => .ok (decode body).1 := by
  unfold specBindBody
  cases req.Body with
  | error berr => rfl
  | ok body =>
    cases hd : (decode body).2 with
    | none => simp [decodeFailure, hd]
    | some err => by_cases he : err = GoError.EOF <;> simp [decodeFailure, hd, he]

theorem remote_dispatches_bound (qp : QueryParser) (client : PipelineServiceClient) (op : Op)
    (ctx : Context) (marshaler : Marshaler) (req : Request)
    (pathParams : List (String × String)) :
    DispatchesBound (op.bind qp ctx marshaler req pathParams) (Call.viaClient client)
      (op.request qp client ctx marshaler req pathParams) := by
  cases op
  · simp only [Op.bind, Op.request, request_PipelineService_CreatePipeline_0, specBindBody_eq,
      utilities_IOReaderFactory]
    cases hb : req.Body with
    | error berr => simp [DispatchesBound, Except.map, Outcome.returnNil, status_Errorf_v]
    | ok body =>
      cases hd : decodeFailure (marshaler.DecodePipelineCreate body).2 <;>
        simp [DispatchesBound, Except.map, hd, Outcome.ofClient, Call.viaClient,
          Outcome.returnNil, status_Errorf_v]
  · simp only [Op.bind, Op.request, request_PipelineService_GetPipeline_0, specBindId]
    cases hid : pathParams.lookup "id" <;>
      simp [DispatchesBound, Except.map, hid, runtime_String, Outcome.ofClient, Call.viaClient,
        Outcome.returnNil, missing_id_text]
  · simp only [Op.bind, Op.request, request_PipelineService_ListPipelines_0, specBindQuery]
    cases hp : req.ParseForm with
    | some err => simp [DispatchesBound, Except.map, hp, Outcome.returnNil, status_Errorf_v]
    | none =>
      cases hq : runtime_PopulateQueryParameters qp.populateListPipelinesRequest {} req.Form
          filter_PipelineService_ListPipelines_0 <;>
        simp [DispatchesBound, Except.map, hq, Outcome.ofClient, Call.viaClient,
          Outcome.returnNil, status_Errorf_v]
  · simp only [Op.bind, Op.request, request_PipelineService_UpdatePipeline_0, specBindBody_eq,
      specBindId, specBindQuery, utilities_IOReaderFactory]
    cases hb : req.Body with
    | error berr =>
      simp [DispatchesBound, Except.bind, Outcome.returnNil, status_Errorf_v]
    | ok body =>
      cases hd : decodeFailure (marshaler.DecodePipelineUpdate body).2 with
      | some err =>
        simp [DispatchesBound, Except.bind, hd, Outcome.returnNil, status_Errorf_v]
      | none =>
        cases hid : pathParams.lookup "id" with
        | none =>
          simp [DispatchesBound, Except.bind, hd, hid, Outcome.returnNil, missing_id_text]
        | some v =>
          cases hp : req.ParseForm with
          | some err =>
            simp [DispatchesBound, Except.bind, Except.map, hd, hid, hp, runtime_String,
              Outcome.returnNil, status_Errorf_v]
          | none =>
            cases hq : runtime_PopulateQueryParameters qp.populateUpdatePipelineRequest
                { Id := v, Pipeline := (marshaler.DecodePipelineUpdate body).1 } req.Form
                filter_PipelineService_UpdatePipeline_0 <;>
              simp [DispatchesBound, Except.bind, Except.map, hd, hid, hp, runtime_String, hq,
                Outcome.ofClient, Call.viaClient, Outcome.returnNil, status_Errorf_v]
  · simp only [Op.bind, Op.request, request_PipelineService_DeletePipeline_0, specBindId]
    cases hid : pathParams.lookup "id" <;>
      simp [DispatchesBound, Except.map, hid, runtime_String, Outcome.ofClient, Call.viaClient,
        Outcome.returnNil, missing_id_text]
  · simp only [Op.bind, Op.request, request_PipelineService_StopPipeline_0, specBindId]
    cases hid : pathParams.lookup "id" <;>
      simp [DispatchesBound, Except.map, hid, runtime_String, Outcome.ofClient, Call.viaClient,
        Outcome.returnNil, missing_id_text]
  · simp only [Op.bind, Op.request, request_PipelineService_StartPipeline_0, specBindId]
    cases hid : pathParams.lookup "id" <;>
      simp [DispatchesBound, Except.map, hid, runtime_String, Outcome.ofClient, Call.viaClient,
        Outcome.returnNil, missing_id_text]

theorem local_dispatches_bound (qp : QueryParser) (server : PipelineServiceServer) (op : Op)
    (ctx : Context) (marshaler : Marshaler) (req : Request)
    (pathParams : List (String × String)) :
    DispatchesBound (op.bind qp ctx marshaler req pathParams) (Call.viaServer server)
      (op.local_request qp server ctx marshaler req pathParams) := by
  cases op
  · simp only [Op.bind, Op.local_request, local_request_PipelineService_CreatePipeline_0, specBindBody_eq,
      utilities_IOReaderFactory]
    cases hb : req.Body with
    | error berr => simp [DispatchesBound, Except.map, Outcome.returnNil, status_Errorf_v]
    | ok body =>
      cases hd : decodeFailure (marshaler.DecodePipelineCreate body).2 <;>
        simp [DispatchesBound, Except.map, hd, Outcome.ofServer, Call.viaServer,
          Outcome.returnNil, status_Errorf_v]
  · simp only [Op.bind, Op.local_request, local_request_PipelineService_GetPipeline_0, specBindId]
    cases hid : pathParams.lookup "id" <;>
      simp [DispatchesBound, Except.map, hid, runtime_String, Outcome.ofServer, Call.viaServer,
        Outcome.returnNil, missing_id_text]
  · simp only [Op.bind, Op.local_request, local_request_PipelineService_ListPipelines_0, specBindQuery]
    cases hp : req.ParseForm with
    | some err => simp [DispatchesBound, Except.map, hp, Outcome.returnNil, status_Errorf_v]
    | none =>
      cases hq : runtime_PopulateQueryParameters qp.populateListPipelinesRequest {} req.Form
          filter_PipelineService_ListPipelines_0 <;>
        simp [DispatchesBound, Except.map, hq, Outcome.ofServer, Call.viaServer,
          Outcome.returnNil, status_Errorf_v]
  · simp only [Op.bind, Op.local_request, local_request_PipelineService_UpdatePipeline_0, specBindBody_eq,
      specBindId, specBindQuery, utilities_IOReaderFactory]
    cases hb : req.Body with
    | error berr =>
      simp [DispatchesBound, Except.bind, Outcome.returnNil, status_Errorf_v]
    | ok body =>
      cases hd : decodeFailure (marshaler.DecodePipelineUpdate body).2 with
      | some err =>
        simp [DispatchesBound, Except.bind, hd, Outcome.returnNil, status_Errorf_v]
      | none =>
        cases hid : pathParams.lookup "id" with
        | none =>
          simp [DispatchesBound, Except.bind, hd, hid, Outcome.returnNil, missing_id_text]
        | some v =>
          cases hp : req.ParseForm with
          | some err =>
            simp [DispatchesBound, Except.bind, Except.map, hd, hid, hp, runtime_String,
              Outcome.returnNil, status_Errorf_v]
          | none =>
            cases hq : runtime_PopulateQueryParameters qp.populateUpdatePipelineRequest
                { Id := v, Pipeline := (marshaler.DecodePipelineUpdate body).1 } req.Form
                filter_PipelineService_UpdatePipeline_0 <;>
              simp [DispatchesBound, Except.bind, Except.map, hd, hid, hp, runtime_String, hq,
                Outcome.ofServer, Call.viaServer, Outcome.returnNil, status_Errorf_v]
  · simp only [Op.bind, Op.local_request, local_request_PipelineService_DeletePipeline_0, specBindId]
    cases hid : pathParams.lookup "id" <;>
      simp [DispatchesBound, Except.map, hid, runtime_String, Outcome.ofServer, Call.viaServer,
        Outcome.returnNil, missing_id_text]
  · simp only [Op.bind, Op.local_request, local_request_PipelineService_StopPipeline_0, specBindId]
    cases hid : pathParams.lookup "id" <;>
      simp [DispatchesBound, Except.map, hid, runtime_String, Outcome.ofServer, Call.viaServer,
        Outcome.returnNil, missing_id_text]
  · simp only [Op.bind, Op.local_request, local_request_PipelineService_StartPipeline_0, specBindId]
    cases hid : pathParams.lookup "id" <;>
      simp [DispatchesBound, Except.map, hid, runtime_String, Outcome.ofServer, Call.viaServer,
        Outcome.returnNil, missing_id_text]

theorem bind_call_of_op (qp : QueryParser) (op : Op) (ctx : Context) (marshaler : Marshaler)
    (req : Request) (pathParams : List (String × String)) (c : Call)
    (h : op.bind qp ctx marshaler req pathParams = .ok c) : c.op = op ∧ c.ctx = ctx := by
  have hmap : ∀ {α : Type} (x : Except GoError α) (f : α → Call),
      x.map f = .ok c → ∃ v, c = f v := by
    intro α x f hx
    cases x with
    | error e => simp [Except.map] at hx
    | ok v => exact ⟨v, by simpa [Except.map] using hx.symm⟩
  cases op
  · obtain ⟨v, rfl⟩ := hmap _ _ h; exact ⟨rfl, rfl⟩
  · obtain ⟨v, rfl⟩ := hmap _ _ h; exact ⟨rfl, rfl⟩
  · obtain ⟨v, rfl⟩ := hmap _ _ h; exact ⟨rfl, rfl⟩
  · simp only [Op.bind] at h
    cases hb : specBindBody marshaler.DecodePipelineUpdate req with
    | error e => simp [hb, Except.bind] at h
    | ok p =>
      cases hi : specBindId pathParams with
      | error e => simp [hb, hi, Except.bind] at h
      | ok v =>
        simp only [hb, hi, Except.bind] at h
        obtain ⟨e, rfl⟩ := hmap _ _ h
        exact ⟨rfl, rfl⟩
  · obtain ⟨v, rfl⟩ := hmap _ _ h; exact ⟨rfl, rfl⟩
  · obtain ⟨v, rfl⟩ := hmap _ _ h; exact ⟨rfl, rfl⟩
  · obtain ⟨v, rfl⟩ := hmap _ _ h; exact ⟨rfl, rfl⟩

/-- A handler log, for a request function that dispatches what binding gives,
is the log the inputs determine. -/
theorem log_serves_as (result : Call → Message × Option GoError) (isLocal : Bool) (op : Op)
    (bare : Context) (annotated : Except GoError Context) (outcome : Context → Outcome)
    (bound : Context → Except GoError Call) (md : Outcome → ServerMetadata) (tr : List Event)
    (hlog : HandlerLog result isLocal op op.rpcMethod op.httpPathPattern op.response bare
      annotated outcome md tr)
    (hdisp : ∀ actx, DispatchesBound (bound actx) result (outcome actx)) :
    ServesAs result isLocal op bare annotated bound (fun actx => md (outcome actx)) tr := by
  unfold ServesAs
  rcases hlog with ⟨err, rfl, htr⟩ | ⟨actx, rfl, hrest⟩
  · exact htr
  · have hd := hdisp actx
    unfold DispatchesBound at hd
    simp only []
    cases hb : bound actx with
    | error err =>
      rw [hb] at hd
      simp only [] at hd
      rcases hrest with ⟨e, _, herr, htr⟩ | ⟨c, hcalls, _⟩
      · rw [hd.2.2] at herr
        cases herr
        exact htr
      · rw [hd.1] at hcalls
        cases hcalls
    | ok c =>
      rw [hb] at hd
      simp only [] at hd
      rcases hrest with ⟨e, hcalls, _, _⟩ | ⟨c1, hcalls, _, _, _, hcase⟩
      · rw [hd.1] at hcalls
        cases hcalls
      · rw [hd.1] at hcalls
        cases hcalls
        rcases hcase with ⟨e, hres, htr⟩ | ⟨hres, htr⟩
        · simp only [hres]
          exact htr
        · simp only [hres]
          exact htr

theorem serves_as_responds_once (result : Call → Message × Option GoError) (isLocal : Bool)
    (op : Op) (bare : Context) (annotated : Except GoError Context)
    (bound : Context → Except GoError Call) (md : Context → ServerMetadata) (tr : List Event)
    (h : ServesAs result isLocal op bare annotated bound md tr) :
    RespondsOnce result annotated bound tr := by
  unfold ServesAs at h
  unfold RespondsOnce
  cases annotated with
  | error err =>
    simp only [] at h
    subst h
    simp [Event.isWrite, Event.isForward, Event.isRequest, Event.isInvoke]
  | ok actx =>
    simp only [] at h
    cases hb : bound actx with
    | error err =>
      rw [hb] at h
      simp only [] at h
      subst h
      simp [Event.isWrite, Event.isForward, Event.isRequest, Event.isInvoke, hb]
      intro a c ha hc
      subst ha
      rw [hb] at hc
      cases hc
    | ok c =>
      rw [hb] at h
      simp only [] at h
      cases hres : (result c).2 with
      | none =>
        rw [hres] at h
        simp only [] at h
        subst h
        simp [Event.isWrite, Event.isForward, Event.isRequest, Event.isInvoke, hb, hres]
        refine ⟨fun a e ha he => ?_, fun a c1 ha hc => ?_⟩
        · subst ha
          rw [hb] at he
          cases he
        · subst ha
          rw [hb] at hc
          cases hc
          rfl
      | some err =>
        rw [hres] at h
        simp only [] at h
        subst h
        simp [Event.isWrite, Event.isForward, Event.isRequest, Event.isInvoke, hb, hres]
        refine ⟨fun a e ha he => ?_, fun a c1 ha hc => ?_⟩
        · subst ha
          rw [hb] at he
          cases he
        · subst ha
          rw [hb] at hc
          cases hc
          rfl

/-- C8: for each of the fourteen request functions, binding being the three
steps of the specification on the inputs (`Op.bind`: body, then path capture,
then query): whenever binding succeeds with an envelope, the function invokes
its operation exactly once, with the context given and that envelope, and the
message and the error it returns are exactly the message and the error of that
invocation (of `client.X` for `request_*`, of `server.X` for
`local_request_*`), the error neither dropped nor wrapped nor mapped to
another; whenever binding fails nothing is invoked and a nil message is
returned with the bind error, an InvalidArgument status. -/
theorem request_functions_propagate_result (qp : QueryParser) (ctx : Context)
    (marshaler : Marshaler) (client : PipelineServiceClient) (server : PipelineServiceServer)
    (req : Request) (pathParams : List (String × String)) :
    (PropagatesOperation .CreatePipeline ctx (Call.viaClient client)
        (request_PipelineService_CreatePipeline_0 ctx marshaler client req pathParams) ∧
      DispatchesBound (Op.bind qp .CreatePipeline ctx marshaler req pathParams) (Call.viaClient client)
        (request_PipelineService_CreatePipeline_0 ctx marshaler client req pathParams)) ∧
    (PropagatesOperation .CreatePipeline ctx (Call.viaServer server)
        (local_request_PipelineService_CreatePipeline_0 ctx marshaler server req pathParams) ∧
      DispatchesBound (Op.bind qp .CreatePipeline ctx marshaler req pathParams) (Call.viaServer server)
        (local_request_PipelineService_CreatePipeline_0 ctx marshaler server req pathParams)) ∧
    (PropagatesOperation .GetPipeline ctx (Call.viaClient client)
        (request_PipelineService_GetPipeline_0 ctx marshaler client req pathParams) ∧
      DispatchesBound (Op.bind qp .GetPipeline ctx marshaler req pathParams) (Call.viaClient client)
        (request_PipelineService_GetPipeline_0 ctx marshaler client req pathParams)) ∧
    (PropagatesOperation .GetPipeline ctx (Call.viaServer server)
        (local_request_PipelineService_GetPipeline_0 ctx marshaler server req pathParams) ∧
      DispatchesBound (Op.bind qp .GetPipeline ctx marshaler req pathParams) (Call.viaServer server)
        (local_request_PipelineService_GetPipeline_0 ctx marshaler server req pathParams)) ∧
    (PropagatesOperation .ListPipelines ctx (Call.viaClient client)
        (request_PipelineService_ListPipelines_0 qp ctx marshaler client req pathParams) ∧
      DispatchesBound (Op.bind qp .ListPipelines ctx marshaler req pathParams) (Call.viaClient client)
        (request_PipelineService_ListPipelines_0 qp ctx marshaler client req pathParams)) ∧
    (PropagatesOperation .ListPipelines ctx (Call.viaServer server)
        (local_request_PipelineService_ListPipelines_0 qp ctx marshaler server req pathParams) ∧
      DispatchesBound (Op.bind qp .ListPipelines ctx marshaler req pathParams) (Call.viaServer server)
        (local_request_PipelineService_ListPipelines_0 qp ctx marshaler server req pathParams)) ∧
    (PropagatesOperation .UpdatePipeline ctx (Call.viaClient client)
        (request_PipelineService_UpdatePipeline_0 qp ctx marshaler client req pathParams) ∧
      DispatchesBound (Op.bind qp .UpdatePipeline ctx marshaler req pathParams) (Call.viaClient client)
        (request_PipelineService_UpdatePipeline_0 qp ctx marshaler client req pathParams)) ∧
    (PropagatesOperation .UpdatePipeline ctx (Call.viaServer server)
        (local_request_PipelineService_UpdatePipeline_0 qp ctx marshaler server req pathParams) ∧
      DispatchesBound (Op.bind qp .UpdatePipeline ctx marshaler req pathParams) (Call.viaServer server)
        (local_request_PipelineService_UpdatePipeline_0 qp ctx marshaler server req pathParams)) ∧
    (PropagatesOperation .DeletePipeline ctx (Call.viaClient client)
        (request_PipelineService_DeletePipeline_0 ctx marshaler client req pathParams) ∧
      DispatchesBound (Op.bind qp .DeletePipeline ctx marshaler req pathParams) (Call.viaClient client)
        (request_PipelineService_DeletePipeline_0 ctx marshaler client req pathParams)) ∧
    (PropagatesOperation .DeletePipeline ctx (Call.viaServer server)
        (local_request_PipelineService_DeletePipeline_0 ctx marshaler server req pathParams) ∧
      DispatchesBound (Op.bind qp .DeletePipeline ctx marshaler req pathParams) (Call.viaServer server)
        (local_request_PipelineService_DeletePipeline_0 ctx marshaler server req pathParams)) ∧
    (PropagatesOperation .StopPipeline ctx (Call.viaClient client)
        (request_PipelineService_StopPipeline_0 ctx marshaler client req pathParams) ∧
      DispatchesBound (Op.bind qp .StopPipeline ctx marshaler req pathParams) (Call.viaClient client)
        (request_PipelineService_StopPipeline_0 ctx marshaler client req pathParams)) ∧
    (PropagatesOperation .StopPipeline ctx (Call.viaServer server)
        (local_request_PipelineService_StopPipeline_0 ctx marshaler server req pathParams) ∧
      DispatchesBound (Op.bind qp .StopPipeline ctx marshaler req pathParams) (Call.viaServer server)
        (local_request_PipelineService_StopPipeline_0 ctx marshaler server req pathParams)) ∧
    (PropagatesOperation .StartPipeline ctx (Call.viaClient client)
        (request_PipelineService_StartPipeline_0 ctx marshaler client req pathParams) ∧
      DispatchesBound (Op.bind qp .StartPipeline ctx marshaler req pathParams) (Call.viaClient client)
        (request_PipelineService_StartPipeline_0 ctx marshaler client req pathParams)) ∧
    (PropagatesOperation .StartPipeline ctx (Call.viaServer server)
        (local_request_PipelineService_StartPipeline_0 ctx marshaler server req pathParams) ∧
      DispatchesBound (Op.bind qp .StartPipeline ctx marshaler req pathParams) (Call.viaServer server)
        (local_request_PipelineService_StartPipeline_0 ctx marshaler server req pathParams)) ∧
    (∀ (op : Op) (c : Call), Op.bind qp op ctx marshaler req pathParams = .ok c →
      c.op = op ∧ c.ctx = ctx) :=
  ⟨⟨remote_CreatePipeline_propagates ctx marshaler client req pathParams,
      remote_dispatches_bound qp client .CreatePipeline ctx marshaler req pathParams⟩,
    ⟨local_CreatePipeline_propagates ctx marshaler server req pathParams,
      local_dispatches_bound qp server .CreatePipeline ctx marshaler req pathParams⟩,
    ⟨remote_GetPipeline_propagates ctx marshaler client req pathParams,
      remote_dispatches_bound qp client .GetPipeline ctx marshaler req pathParams⟩,
    ⟨local_GetPipeline_propagates ctx marshaler server req pathParams,
      local_dispatches_bound qp server .GetPipeline ctx marshaler req pathParams⟩,
    ⟨remote_ListPipelines_propagates qp ctx marshaler client req pathParams,
      remote_dispatches_bound qp client .ListPipelines ctx marshaler req pathParams⟩,
    ⟨local_ListPipelines_propagates qp ctx marshaler server req pathParams,
      local_dispatches_bound qp server .ListPipelines ctx marshaler req pathParams⟩,
    ⟨remote_UpdatePipeline_propagates qp ctx marshaler client req pathParams,
      remote_dispatches_bound qp client .UpdatePipeline ctx marshaler req pathParams⟩,
    ⟨local_UpdatePipeline_propagates qp ctx marshaler server req pathParams,
      local_dispatches_bound qp server .UpdatePipeline ctx marshaler req pathParams⟩,
    ⟨remote_DeletePipeline_propagates ctx marshaler client req pathParams,
      remote_dispatches_bound qp client .DeletePipeline ctx marshaler req pathParams⟩,
    ⟨local_DeletePipeline_propagates ctx marshaler server req pathParams,
      local_dispatches_bound qp server .DeletePipeline ctx marshaler req pathParams⟩,
    ⟨remote_StopPipeline_propagates ctx marshaler client req pathParams,
      remote_dispatches_bound qp client .StopPipeline ctx marshaler req pathParams⟩,
    ⟨local_StopPipeline_propagates ctx marshaler server req pathParams,
      local_dispatches_bound qp server .StopPipeline ctx marshaler req pathParams⟩,
    ⟨remote_StartPipeline_propagates ctx marshaler client req pathParams,
      remote_dispatches_bound qp client .StartPipeline ctx marshaler req pathParams⟩,
    ⟨local_StartPipeline_propagates ctx marshaler server req pathParams,
      local_dispatches_bound qp server .StartPipeline ctx marshaler req pathParams⟩,
    fun op c h => bind_call_of_op qp op ctx marshaler req pathParams c h⟩

theorem request_functions_propagate_result_witness :
    Op.bind exampleQueryParser .GetPipeline {} exampleMarshaler (exampleRequest "" [])
        [("id", "missing")] = .ok (.GetPipeline {} { Id := "missing" }) ∧
    (request_PipelineService_GetPipeline_0 {} exampleMarshaler exampleClient
        (exampleRequest "" []) [("id", "missing")]).calls =
      [.GetPipeline {} { Id := "missing" }] ∧
    (request_PipelineService_GetPipeline_0 {} exampleMarshaler exampleClient
        (exampleRequest "" []) [("id", "missing")]).msg = some (.get none) ∧
    (request_PipelineService_GetPipeline_0 {} exampleMarshaler exampleClient
        (exampleRequest "" []) [("id", "missing")]).err =
      some (.status .NotFound "no pipeline") ∧
    Op.bind exampleQueryParser .UpdatePipeline {} exampleMarshaler
        (exampleRequest exampleBody [("update_mask", ["display_name"])]) [("id", "p1")] =
      .ok (.UpdatePipeline {}
        { Id := "p1", Pipeline := some { DisplayName := "x" },
          UpdateMask := some ["display_name"] }) ∧
    (local_request_PipelineService_UpdatePipeline_0 exampleQueryParser {} exampleMarshaler
        exampleServer (exampleRequest exampleBody [("update_mask", ["display_name"])])
        [("id", "p1")]).calls =
      [.UpdatePipeline {}
        { Id := "p1", Pipeline := some { DisplayName := "x" },
          UpdateMask := some ["display_name"] }] :=
  ⟨rfl,
    (request_functions_propagate_result exampleQueryParser {} exampleMarshaler exampleClient
      exampleServer (exampleRequest "" []) [("id", "missing")]).2.2.1.2.1,
    (request_functions_propagate_result exampleQueryParser {} exampleMarshaler exampleClient
      exampleServer (exampleRequest "" []) [("id", "missing")]).2.2.1.2.2.1,
    (request_functions_propagate_result exampleQueryParser {} exampleMarshaler exampleClient
      exampleServer (exampleRequest "" []) [("id", "missing")]).2.2.1.2.2.2,
    rfl,
    (request_functions_propagate_result exampleQueryParser {} exampleMarshaler exampleClient
      exampleServer (exampleRequest exampleBody [("update_mask", ["display_name"])])
      [("id", "p1")]).2.2.2.2.2.2.2.1.2.1⟩

/-! ## One response per request -/

theorem server_route_serves (qp : QueryParser) (mux : ServeMux) (server : PipelineServiceServer)
    (req : Request) (pathParams : List (String × String)) (r : Route)
    (hr : r ∈ addedRoutes mux (RegisterPipelineServiceHandlerServer qp mux server)) :
    ∃ op, r.meth = op.httpMethod ∧ r.pat = op.pattern ∧
      ServesAs (Call.viaServer server) true op
        (grpc_NewContextWithServerTransportStream req.Context)
        (mux.AnnotateIncomingContext (grpc_NewContextWithServerTransportStream req.Context)
          req op.rpcMethod op.httpPathPattern)
        (fun actx => op.bind qp actx (mux.MarshalerForRequest req).1 req pathParams)
        (fun actx => (op.local_request qp server actx (mux.MarshalerForRequest req).1 req
          pathParams).joined)
        (r.h req pathParams) := by
  obtain ⟨op, hm, hp, hlog⟩ := server_route_log qp mux server r hr
  exact ⟨op, hm, hp, log_serves_as _ _ _ _ _ _ _ _ _ (hlog req pathParams)
    (fun actx => local_dispatches_bound qp server op actx _ req pathParams)⟩

theorem client_route_serves (qp : QueryParser) (mux : ServeMux) (client : PipelineServiceClient)
    (req : Request) (pathParams : List (String × String)) (r : Route)
    (hr : r ∈ addedRoutes mux (RegisterPipelineServiceHandlerClient qp mux client)) :
    ∃ op, r.meth = op.httpMethod ∧ r.pat = op.pattern ∧
      ServesAs (Call.viaClient client) false op req.Context
        (mux.AnnotateContext req.Context req op.rpcMethod op.httpPathPattern)
        (fun actx => op.bind qp actx (mux.MarshalerForRequest req).1 req pathParams)
        (fun actx => (op.request qp client actx (mux.MarshalerForRequest req).1 req
          pathParams).metadata)
        (r.h req pathParams) := by
  obtain ⟨op, hm, hp, hlog⟩ := client_route_log qp mux client r hr
  exact ⟨op, hm, hp, log_serves_as _ _ _ _ _ _ _ _ _ (hlog req pathParams)
    (fun actx => remote_dispatches_bound qp client op actx _ req pathParams)⟩

/-- C10: every handler registered by the server and by the client
registration (seven each, one per operation), for every request and
path-parameter map, writes exactly one response, and its log is the one the
inputs determine. If the annotation of the context (the real result of
`AnnotateIncomingContext`, resp. `AnnotateContext`, for the method name and
path pattern of the operation) fails, the handler writes that error with
`runtime.HTTPError` and calls neither the request function nor the operation.
If annotation succeeds and binding (the three steps of the specification on
the annotated context, `Op.bind`) fails, the request function is called, the
operation is not invoked, and the bind error is written. If binding succeeds
the operation is invoked exactly once with the bound envelope; its error, if
any, is written, and otherwise its message is forwarded. Hence exactly one of
error writer and forwarder is called, exactly once, and the forwarder is
called if and only if annotation, binding and dispatch all succeed. -/
theorem handlers_write_one_response (qp : QueryParser) (mux : ServeMux)
    (server : PipelineServiceServer) (client : PipelineServiceClient) (req : Request)
    (pathParams : List (String × String)) :
    (addedRoutes mux (RegisterPipelineServiceHandlerServer qp mux server)).length = 7 ∧
    (addedRoutes mux (RegisterPipelineServiceHandlerClient qp mux client)).length = 7 ∧
    (∀ r ∈ addedRoutes mux (RegisterPipelineServiceHandlerServer qp mux server),
      Served (Call.viaServer server) (r.h req pathParams) ∧
      WritesOneResponse (Call.viaServer server) (r.h req pathParams)) ∧
    (∀ r ∈ addedRoutes mux (RegisterPipelineServiceHandlerClient qp mux client),
      Served (Call.viaClient client) (r.h req pathParams) ∧
      WritesOneResponse (Call.viaClient client) (r.h req pathParams)) ∧
    routeTable (addedRoutes mux (RegisterPipelineServiceHandlerServer qp mux server)) =
      Op.all.map (fun op => (op.httpMethod, op.pattern)) ∧
    routeTable (addedRoutes mux (RegisterPipelineServiceHandlerClient qp mux client)) =
      Op.all.map (fun op => (op.httpMethod, op.pattern)) ∧
    (∀ r ∈ addedRoutes mux (RegisterPipelineServiceHandlerServer qp mux server),
      ∃ op, r.meth = op.httpMethod ∧ r.pat = op.pattern ∧
        ServesAs (Call.viaServer server) true op
          (grpc_NewContextWithServerTransportStream req.Context)
          (mux.AnnotateIncomingContext (grpc_NewContextWithServerTransportStream req.Context)
            req op.rpcMethod op.httpPathPattern)
          (fun actx => op.bind qp actx (mux.MarshalerForRequest req).1 req pathParams)
          (fun actx => (op.local_request qp server actx (mux.MarshalerForRequest req).1 req
            pathParams).joined)
          (r.h req pathParams) ∧
        RespondsOnce (Call.viaServer server)
          (mux.AnnotateIncomingContext (grpc_NewContextWithServerTransportStream req.Context)
            req op.rpcMethod op.httpPathPattern)
          (fun actx => op.bind qp actx (mux.MarshalerForRequest req).1 req pathParams)
          (r.h req pathParams)) ∧
    (∀ r ∈ addedRoutes mux (RegisterPipelineServiceHandlerClient qp mux client),
      ∃ op, r.meth = op.httpMethod ∧ r.pat = op.pattern ∧
        ServesAs (Call.viaClient client) false op req.Context
          (mux.AnnotateContext req.Context req op.rpcMethod op.httpPathPattern)
          (fun actx => op.bind qp actx (mux.MarshalerForRequest req).1 req pathParams)
          (fun actx => (op.request qp client actx (mux.MarshalerForRequest req).1 req
            pathParams).metadata)
          (r.h req pathParams) ∧
        RespondsOnce (Call.viaClient client)
          (mux.AnnotateContext req.Context req op.rpcMethod op.httpPathPattern)
          (fun actx => op.bind qp actx (mux.MarshalerForRequest req).1 req pathParams)
          (r.h req pathParams)) := by
  refine ⟨by rw [server_routes]; rfl, by rw [client_routes]; rfl, ?_, ?_,
    by rw [server_routes_table]; rfl, by rw [client_routes_table]; rfl, ?_, ?_⟩
  · intro r hr
    have h := server_routes_served qp mux server req pathParams r hr
    exact ⟨h, served_writes_one_response _ _ h⟩
  · intro r hr
    have h := client_routes_served qp mux client req pathParams r hr
    exact ⟨h, served_writes_one_response _ _ h⟩
  · intro r hr
    obtain ⟨op, hm, hp, hs⟩ := server_route_serves qp mux server req pathParams r hr
    exact ⟨op, hm, hp, hs, serves_as_responds_once _ _ _ _ _ _ _ _ hs⟩
  · intro r hr
    obtain ⟨op, hm, hp, hs⟩ := client_route_serves qp mux client req pathParams r hr
    exact ⟨op, hm, hp, hs, serves_as_responds_once _ _ _ _ _ _ _ _ hs⟩

theorem handlers_write_one_response_witness :
    (addedRoutes exampleMux
        (RegisterPipelineServiceHandlerClient exampleQueryParser exampleMux
          exampleClient)).map (fun r => r.h (exampleRequest "" []) []) =
      [[.annotate false "/redpanda.api.dataplane.v1alpha2.PipelineService/CreatePipeline"
            "/v1alpha2/redpanda-connect/pipelines" none,
          .request false .CreatePipeline,
          .invoke (.CreatePipeline
            { rpcMethod :=
                some "/redpanda.api.dataplane.v1alpha2.PipelineService/CreatePipeline",
              httpPathPattern := some "/v1alpha2/redpanda-connect/pipelines" } {}),
          .forward .CreatePipeline
            { rpcMethod :=
                some "/redpanda.api.dataplane.v1alpha2.PipelineService/CreatePipeline",
              httpPathPattern := some "/v1alpha2/redpanda-connect/pipelines",
              serverMetadata := some {} }
            (.response_PipelineService_CreatePipeline_0
              (some (.create (some { Pipeline := some { Id := "new" } }))))],
        [.annotate false "/redpanda.api.dataplane.v1alpha2.PipelineService/GetPipeline"
            "/v1alpha2/redpanda-connect/pipelines/{id}" none,
          .request false .GetPipeline,
          .HTTPError
            { rpcMethod := some "/redpanda.api.dataplane.v1alpha2.PipelineService/GetPipeline",
              httpPathPattern := some "/v1alpha2/redpanda-connect/pipelines/{id}",
              serverMetadata := some {} }
            (.status .InvalidArgument "missing parameter id")]] ++
      ((addedRoutes exampleMux
        (RegisterPipelineServiceHandlerClient exampleQueryParser exampleMux
          exampleClient)).drop 2).map (fun r => r.h (exampleRequest "" []) []) ∧
    ∀ r ∈ addedRoutes exampleMux
        (RegisterPipelineServiceHandlerClient exampleQueryParser exampleMux exampleClient),
      ∃ op, r.meth = op.httpMethod ∧ r.pat = op.pattern ∧
        ServesAs (Call.viaClient exampleClient) false op (exampleRequest "" []).Context
          (exampleMux.AnnotateContext (exampleRequest "" []).Context (exampleRequest "" [])
            op.rpcMethod op.httpPathPattern)
          (fun actx => op.bind exampleQueryParser actx
            (exampleMux.MarshalerForRequest (exampleRequest "" [])).1 (exampleRequest "" []) [])
          (fun actx => (op.request exampleQueryParser exampleClient actx
            (exampleMux.MarshalerForRequest (exampleRequest "" [])).1 (exampleRequest "" [])
            []).metadata)
          (r.h (exampleRequest "" []) []) ∧
        RespondsOnce (Call.viaClient exampleClient)
          (exampleMux.AnnotateContext (exampleRequest "" []).Context (exampleRequest "" [])
            op.rpcMethod op.httpPathPattern)
          (fun actx => op.bind exampleQueryParser actx
            (exampleMux.MarshalerForRequest (exampleRequest "" [])).1 (exampleRequest "" []) [])
          (r.h (exampleRequest "" []) []) :=
  ⟨by rw [client_routes]; decide,
    (handlers_write_one_response exampleQueryParser exampleMux exampleServer exampleClient
      (exampleRequest "" []) []).2.2.2.2.2.2.2⟩

end Gateway
